import Mathlib

/-!
# Tractyl Manuform: pointer-mode engine, sticky keys and config sync

A shallow embedding of

* `keyboards/handwired/tractyl_manuform/tractyl_manuform.c`
* `keyboards/handwired/tractyl_manuform/5x6_right/keymaps/schievel/schievel.c`

Conventions of the embedding.

* Every C global and every function-local `static` is a field of `World`; a C
  function that mutates them is a function `World → … → World`.
* The static helpers that take a `charybdis_config_t* config` are only ever
  called with `&g_charybdis_config`; the parameter is therefore the
  `g_charybdis_config` field of the world.
* Machine integers are `Nat`/`Int`. A store that can leave the range of an
  `int8_t`, `int16_t`, `uint16_t` or bit-field object is reduced explicitly to
  the width of the object. Intermediate values of type `int` are exact: the
  embedding describes targets whose `int` holds the sum of two 16-bit
  magnitudes.
* Loops whose counter is an `int8_t` can fail to terminate (the counter wraps
  from 127 to -128); they take a fuel argument and return `none` when the fuel
  is exhausted.
* The options that the sources test with `#ifdef` and never define are the
  fields of `BuildOpts`; numeric `#ifndef` defaults take the default value.
-/

namespace Tractyl

/-! ## Machine integers -/

/-- Conversion of an `int` value to `int8_t` (two's complement, modulo 2^8). -/
def wrap8 (v : Int) : Int := (v + 128) % 256 - 128

/-- Conversion of an `int` value to `int16_t` (two's complement, modulo 2^16). -/
def wrap16 (v : Int) : Int := (v + 32768) % 65536 - 32768

/-- The C library `abs` on an `int` operand. -/
def abs (v : Int) : Int := if v < 0 then -v else v

/-- Source `int max(int num1, int num2) { return (num1 > num2) ? num1 : num2; }` -/
def max (num1 num2 : Int) : Int := if num1 > num2 then num1 else num2

/-- Source `int min(int num1, int num2) { return (num1 > num2) ? num2 : num1; }` -/
def min (num1 num2 : Int) : Int := if num1 > num2 then num2 else num1

/-! ## Constants (`#ifndef` defaults of `tractyl_manuform.c`) -/

def CHARYBDIS_MINIMUM_DEFAULT_DPI : Nat := 400
def CHARYBDIS_DEFAULT_DPI_CONFIG_STEP : Nat := 200
def CHARYBDIS_MINIMUM_SNIPING_DPI : Nat := 200
def CHARYBDIS_SNIPING_DPI_CONFIG_STEP : Nat := 100
def CHARYBDIS_DRAGSCROLL_DPI : Nat := 100
def CHARYBDIS_DRAGSCROLL_BUFFER_SIZE : Int := 6
def CHARYBDIS_CARRET_BUFFER : Int := 40
def CHARYBDIS_POINTER_ACCELERATION_FACTOR : Int := 24

/-- Modelled from the spec: the keycodes named by the sources (QMK `keycode.h`
is not among the source files). The values are the USB HID usage ids QMK
assigns to these names. -/
def KC_ESC : Nat := 0x29
def KC_RIGHT : Nat := 0x4F
def KC_LEFT : Nat := 0x50
def KC_DOWN : Nat := 0x51
def KC_UP : Nat := 0x52
def KC_AUDIO_VOL_UP : Nat := 0xA9
def KC_AUDIO_VOL_DOWN : Nat := 0xAA
def KC_BRIGHTNESS_UP : Nat := 0xBD
def KC_BRIGHTNESS_DOWN : Nat := 0xBE
def KC_LCTL : Nat := 0xE0
def KC_LSFT : Nat := 0xE1
def KC_LALT : Nat := 0xE2
def KC_LGUI : Nat := 0xE3

def CUSTOM_FN_RIGHT : Nat := KC_BRIGHTNESS_UP
def CUSTOM_FN_LEFT : Nat := KC_BRIGHTNESS_DOWN
def CUSTOM_FN_UP : Nat := KC_AUDIO_VOL_UP
def CUSTOM_FN_DOWN : Nat := KC_AUDIO_VOL_DOWN

/-- Modelled from the spec: QMK's `MOD_BIT(code)`, `1 << (code & 0x07)`, the
bit of a modifier keycode in the 8-bit modifier mask. -/
def MOD_BIT (code : Nat) : Nat := 1 <<< (code &&& 0x07)

/-- Layer numbers of `schievel.c`. -/
def _LOWER : Nat := 1
def _RAISE : Nat := 2

/-- Source `STICKY_TERM` of `schievel.c` (defined, never read). -/
def STICKY_TERM : Nat := 500

/-- Values of `td_state_t` and the third value returned by `cur_dance`. -/
def SINGLE_TAP : Int := 0
def SINGLE_HOLD : Int := 1

/-! ## Data model -/

/-- Options tested with `#ifdef` in `tractyl_manuform.c`; none of them is
defined in the sources, so the default build has every field `false`. -/
structure BuildOpts where
  CHARYBDIS_DRAGSCROLL_REVERSE_X : Bool
  CHARYBDIS_DRAGSCROLL_REVERSE_Y : Bool
  CHARYBDIS_CARRET_REVERSE_X : Bool
  CHARYBDIS_CARRET_REVERSE_Y : Bool
  CHARYBDIS_POINTER_ACCELERATION_ENABLE : Bool
deriving DecidableEq

/-- The build with no option defined. -/
def defaultBuild : BuildOpts :=
  { CHARYBDIS_DRAGSCROLL_REVERSE_X := false
    CHARYBDIS_DRAGSCROLL_REVERSE_Y := false
    CHARYBDIS_CARRET_REVERSE_X := false
    CHARYBDIS_CARRET_REVERSE_Y := false
    CHARYBDIS_POINTER_ACCELERATION_ENABLE := false }

/-- The packed bit-field struct of the union `charybdis_config_t`:
`pointer_default_dpi : 8`, `pointer_sniping_dpi : 1`, then six 1-bit flags.
The union member `raw` is a `uint8_t`: it overlays the first byte of the
struct, which is exactly `pointer_default_dpi`. -/
structure charybdis_config_t where
  pointer_default_dpi : Nat
  pointer_sniping_dpi : Nat
  is_dragscroll_enabled : Bool
  is_sniping_enabled : Bool
  is_carret_enabled : Bool
  is_custom_enabled : Bool
  is_modemode_enabled : Bool
  is_integ_enabled : Bool
deriving DecidableEq

/-- The value `{0}` of the static initialisers. -/
def charybdis_config_t.zero : charybdis_config_t :=
  { pointer_default_dpi := 0
    pointer_sniping_dpi := 0
    is_dragscroll_enabled := false
    is_sniping_enabled := false
    is_carret_enabled := false
    is_custom_enabled := false
    is_modemode_enabled := false
    is_integ_enabled := false }

/-- The bit-fields hold values of their width. -/
def charybdis_config_t.wf (c : charybdis_config_t) : Prop :=
  c.pointer_default_dpi < 256 ∧ c.pointer_sniping_dpi < 2

instance (c : charybdis_config_t) : Decidable c.wf := by
  unfold charybdis_config_t.wf; infer_instance

/-- Reading the union member `raw`. -/
def charybdis_config_t.raw (c : charybdis_config_t) : Nat :=
  c.pointer_default_dpi % 256

/-- Writing the union member `raw`: only the first byte of the object changes. -/
def charybdis_config_t.set_raw (c : charybdis_config_t) (v : Nat) : charybdis_config_t :=
  { c with pointer_default_dpi := v % 256 }

/-- The fields of `report_mouse_t` the sources use. -/
structure report_mouse_t where
  buttons : Nat
  x : Int
  y : Int
  v : Int
  h : Int
deriving DecidableEq

/-- A key event delivered to the host by `register_code` / `unregister_code`. -/
inductive KeyEvent where
  | press (code : Nat)
  | release (code : Nat)
deriving DecidableEq

/-- The fields of `qk_tap_dance_state_t` the sources use. -/
structure qk_tap_dance_state_t where
  count : Nat
  interrupted : Bool
  pressed : Bool
deriving DecidableEq

/-- All mutable state of the two translation units and of the collaborators
they drive. -/
structure World where
  /-- Source `static charybdis_config_t g_charybdis_config`. -/
  g_charybdis_config : charybdis_config_t
  /-- The 32-bit keyboard word of the persistent store (`eeconfig_*_kb`). -/
  eeprom_kb : Nat
  /-- The value last passed to `pointing_device_set_cpi`. -/
  cpi : Nat
  /-- Statics of `pointing_device_task_charybdis`. -/
  move_buffer_x : Int
  move_buffer_y : Int
  local_mouse_report_x : Int
  local_mouse_report_y : Int
  /-- Key events sent so far, oldest first. -/
  key_events : List KeyEvent
  /-- The registered modifier bits (8-bit mask). -/
  real_mods : Nat
  /-- The layer state (32-bit mask). -/
  layer_state : Nat
  /-- Globals of `schievel.c`. -/
  is_alt_active : Bool
  is_sft_active : Bool
  is_ctl_active : Bool
  is_gui_active : Bool
  is_low_active : Bool
  is_rai_active : Bool
  activate_alt : Bool
  activate_sft : Bool
  activate_ctl : Bool
  activate_gui : Bool
  activate_low : Bool
  activate_rai : Bool
  sticky_key : Bool
  sticky_timer : Nat
  td_state : Int
  /-- Statics of `housekeeping_task_kb`. -/
  last_charybdis_config : charybdis_config_t
  last_sync : Nat
  /-- Payloads handed to `transaction_rpc_send`, oldest first. -/
  rpc_attempts : List charybdis_config_t
deriving DecidableEq

/-- The state after static initialisation. -/
def World.init : World :=
  { g_charybdis_config := charybdis_config_t.zero
    eeprom_kb := 0
    cpi := 0
    move_buffer_x := 0
    move_buffer_y := 0
    local_mouse_report_x := 0
    local_mouse_report_y := 0
    key_events := []
    real_mods := 0
    layer_state := 0
    is_alt_active := false
    is_sft_active := false
    is_ctl_active := false
    is_gui_active := false
    is_low_active := false
    is_rai_active := false
    activate_alt := false
    activate_sft := false
    activate_ctl := false
    activate_gui := false
    activate_low := false
    activate_rai := false
    sticky_key := false
    sticky_timer := 0
    td_state := 0
    last_charybdis_config := charybdis_config_t.zero
    last_sync := 0
    rpc_attempts := [] }

/-! ## ConfigStore and DPIController (`tractyl_manuform.c`) -/

/-- Source `read_charybdis_config_from_eeprom`: `raw` is loaded from the low byte of
the stored word, then the six transient flags are cleared. -/
def read_charybdis_config_from_eeprom (w : World) : World :=
  { w with g_charybdis_config :=
      { (w.g_charybdis_config.set_raw (w.eeprom_kb &&& 0xff)) with
        is_dragscroll_enabled := false
        is_sniping_enabled := false
        is_carret_enabled := false
        is_custom_enabled := false
        is_modemode_enabled := false
        is_integ_enabled := false } }

/-- Source `write_charybdis_config_to_eeprom`: `eeconfig_update_kb(config->raw)`. -/
def write_charybdis_config_to_eeprom (w : World) : World :=
  { w with eeprom_kb := w.g_charybdis_config.raw }

/-- Source `get_pointer_default_dpi`, a `uint16_t`. -/
def get_pointer_default_dpi (config : charybdis_config_t) : Nat :=
  (config.pointer_default_dpi * CHARYBDIS_DEFAULT_DPI_CONFIG_STEP
    + CHARYBDIS_MINIMUM_DEFAULT_DPI) % 65536

/-- Source `get_pointer_sniping_dpi`, a `uint16_t`. -/
def get_pointer_sniping_dpi (config : charybdis_config_t) : Nat :=
  (config.pointer_sniping_dpi * CHARYBDIS_SNIPING_DPI_CONFIG_STEP
    + CHARYBDIS_MINIMUM_SNIPING_DPI) % 65536

/-- Source `pointing_device_set_cpi`: the sensor keeps the value it was given. -/
def pointing_device_set_cpi (w : World) (cpi : Nat) : World :=
  { w with cpi := cpi }

/-- Source `maybe_update_pointing_device_cpi`. -/
def maybe_update_pointing_device_cpi (w : World) : World :=
  if w.g_charybdis_config.is_dragscroll_enabled then
    pointing_device_set_cpi w CHARYBDIS_DRAGSCROLL_DPI
  else if w.g_charybdis_config.is_sniping_enabled then
    pointing_device_set_cpi w (get_pointer_sniping_dpi w.g_charybdis_config)
  else
    pointing_device_set_cpi w (get_pointer_default_dpi w.g_charybdis_config)

/-- Source `step_pointer_default_dpi`: `config->pointer_default_dpi += forward ? 1 : -1`
on an 8-bit field. -/
def step_pointer_default_dpi (w : World) (forward : Bool) : World :=
  maybe_update_pointing_device_cpi
    { w with g_charybdis_config :=
        { w.g_charybdis_config with
          pointer_default_dpi :=
            (((w.g_charybdis_config.pointer_default_dpi : Int)
              + (if forward then 1 else -1)) % 256).toNat } }

/-- Source `step_pointer_sniping_dpi`: `config->pointer_sniping_dpi += forward ? 1 : -1`
on a 1-bit field. -/
def step_pointer_sniping_dpi (w : World) (forward : Bool) : World :=
  maybe_update_pointing_device_cpi
    { w with g_charybdis_config :=
        { w.g_charybdis_config with
          pointer_sniping_dpi :=
            (((w.g_charybdis_config.pointer_sniping_dpi : Int)
              + (if forward then 1 else -1)) % 2).toNat } }

def charybdis_get_pointer_default_dpi (w : World) : Nat :=
  get_pointer_default_dpi w.g_charybdis_config

def charybdis_get_pointer_sniping_dpi (w : World) : Nat :=
  get_pointer_sniping_dpi w.g_charybdis_config

def charybdis_cycle_pointer_default_dpi_noeeprom (w : World) (forward : Bool) : World :=
  step_pointer_default_dpi w forward

def charybdis_cycle_pointer_default_dpi (w : World) (forward : Bool) : World :=
  write_charybdis_config_to_eeprom (step_pointer_default_dpi w forward)

def charybdis_cycle_pointer_sniping_dpi_noeeprom (w : World) (forward : Bool) : World :=
  step_pointer_sniping_dpi w forward

def charybdis_cycle_pointer_sniping_dpi (w : World) (forward : Bool) : World :=
  write_charybdis_config_to_eeprom (step_pointer_sniping_dpi w forward)

/-! ## Mode flags (`tractyl_manuform.c`) -/

def charybdis_get_pointer_sniping_enabled (w : World) : Bool :=
  w.g_charybdis_config.is_sniping_enabled

def charybdis_set_pointer_sniping_enabled (w : World) (enable : Bool) : World :=
  maybe_update_pointing_device_cpi
    { w with g_charybdis_config := { w.g_charybdis_config with is_sniping_enabled := enable } }

/-- Source `charybdis_set_pointer_disable_nonstacking`: clears three flags. -/
def charybdis_set_pointer_disable_nonstacking (w : World) : World :=
  { w with g_charybdis_config :=
      { w.g_charybdis_config with
        is_dragscroll_enabled := false
        is_carret_enabled := false
        is_custom_enabled := false } }

def charybdis_get_pointer_dragscroll_enabled (w : World) : Bool :=
  w.g_charybdis_config.is_dragscroll_enabled

def charybdis_set_pointer_dragscroll_enabled (w : World) (enable : Bool) : World :=
  let w1 := charybdis_set_pointer_disable_nonstacking w
  maybe_update_pointing_device_cpi
    { w1 with g_charybdis_config := { w1.g_charybdis_config with is_dragscroll_enabled := enable } }

def charybdis_get_pointer_carret_enabled (w : World) : Bool :=
  w.g_charybdis_config.is_carret_enabled

def charybdis_set_pointer_carret_enabled (w : World) (enable : Bool) : World :=
  let w1 := charybdis_set_pointer_disable_nonstacking w
  maybe_update_pointing_device_cpi
    { w1 with g_charybdis_config := { w1.g_charybdis_config with is_carret_enabled := enable } }

def charybdis_get_pointer_custom_enabled (w : World) : Bool :=
  w.g_charybdis_config.is_custom_enabled

def charybdis_set_pointer_custom_enabled (w : World) (enable : Bool) : World :=
  let w1 := charybdis_set_pointer_disable_nonstacking w
  maybe_update_pointing_device_cpi
    { w1 with g_charybdis_config := { w1.g_charybdis_config with is_custom_enabled := enable } }

def charybdis_get_pointer_modemode_enabled (w : World) : Bool :=
  w.g_charybdis_config.is_modemode_enabled

def charybdis_set_pointer_modemode_enabled (w : World) (enable : Bool) : World :=
  maybe_update_pointing_device_cpi
    { w with g_charybdis_config := { w.g_charybdis_config with is_modemode_enabled := enable } }

def charybdis_get_pointer_integ_enabled (w : World) : Bool :=
  w.g_charybdis_config.is_integ_enabled

def charybdis_set_pointer_integ_enabled (w : World) (enable : Bool) : World :=
  maybe_update_pointing_device_cpi
    { w with g_charybdis_config := { w.g_charybdis_config with is_integ_enabled := enable } }

def pointing_device_init_kb (w : World) : World :=
  maybe_update_pointing_device_cpi w

/-! ## MotionModeEngine (`tractyl_manuform.c`) -/

/-- Source `CONSTRAIN_HID(value)`. -/
def CONSTRAIN_HID (value : Int) : Int :=
  if value < -127 then -127 else (if value > 127 then 127 else value)

/-- Source `DISPLACEMENT_WITH_ACCELERATION(d)`; `/` of C truncates towards zero. -/
def DISPLACEMENT_WITH_ACCELERATION (o : BuildOpts) (d : Int) : Int :=
  if o.CHARYBDIS_POINTER_ACCELERATION_ENABLE then
    CONSTRAIN_HID
      (if d > 0 then Int.tdiv (d * d) CHARYBDIS_POINTER_ACCELERATION_FACTOR + d
       else Int.tdiv (-d * d) CHARYBDIS_POINTER_ACCELERATION_FACTOR + d)
  else d

/-- Modelled from the spec: `register_code` of the output interface, the press
half of a key tap. -/
def register_code (w : World) (code : Nat) : World :=
  { w with key_events := w.key_events ++ [KeyEvent.press code] }

/-- Modelled from the spec: `unregister_code` of the output interface, the
release half of a key tap. -/
def unregister_code (w : World) (code : Nat) : World :=
  { w with key_events := w.key_events ++ [KeyEvent.release code] }

/-- Source `tap_code_fast`. -/
def tap_code_fast (w : World) (code : Nat) : World :=
  unregister_code (register_code w code) code

/-- Modelled from the spec: QMK's `tap_code`, one press and release of `code`. -/
def tap_code (w : World) (code : Nat) : World :=
  unregister_code (register_code w code) code

/-- The loop `for (int8_t i = i0; i <= bound; i++) body`, where `bound` is
re-evaluated on the current state before every iteration and `i++` wraps in
8 bits. Returns `none` when `fuel` iterations did not reach the exit. -/
def for_int8 (bound : World → Int) (body : World → World) : Nat → Int → World → Option World
  | 0, _, _ => none
  | fuel + 1, i, w =>
    if i ≤ bound w then for_int8 bound body fuel (wrap8 (i + 1)) (body w) else some w

/-- The `uint16_t local_carret_dpi` computed at the head of `tap_tb`. -/
def local_carret_dpi (w : World) : Int :=
  let l : Int :=
    if w.g_charybdis_config.is_integ_enabled then CHARYBDIS_CARRET_BUFFER * 20
    else CHARYBDIS_CARRET_BUFFER
  if w.g_charybdis_config.is_sniping_enabled then l else l / 4

/-- Source `tap_tb`; the two pointers are always `&move_buffer_x`, `&move_buffer_y`.
The quotient in the loop bound has non-negative operands. -/
def tap_tb (fuel : Nat) (keycode0 keycode1 keycode2 keycode3 : Nat) (w : World) : Option World :=
  let t := local_carret_dpi w
  if abs w.move_buffer_x + abs w.move_buffer_y < t then some w
  else if abs w.move_buffer_x > abs w.move_buffer_y ∧ w.move_buffer_x > 0 then
    (for_int8 (fun s => (abs s.move_buffer_x + abs s.move_buffer_y) / t)
      (fun s =>
        let s1 := tap_code_fast s keycode0
        { s1 with move_buffer_x := wrap16 (max (s1.move_buffer_x - t) 0) })
      fuel 0 w).map (fun s => { s with move_buffer_y := 0 })
  else if abs w.move_buffer_x > abs w.move_buffer_y ∧ w.move_buffer_x ≤ 0 then
    (for_int8 (fun s => (abs s.move_buffer_x + abs s.move_buffer_y) / t)
      (fun s =>
        let s1 := tap_code_fast s keycode1
        { s1 with move_buffer_x := wrap16 (min (s1.move_buffer_x + t) 0) })
      fuel 0 w).map (fun s => { s with move_buffer_y := 0 })
  else if abs w.move_buffer_x ≤ abs w.move_buffer_y ∧ w.move_buffer_y > 0 then
    (for_int8 (fun s => (abs s.move_buffer_x + abs s.move_buffer_y) / t)
      (fun s =>
        let s1 := tap_code_fast s keycode2
        { s1 with move_buffer_y := wrap16 (max (s1.move_buffer_y - t) 0) })
      fuel 0 w).map (fun s => { s with move_buffer_x := 0 })
  else if abs w.move_buffer_x ≤ abs w.move_buffer_y ∧ w.move_buffer_y ≤ 0 then
    (for_int8 (fun s => (abs s.move_buffer_x + abs s.move_buffer_y) / t)
      (fun s =>
        let s1 := tap_code_fast s keycode3
        { s1 with move_buffer_y := wrap16 (min (s1.move_buffer_y + t) 0) })
      fuel 0 w).map (fun s => { s with move_buffer_x := 0 })
  else some w

/-- Source `tap_modes`; the two pointers are always `&move_buffer_x`, `&move_buffer_y`. -/
def tap_modes (fuel : Nat) (w : World) : Option World :=
  let t := CHARYBDIS_CARRET_BUFFER
  if abs w.move_buffer_x + abs w.move_buffer_y < t then some w
  else if abs w.move_buffer_x > abs w.move_buffer_y ∧ w.move_buffer_x > 0 then
    (for_int8 (fun s => (abs s.move_buffer_x + abs s.move_buffer_y) / t)
      (fun s =>
        let s1 := charybdis_set_pointer_dragscroll_enabled s true
        { s1 with move_buffer_x := wrap16 (max (s1.move_buffer_x - t) 0) })
      fuel 0 w).map (fun s => { s with move_buffer_y := 0 })
  else if abs w.move_buffer_x > abs w.move_buffer_y ∧ w.move_buffer_x ≤ 0 then
    (for_int8 (fun s => (abs s.move_buffer_x + abs s.move_buffer_y) / t)
      (fun s =>
        let s1 := charybdis_set_pointer_carret_enabled s true
        { s1 with move_buffer_x := wrap16 (min (s1.move_buffer_x + t) 0) })
      fuel 0 w).map (fun s => { s with move_buffer_y := 0 })
  else if abs w.move_buffer_x ≤ abs w.move_buffer_y ∧ w.move_buffer_y > 0 then
    (for_int8 (fun s => (abs s.move_buffer_x + abs s.move_buffer_y) / t)
      (fun s =>
        let s1 := charybdis_set_pointer_integ_enabled
          (charybdis_set_pointer_disable_nonstacking s) false
        { s1 with move_buffer_y := wrap16 (max (s1.move_buffer_y - t) 0) })
      fuel 0 w).map (fun s => { s with move_buffer_x := 0 })
  else if abs w.move_buffer_x ≤ abs w.move_buffer_y ∧ w.move_buffer_y ≤ 0 then
    (for_int8 (fun s => (abs s.move_buffer_x + abs s.move_buffer_y) / t)
      (fun s =>
        let s1 := charybdis_set_pointer_integ_enabled s true
        { s1 with move_buffer_y := wrap16 (min (s1.move_buffer_y + t) 0) })
      fuel 0 w).map (fun s => { s with move_buffer_x := 0 })
  else some w

/-- The first statement of `pointing_device_task_charybdis`: the sample is
added to, or replaces, `local_mouse_report_x/y`. -/
def load_local_mouse_report (w : World) (mouse_report : report_mouse_t) : World :=
  if w.g_charybdis_config.is_integ_enabled then
    { w with
      local_mouse_report_x := wrap16 (w.local_mouse_report_x + mouse_report.x)
      local_mouse_report_y := wrap16 (w.local_mouse_report_y + mouse_report.y) }
  else
    { w with
      local_mouse_report_x := wrap16 mouse_report.x
      local_mouse_report_y := wrap16 mouse_report.y }

/-- The `uint16_t local_dragscroll_buffer_size` set by the same statement. -/
def local_dragscroll_buffer_size (w : World) : Int :=
  if w.g_charybdis_config.is_integ_enabled then CHARYBDIS_DRAGSCROLL_BUFFER_SIZE * 300
  else CHARYBDIS_DRAGSCROLL_BUFFER_SIZE

/-- The two accumulation statements at the head of every special-mode branch of
`pointing_device_task_charybdis`: `move_buffer_x += local_mouse_report_x`
(`-=` when `reverse_x`) and likewise for `y`, stored in `int16_t`. -/
def add_sample (reverse_x reverse_y : Bool) (w : World) : World :=
  { w with
    move_buffer_x :=
      if reverse_x then wrap16 (w.move_buffer_x - w.local_mouse_report_x)
      else wrap16 (w.move_buffer_x + w.local_mouse_report_x)
    move_buffer_y :=
      if reverse_y then wrap16 (w.move_buffer_y - w.local_mouse_report_y)
      else wrap16 (w.move_buffer_y + w.local_mouse_report_y) }

/-- The two threshold tests that end the DragScroll branch of
`pointing_device_task_charybdis`: `if (abs(move_buffer_x) > size) { h = ±1;
move_buffer_x = 0; }`, then the same for `y` and `v`. -/
def dragscroll_emit (size : Int) (w : World) (mouse_report : report_mouse_t) :
    World × report_mouse_t :=
  let p3 : World × report_mouse_t :=
    if abs w.move_buffer_x > size then
      ({ w with move_buffer_x := 0 },
       { mouse_report with h := if w.move_buffer_x > 0 then 1 else -1 })
    else (w, mouse_report)
  let p4 : World × report_mouse_t :=
    if abs p3.1.move_buffer_y > size then
      ({ p3.1 with move_buffer_y := 0 },
       { p3.2 with v := if p3.1.move_buffer_y > 0 then 1 else -1 })
    else p3
  p4

/-- Source `pointing_device_task_charybdis`: the new state and the report left in
`*mouse_report`. The ModeSelect and Custom branches always use `+=` for x and
`-=` for y; the DragScroll and Caret branches follow their build options. -/
def pointing_device_task_charybdis (o : BuildOpts) (fuel : Nat) (w : World)
    (mouse_report : report_mouse_t) : Option (World × report_mouse_t) :=
  let w1 := load_local_mouse_report w mouse_report
  let size := local_dragscroll_buffer_size w
  if w1.g_charybdis_config.is_modemode_enabled then
    (tap_modes fuel (add_sample false true w1)).map
      (fun w3 => (w3, { mouse_report with x := 0, y := 0 }))
  else if w1.g_charybdis_config.is_dragscroll_enabled then
    some (dragscroll_emit size
      (add_sample o.CHARYBDIS_DRAGSCROLL_REVERSE_X o.CHARYBDIS_DRAGSCROLL_REVERSE_Y w1)
      { mouse_report with x := 0, y := 0 })
  else if w1.g_charybdis_config.is_carret_enabled then
    (tap_tb fuel KC_RIGHT KC_LEFT KC_UP KC_DOWN
        (add_sample o.CHARYBDIS_CARRET_REVERSE_X o.CHARYBDIS_CARRET_REVERSE_Y w1)).map
      (fun w3 => (w3, { mouse_report with x := 0, y := 0 }))
  else if w1.g_charybdis_config.is_custom_enabled then
    (tap_tb fuel CUSTOM_FN_RIGHT CUSTOM_FN_LEFT CUSTOM_FN_UP CUSTOM_FN_DOWN
        (add_sample false true w1)).map
      (fun w3 => (w3, { mouse_report with x := 0, y := 0 }))
  else if !w1.g_charybdis_config.is_sniping_enabled then
    some (w1,
      { mouse_report with
        x := DISPLACEMENT_WITH_ACCELERATION o mouse_report.x
        y := DISPLACEMENT_WITH_ACCELERATION o mouse_report.y })
  else some (w1, mouse_report)

/-- Consecutive polling ticks: the engine applied to each report in turn,
with the reports it leaves, oldest first. -/
def run_pointing_device_task (o : BuildOpts) (fuel : Nat) :
    World → List report_mouse_t → Option (World × List report_mouse_t)
  | w, [] => some (w, [])
  | w, r :: rs =>
    match pointing_device_task_charybdis o fuel w r with
    | none => none
    | some (w1, r1) =>
      match run_pointing_device_task o fuel w1 rs with
      | none => none
      | some (w2, outs) => some (w2, r1 :: outs)

/-! ## Boot and reset (`tractyl_manuform.c`) -/

/-- Source `eeconfig_init_kb`; the user hook `eeconfig_init_user` is empty. -/
def eeconfig_init_kb (w : World) : World :=
  maybe_update_pointing_device_cpi
    (write_charybdis_config_to_eeprom
      { w with g_charybdis_config := w.g_charybdis_config.set_raw 0 })

/-- Source `matrix_init_kb`; the sub and user hooks are empty. -/
def matrix_init_kb (w : World) : World :=
  read_charybdis_config_from_eeprom w

/-! ## SyncBridge (`tractyl_manuform.c`) -/

/-- Modelled from the spec: `timer_read32`, the millisecond clock reduced to
32 bits; `time` is the number of milliseconds since boot. -/
def timer_read32 (time : Nat) : Nat := time % 4294967296

/-- Modelled from the spec: `timer_elapsed32(last)`, the 32-bit difference
between the clock and `last`. -/
def timer_elapsed32 (time : Nat) (last : Nat) : Nat :=
  (timer_read32 time + 4294967296 - last % 4294967296) % 4294967296

/-- What the collaborators answer during one call of `housekeeping_task_kb`. -/
structure TickEnv where
  /-- Result of `is_keyboard_master()`. -/
  is_keyboard_master : Bool
  /-- Clock (ms since boot) when `timer_elapsed32(last_sync)` is evaluated. -/
  time_check : Nat
  /-- Result of `transaction_rpc_send`, should it be called. -/
  send_ok : Bool
  /-- Clock (ms since boot) when `timer_read32()` is called after the send. -/
  time_sent : Nat
deriving DecidableEq

/-- Source `housekeeping_task_kb`. `memcmp`/`memcpy` over the whole config object are
equality and assignment of the config; every call of `transaction_rpc_send`
is recorded in `rpc_attempts`. -/
def housekeeping_task_kb (w : World) (env : TickEnv) : World :=
  if env.is_keyboard_master then
    let changed : Bool := decide (w.g_charybdis_config ≠ w.last_charybdis_config)
    let w1 : World :=
      if changed then { w with last_charybdis_config := w.g_charybdis_config } else w
    let needs_sync : Bool := changed || decide (timer_elapsed32 env.time_check w1.last_sync > 500)
    if needs_sync then
      let w2 : World := { w1 with rpc_attempts := w1.rpc_attempts ++ [w1.g_charybdis_config] }
      if env.send_ok then { w2 with last_sync := timer_read32 env.time_sent } else w2
    else w1
  else w

/-! ## StickyKeyArbiter (`schievel.c`) -/

/-- Modelled from the spec: `register_mods` of the output interface sets the
given bits of the modifier mask. -/
def register_mods (w : World) (mods : Nat) : World :=
  { w with real_mods := w.real_mods ||| mods }

/-- Modelled from the spec: `unregister_mods` of the output interface clears
the given bits of the 8-bit modifier mask (`real_mods &= ~mods`). -/
def unregister_mods (w : World) (mods : Nat) : World :=
  { w with real_mods := w.real_mods &&& (0xff ^^^ mods) }

/-- Modelled from the spec: `layer_on` of the output interface sets the bit of
the layer in the layer state. -/
def layer_on (w : World) (layer : Nat) : World :=
  { w with layer_state := w.layer_state ||| (1 <<< layer) }

/-- Modelled from the spec: `layer_off` of the output interface clears the bit
of the layer in the 32-bit layer state. -/
def layer_off (w : World) (layer : Nat) : World :=
  { w with layer_state := w.layer_state &&& (0xffffffff ^^^ (1 <<< layer)) }

/-- Source `cur_dance`. -/
def cur_dance (state : qk_tap_dance_state_t) : Int :=
  if state.count = 1 then
    if !state.pressed then SINGLE_TAP else SINGLE_HOLD
  else 2

/-- Source `unstick_keys`, first statement: `if (MOD_BIT(KC_LALT)) { … }`; the
condition tests a constant. -/
def unstick_alt (w : World) : World :=
  if MOD_BIT KC_LALT ≠ 0 then
    { unregister_mods w (MOD_BIT KC_LALT) with is_alt_active := false }
  else w

/-- Source `unstick_keys`, second statement: `if (MOD_BIT(KC_LSFT)) { … }`. -/
def unstick_sft (w : World) : World :=
  if MOD_BIT KC_LSFT ≠ 0 then
    { unregister_mods w (MOD_BIT KC_LSFT) with is_sft_active := false }
  else w

/-- Source `unstick_keys`, third statement: `if (MOD_BIT(KC_LCTL)) { … }`. -/
def unstick_ctl (w : World) : World :=
  if MOD_BIT KC_LCTL ≠ 0 then
    { unregister_mods w (MOD_BIT KC_LCTL) with is_ctl_active := false }
  else w

/-- Source `unstick_keys`, fourth statement: `if (MOD_BIT(KC_LGUI)) { … }`. -/
def unstick_gui (w : World) : World :=
  if MOD_BIT KC_LGUI ≠ 0 then
    { unregister_mods w (MOD_BIT KC_LGUI) with is_gui_active := false }
  else w

/-- Source `unstick_keys`, fifth statement: `if (is_rai_active) { … }`. -/
def unstick_rai (w : World) : World :=
  if w.is_rai_active then { layer_off w _RAISE with is_rai_active := false } else w

/-- Source `unstick_keys`, sixth statement: `if (is_low_active) { … }`. -/
def unstick_low (w : World) : World :=
  if w.is_low_active then
    { charybdis_set_pointer_sniping_enabled (layer_off w _LOWER) false with
      is_low_active := false }
  else w

/-- Source `unstick_keys`: its six `if` statements in order. -/
def unstick_keys (w : World) : World :=
  unstick_low (unstick_rai (unstick_gui (unstick_ctl (unstick_sft (unstick_alt w)))))

/-- Source `activate_stkeys`, first statement: `if (activate_alt) { … }`. -/
def activate_stkeys_alt (w : World) : World :=
  if w.activate_alt then
    { register_mods w (MOD_BIT KC_LALT) with activate_alt := false, is_alt_active := true }
  else w

/-- Source `activate_stkeys`, second statement: `if (activate_sft) { … }`. -/
def activate_stkeys_sft (w : World) : World :=
  if w.activate_sft then
    { register_mods w (MOD_BIT KC_LSFT) with activate_sft := false, is_sft_active := true }
  else w

/-- Source `activate_stkeys`, third statement: `if (activate_ctl) { … }`. -/
def activate_stkeys_ctl (w : World) : World :=
  if w.activate_ctl then
    { register_mods w (MOD_BIT KC_LCTL) with activate_ctl := false, is_ctl_active := true }
  else w

/-- Source `activate_stkeys`, fourth statement: `if (activate_gui) { … }`. -/
def activate_stkeys_gui (w : World) : World :=
  if w.activate_gui then
    { register_mods w (MOD_BIT KC_LGUI) with activate_gui := false, is_gui_active := true }
  else w

/-- Source `activate_stkeys`, fifth statement: `if (activate_rai) { … }`. -/
def activate_stkeys_rai (w : World) : World :=
  if w.activate_rai then
    { layer_on w _RAISE with activate_rai := false, is_rai_active := true }
  else w

/-- Source `activate_stkeys`, sixth statement: `if (activate_low) { … }`. -/
def activate_stkeys_low (w : World) : World :=
  if w.activate_low then
    { charybdis_set_pointer_sniping_enabled (layer_on w _LOWER) true with
      activate_low := false, is_low_active := true }
  else w

/-- Source `activate_stkeys`: its six `if` statements in order. -/
def activate_stkeys (w : World) : World :=
  activate_stkeys_low (activate_stkeys_rai (activate_stkeys_gui
    (activate_stkeys_ctl (activate_stkeys_sft (activate_stkeys_alt w)))))

/-- Source `alttm_finished`; `time` is the clock read by `timer_read32()`. -/
def alttm_finished (w : World) (state : qk_tap_dance_state_t) (time : Nat) : World :=
  let w1 : World :=
    { w with
      td_state := cur_dance state
      sticky_timer := timer_read32 time
      activate_alt := true
      sticky_key := true }
  if w1.td_state = SINGLE_TAP then charybdis_set_pointer_dragscroll_enabled w1 true
  else if w1.td_state = SINGLE_HOLD then { activate_stkeys w1 with sticky_key := false }
  else w1

/-- Source `alttm_reset`. -/
def alttm_reset (w : World) (_state : qk_tap_dance_state_t) : World :=
  if w.td_state = SINGLE_TAP then w
  else if w.td_state = SINGLE_HOLD then unstick_keys w
  else w

/-- Source `sfttm_finished`; `time` is the clock read by `timer_read32()`. -/
def sfttm_finished (w : World) (state : qk_tap_dance_state_t) (time : Nat) : World :=
  let w1 : World :=
    { w with
      td_state := cur_dance state
      sticky_timer := timer_read32 time
      activate_sft := true
      sticky_key := true }
  if w1.td_state = SINGLE_TAP then w1
  else if w1.td_state = SINGLE_HOLD then { activate_stkeys w1 with sticky_key := false }
  else w1

/-- Source `sfttm_reset`. -/
def sfttm_reset (w : World) (_state : qk_tap_dance_state_t) : World :=
  if w.td_state = SINGLE_TAP then w
  else if w.td_state = SINGLE_HOLD then unstick_keys w
  else w

/-- Source `ctltm_finished`; `time` is the clock read by `timer_read32()`. -/
def ctltm_finished (w : World) (state : qk_tap_dance_state_t) (time : Nat) : World :=
  let w1 : World :=
    { w with
      td_state := cur_dance state
      sticky_timer := timer_read32 time
      activate_ctl := true
      sticky_key := true }
  if w1.td_state = SINGLE_TAP then 
    charybdis_set_pointer_dragscroll_enabled
      (charybdis_set_pointer_sniping_enabled w1 false) false
  else if w1.td_state = SINGLE_HOLD then { activate_stkeys w1 with sticky_key := false }
  else w1

/-- Source `ctltm_reset`. -/
def ctltm_reset (w : World) (_state : qk_tap_dance_state_t) : World :=
  if w.td_state = SINGLE_TAP then w
  else if w.td_state = SINGLE_HOLD then unstick_keys w
  else w

/-- Source `guitm_finished`; `time` is the clock read by `timer_read32()`. -/
def guitm_finished (w : World) (state : qk_tap_dance_state_t) (time : Nat) : World :=
  let w1 : World :=
    { w with
      td_state := cur_dance state
      sticky_timer := timer_read32 time
      activate_gui := true
      sticky_key := true }
  if w1.td_state = SINGLE_TAP then w1
  else if w1.td_state = SINGLE_HOLD then { activate_stkeys w1 with sticky_key := false }
  else w1

/-- Source `guitm_reset`. -/
def guitm_reset (w : World) (_state : qk_tap_dance_state_t) : World :=
  if w.td_state = SINGLE_TAP then w
  else if w.td_state = SINGLE_HOLD then unstick_keys w
  else w

/-- Source `raitm_finished`; `time` is the clock read by `timer_read32()`. -/
def raitm_finished (w : World) (state : qk_tap_dance_state_t) (time : Nat) : World :=
  let w1 : World :=
    layer_on
      { w with
        td_state := cur_dance state
        sticky_timer := timer_read32 time
        activate_rai := true
        is_rai_active := true
        sticky_key := true }
      _RAISE
  if w1.td_state = SINGLE_TAP then w1
  else if w1.td_state = SINGLE_HOLD then { activate_stkeys w1 with sticky_key := false }
  else w1

/-- Source `raitm_reset`. -/
def raitm_reset (w : World) (_state : qk_tap_dance_state_t) : World :=
  if w.td_state = SINGLE_TAP then w
  else if w.td_state = SINGLE_HOLD then unstick_keys w
  else w

/-- Source `lowtm_finished`; `time` is the clock read by `timer_read32()`. -/
def lowtm_finished (w : World) (state : qk_tap_dance_state_t) (time : Nat) : World :=
  let w1 : World :=
    layer_on
      { w with
        td_state := cur_dance state
        sticky_timer := timer_read32 time
        activate_low := true
        is_low_active := true
        sticky_key := true }
      _LOWER
  if w1.td_state = SINGLE_TAP then w1
  else if w1.td_state = SINGLE_HOLD then { activate_stkeys w1 with sticky_key := false }
  else w1

/-- Source `lowtm_reset`. -/
def lowtm_reset (w : World) (_state : qk_tap_dance_state_t) : World :=
  if w.td_state = SINGLE_TAP then w
  else if w.td_state = SINGLE_HOLD then unstick_keys w
  else w

/-- Source `esctm_finished`; `time` is the clock read by `timer_read32()`. -/
def esctm_finished (w : World) (state : qk_tap_dance_state_t) (time : Nat) : World :=
  let w1 : World := { w with td_state := cur_dance state, sticky_timer := timer_read32 time }
  if w1.td_state = SINGLE_TAP then
    tap_code
      (charybdis_set_pointer_dragscroll_enabled
        (charybdis_set_pointer_sniping_enabled w1 false) false)
      KC_ESC
  else if w1.td_state = SINGLE_HOLD then w1
  else w1

/-- Source `esctm_reset`. -/
def esctm_reset (w : World) (_state : qk_tap_dance_state_t) : World :=
  if w.td_state = SINGLE_TAP then w
  else if w.td_state = SINGLE_HOLD then unstick_keys w
  else w

/-! ## Observations of the output layer -/

/-- The bit of modifier keycode `code` is set in the registered modifier mask
(`real_mods & MOD_BIT(code)` is non-zero). -/
def mod_registered (w : World) (code : Nat) : Bool :=
  w.real_mods.testBit (code &&& 0x07)

/-- Layer `layer` is on (`layer_state & (1 << layer)` is non-zero). -/
def layer_state_is (w : World) (layer : Nat) : Bool :=
  w.layer_state.testBit layer

/-- The key events of `n` consecutive taps of keycode `k`. -/
def key_taps (k : Nat) : Nat → List KeyEvent
  | 0 => []
  | n + 1 => key_taps k n ++ [KeyEvent.press k, KeyEvent.release k]

/-- The state with the two motion buffers and the key-event trace blanked: the
part of the state that `tap_tb` does not write. -/
def World.erase_motion (w : World) : World :=
  { w with move_buffer_x := 0, move_buffer_y := 0, key_events := [] }

/-- The state after the sample of `mouse_report` has been loaded and added to
the motion buffers with the given signs. -/
def buffered (reverse_x reverse_y : Bool) (w : World) (mouse_report : report_mouse_t) : World :=
  add_sample reverse_x reverse_y (load_local_mouse_report w mouse_report)

/-- The buffered magnitude `|move_buffer_x| + |move_buffer_y|`. -/
def magnitude (w : World) : Int :=
  abs w.move_buffer_x + abs w.move_buffer_y

/-- The buffered magnitude together with the magnitude of the loaded sample is
below 127 times the smallest threshold (10): no loop bound of `tap_tb` or
`tap_modes` can then reach 127, so the 8-bit counter does not wrap. -/
def counter_safe (w : World) (mouse_report : report_mouse_t) : Prop :=
  abs w.move_buffer_x + abs w.move_buffer_y
    + abs (load_local_mouse_report w mouse_report).local_mouse_report_x
    + abs (load_local_mouse_report w mouse_report).local_mouse_report_y < 1270

instance (w : World) (mouse_report : report_mouse_t) : Decidable (counter_safe w mouse_report) := by
  unfold counter_safe; infer_instance

/-- The state after the sample has been loaded and added to the motion
buffers in Caret mode (signs by build option) or, when `is_carret_enabled` is
not set, in Custom mode (x added, y subtracted). -/
def carret_custom_buffered (o : BuildOpts) (w : World) (mouse_report : report_mouse_t) : World :=
  if w.g_charybdis_config.is_carret_enabled then
    buffered o.CHARYBDIS_CARRET_REVERSE_X o.CHARYBDIS_CARRET_REVERSE_Y w mouse_report
  else buffered false true w mouse_report

/-! ## Sequences of mode operations -/

/-- One call of a mode setter of the command surface, with its argument. -/
inductive ModeOp where
  | dragscroll (enable : Bool)
  | carret (enable : Bool)
  | custom (enable : Bool)
  | modemode (enable : Bool)
  | sniping (enable : Bool)
  | integ (enable : Bool)
deriving DecidableEq

/-- The setter a `ModeOp` stands for. -/
def ModeOp.apply (w : World) : ModeOp → World
  | ModeOp.dragscroll enable => charybdis_set_pointer_dragscroll_enabled w enable
  | ModeOp.carret enable => charybdis_set_pointer_carret_enabled w enable
  | ModeOp.custom enable => charybdis_set_pointer_custom_enabled w enable
  | ModeOp.modemode enable => charybdis_set_pointer_modemode_enabled w enable
  | ModeOp.sniping enable => charybdis_set_pointer_sniping_enabled w enable
  | ModeOp.integ enable => charybdis_set_pointer_integ_enabled w enable

/-- The setters of a list applied in order. -/
def run_mode_ops (w : World) (ops : List ModeOp) : World :=
  ops.foldl ModeOp.apply w

/-- Number of flags set among dragscroll, carret, custom and modemode. -/
def nonstacking_count (c : charybdis_config_t) : Nat :=
  (if c.is_dragscroll_enabled then 1 else 0) + (if c.is_carret_enabled then 1 else 0)
    + (if c.is_custom_enabled then 1 else 0) + (if c.is_modemode_enabled then 1 else 0)

/-! ## Concrete states used by witnesses and counterexamples -/

/-- A config with the default step at its largest value and the sniping step
set, used to exercise the wraparound of both fields. -/
def wrap_world : World :=
  { World.init with
    g_charybdis_config :=
      { charybdis_config_t.zero with pointer_default_dpi := 255, pointer_sniping_dpi := 1 } }

/-- A motion sample: a report with the given displacement and nothing else. -/
def sample (x y : Int) : report_mouse_t :=
  { buttons := 0, x := x, y := y, v := 0, h := 0 }

/-- The initial state with DragScroll enabled. -/
def dragscroll_world : World :=
  { World.init with
    g_charybdis_config := { charybdis_config_t.zero with is_dragscroll_enabled := true } }

/-- The initial state with Caret mode enabled (Sniping and Integration off). -/
def carret_world : World :=
  { World.init with
    g_charybdis_config := { charybdis_config_t.zero with is_carret_enabled := true } }

/-- The initial state with ModeSelect and DragScroll both enabled. -/
def modemode_dragscroll_world : World :=
  { World.init with
    g_charybdis_config :=
      { charybdis_config_t.zero with is_modemode_enabled := true, is_dragscroll_enabled := true } }

/-! ## Reboot and sensitivity operations -/

/-- A reboot: every global and static is initialised again, the persistent
store keeps its content, and `matrix_init_kb` loads the config from it. -/
def reboot (w : World) : World :=
  matrix_init_kb { World.init with eeprom_kb := w.eeprom_kb }

/-- One operation that re-applies the sensor sensitivity: a DPI step of either
curve, or one of the six mode setters. -/
inductive SensOp where
  | step_default (forward : Bool)
  | step_sniping (forward : Bool)
  | mode (op : ModeOp)
deriving DecidableEq

/-- The function a `SensOp` stands for. -/
def SensOp.apply (w : World) : SensOp → World
  | SensOp.step_default forward => step_pointer_default_dpi w forward
  | SensOp.step_sniping forward => step_pointer_sniping_dpi w forward
  | SensOp.mode op => ModeOp.apply w op

/-! ## Pointing output as the spec words it -/

/-- The value `v` limited to the interval from `lo` to `hi`. -/
def clamp (v lo hi : Int) : Int :=
  if v < lo then lo else if hi < v then hi else v

/-- The spec's accelerated displacement, `clamp(d + sign(d) * floor(d*d / 24),
-127, 127)`. -/
def spec_accelerated (d : Int) : Int :=
  clamp (d + Int.sign d * (d * d / 24)) (-127) 127

/-- The build with `CHARYBDIS_POINTER_ACCELERATION_ENABLE` defined and nothing
else. -/
def accel_build : BuildOpts :=
  { defaultBuild with CHARYBDIS_POINTER_ACCELERATION_ENABLE := true }

/-- The config `tap_modes` leaves after a threshold crossing, by the dominant
buffer axis and its sign: the effect of `charybdis_set_pointer_dragscroll_enabled(true)`,
of `charybdis_set_pointer_carret_enabled(true)`, of
`charybdis_set_pointer_disable_nonstacking(); charybdis_set_pointer_integ_enabled(false)`
and of `charybdis_set_pointer_integ_enabled(true)`. -/
def mode_transition (w : World) : charybdis_config_t :=
  if abs w.move_buffer_x > abs w.move_buffer_y then
    if w.move_buffer_x > 0 then
      { w.g_charybdis_config with
        is_dragscroll_enabled := true, is_carret_enabled := false, is_custom_enabled := false }
    else
      { w.g_charybdis_config with
        is_dragscroll_enabled := false, is_carret_enabled := true, is_custom_enabled := false }
  else
    if w.move_buffer_y > 0 then
      { w.g_charybdis_config with
        is_dragscroll_enabled := false, is_carret_enabled := false, is_custom_enabled := false,
        is_integ_enabled := false }
    else { w.g_charybdis_config with is_integ_enabled := true }

/-- The initial state with ModeSelect enabled. -/
def modemode_world : World :=
  { World.init with
    g_charybdis_config := { charybdis_config_t.zero with is_modemode_enabled := true } }

/-- The keycode `tap_tb` taps for the buffers of `b`: the first of its four
keycodes for the horizontal axis with `move_buffer_x > 0`, the second for the
horizontal axis otherwise, the third for the vertical axis with
`move_buffer_y > 0`, the fourth for the vertical axis otherwise; the axis is
horizontal when `|move_buffer_x| > |move_buffer_y|`. -/
def direction_keycode (keycode0 keycode1 keycode2 keycode3 : Nat) (b : World) : Nat :=
  if abs b.move_buffer_x > abs b.move_buffer_y then
    (if b.move_buffer_x > 0 then keycode0 else keycode1)
  else (if b.move_buffer_y > 0 then keycode2 else keycode3)

/-- The keycode of an invocation in Caret mode (arrow keys) or, when
`is_carret_enabled` is not set, in Custom mode (the `CUSTOM_FN_*` keys), for
the buffers with the sample added. -/
def carret_custom_keycode (o : BuildOpts) (w : World) (mouse_report : report_mouse_t) : Nat :=
  if w.g_charybdis_config.is_carret_enabled then
    direction_keycode KC_RIGHT KC_LEFT KC_UP KC_DOWN (carret_custom_buffered o w mouse_report)
  else
    direction_keycode CUSTOM_FN_RIGHT CUSTOM_FN_LEFT CUSTOM_FN_UP CUSTOM_FN_DOWN
      (carret_custom_buffered o w mouse_report)

/-! ## Closed form of `tap_tb` -/

/-- The magnitude of the dominant buffer of `tap_tb`: `|move_buffer_x|` when it
is strictly the larger, `|move_buffer_y|` otherwise. -/
def dominant (w : World) : Int :=
  if abs w.move_buffer_x > abs w.move_buffer_y then abs w.move_buffer_x
  else abs w.move_buffer_y

/-- The magnitude of the other buffer. -/
def nondominant (w : World) : Int :=
  if abs w.move_buffer_x > abs w.move_buffer_y then abs w.move_buffer_y
  else abs w.move_buffer_x

/-- The number of iterations of the loop of `tap_tb` when its counter does not
wrap: `1 + min(d / T, ((d + n) / T) / 2)` for dominant magnitude `d`, other
magnitude `n` and threshold `T`. -/
def tap_count (w : World) : Nat :=
  (1 + min (dominant w / local_carret_dpi w)
    ((dominant w + nondominant w) / local_carret_dpi w / 2)).toNat

/-- The state `tap_tb` returns from the threshold on when its counter does not
wrap: `tap_count` taps of the keycode of the direction, the dominant buffer
moved towards 0 by `tap_count` thresholds and stopped at 0, the other buffer
cleared. -/
def tap_tb_closed (keycode0 keycode1 keycode2 keycode3 : Nat) (w : World) : World :=
  if abs w.move_buffer_x > abs w.move_buffer_y then
    { w with
      key_events := w.key_events
        ++ key_taps (direction_keycode keycode0 keycode1 keycode2 keycode3 w) (tap_count w)
      move_buffer_x :=
        if w.move_buffer_x > 0 then max (w.move_buffer_x - tap_count w * local_carret_dpi w) 0
        else min (w.move_buffer_x + tap_count w * local_carret_dpi w) 0
      move_buffer_y := 0 }
  else
    { w with
      key_events := w.key_events
        ++ key_taps (direction_keycode keycode0 keycode1 keycode2 keycode3 w) (tap_count w)
      move_buffer_y :=
        if w.move_buffer_y > 0 then max (w.move_buffer_y - tap_count w * local_carret_dpi w) 0
        else min (w.move_buffer_y + tap_count w * local_carret_dpi w) 0
      move_buffer_x := 0 }

/-- The initial state with Caret mode enabled (Sniping and Integration off,
threshold 10) and 30 buffered on the x axis. -/
def carret_buffer_30 : World :=
  { carret_world with move_buffer_x := 30 }

/-! ## Key dispatch (`tractyl_manuform.c`) -/

/-- Source `enum charybdis_keycodes` (without its end marker
`KEYMAP_SAFE_RANGE`), and `other` for every keycode outside the enum. -/
inductive charybdis_keycodes where
  | POINTER_DEFAULT_DPI_FORWARD
  | POINTER_DEFAULT_DPI_REVERSE
  | POINTER_SNIPING_DPI_FORWARD
  | POINTER_SNIPING_DPI_REVERSE
  | SNIPING_MODE
  | SNIPING_MODE_TOGGLE
  | DRAGSCROLL_MODE
  | DRAGSCROLL_MODE_TOGGLE
  | CARRET_MODE
  | CARRET_MODE_TOGGLE
  | CUSTOM_MODE
  | CUSTOM_MODE_TOGGLE
  | MODE_MODE
  | MODE_MODE_TOGGLE
  | INTEG_MODE
  | INTEG_MODE_TOGGLE
  | other (code : Nat)
deriving DecidableEq

/-- What one call of `process_record_kb` reads besides the state. -/
structure RecordEnv where
  /-- Result of `process_record_user(keycode, record)`. -/
  user_result : Bool
  /-- Result of `has_shift_mod()`. -/
  has_shift_mod : Bool
  /-- Field `record->event.pressed`. -/
  pressed : Bool
deriving DecidableEq

/-- Source `process_record_kb`, with the state it leaves and its result. The
block under `#ifndef MOUSEKEY_ENABLE` acts on mouse-button keycodes only, none
of which is in `enum charybdis_keycodes`, and writes only the report of the
pointing device; it has no part in the state kept here. -/
def process_record_kb (w : World) (keycode : charybdis_keycodes) (env : RecordEnv) :
    World × Bool :=
  if !env.user_result then (w, false)
  else
    let w1 : World :=
      match keycode with
      | charybdis_keycodes.POINTER_DEFAULT_DPI_FORWARD =>
        if env.pressed then charybdis_cycle_pointer_default_dpi w (!env.has_shift_mod) else w
      | charybdis_keycodes.POINTER_DEFAULT_DPI_REVERSE =>
        if env.pressed then charybdis_cycle_pointer_default_dpi w env.has_shift_mod else w
      | charybdis_keycodes.POINTER_SNIPING_DPI_FORWARD =>
        if env.pressed then charybdis_cycle_pointer_sniping_dpi w (!env.has_shift_mod) else w
      | charybdis_keycodes.POINTER_SNIPING_DPI_REVERSE =>
        if env.pressed then charybdis_cycle_pointer_sniping_dpi w env.has_shift_mod else w
      | charybdis_keycodes.SNIPING_MODE =>
        charybdis_set_pointer_sniping_enabled w env.pressed
      | charybdis_keycodes.SNIPING_MODE_TOGGLE =>
        if env.pressed then
          charybdis_set_pointer_sniping_enabled w (!charybdis_get_pointer_sniping_enabled w)
        else w
      | charybdis_keycodes.DRAGSCROLL_MODE =>
        charybdis_set_pointer_dragscroll_enabled w env.pressed
      | charybdis_keycodes.DRAGSCROLL_MODE_TOGGLE =>
        if env.pressed then
          charybdis_set_pointer_carret_enabled w (!charybdis_get_pointer_carret_enabled w)
        else w
      | charybdis_keycodes.CARRET_MODE =>
        charybdis_set_pointer_carret_enabled w env.pressed
      | charybdis_keycodes.CARRET_MODE_TOGGLE =>
        if env.pressed then
          charybdis_set_pointer_carret_enabled w (!charybdis_get_pointer_carret_enabled w)
        else w
      | charybdis_keycodes.CUSTOM_MODE =>
        charybdis_set_pointer_custom_enabled w env.pressed
      | charybdis_keycodes.CUSTOM_MODE_TOGGLE =>
        if env.pressed then
          charybdis_set_pointer_custom_enabled w (!charybdis_get_pointer_custom_enabled w)
        else w
      | charybdis_keycodes.MODE_MODE =>
        charybdis_set_pointer_modemode_enabled w env.pressed
      | charybdis_keycodes.MODE_MODE_TOGGLE =>
        if env.pressed then
          charybdis_set_pointer_modemode_enabled w (!charybdis_get_pointer_modemode_enabled w)
        else w
      | charybdis_keycodes.INTEG_MODE =>
        charybdis_set_pointer_integ_enabled w env.pressed
      | charybdis_keycodes.INTEG_MODE_TOGGLE =>
        if env.pressed then
          charybdis_set_pointer_integ_enabled w (!charybdis_get_pointer_integ_enabled w)
        else w
      | charybdis_keycodes.other _ => w
    (w1, true)

/-- A key press that `process_record_user` lets through, without shift. -/
def press_event : RecordEnv :=
  { user_result := true, has_shift_mod := false, pressed := true }

/-- A key release that `process_record_user` lets through, without shift. -/
def release_event : RecordEnv :=
  { user_result := true, has_shift_mod := false, pressed := false }

/-! ## Sync receive handler (`tractyl_manuform.c`) -/

/-- The size of the config object: the packed struct has 15 bits, two bytes. -/
def sizeof_charybdis_config_t : Nat := 2

/-- The second byte of the config object: the sniping step in bit 0, then the
six flags in declaration order in bits 1 to 6; bit 7 is padding. -/
def charybdis_config_t.byte1 (c : charybdis_config_t) : Nat :=
  c.pointer_sniping_dpi % 2
    + 2 * c.is_dragscroll_enabled.toNat
    + 4 * c.is_sniping_enabled.toNat
    + 8 * c.is_carret_enabled.toNat
    + 16 * c.is_custom_enabled.toNat
    + 32 * c.is_modemode_enabled.toNat
    + 64 * c.is_integ_enabled.toNat

/-- The bytes of the config object, as `memcpy` and the split link see it. -/
def charybdis_config_t.to_bytes (c : charybdis_config_t) : List Nat :=
  [c.pointer_default_dpi % 256, c.byte1]

/-- The config whose object holds the first two bytes of `b`. -/
def charybdis_config_t.of_bytes (b : List Nat) : charybdis_config_t :=
  { pointer_default_dpi := b.getD 0 0 % 256
    pointer_sniping_dpi := b.getD 1 0 % 2
    is_dragscroll_enabled := decide (b.getD 1 0 / 2 % 2 = 1)
    is_sniping_enabled := decide (b.getD 1 0 / 4 % 2 = 1)
    is_carret_enabled := decide (b.getD 1 0 / 8 % 2 = 1)
    is_custom_enabled := decide (b.getD 1 0 / 16 % 2 = 1)
    is_modemode_enabled := decide (b.getD 1 0 / 32 % 2 = 1)
    is_integ_enabled := decide (b.getD 1 0 / 64 % 2 = 1) }

/-- Source `charybdis_config_sync_handler`, with the state and the reply
buffer it leaves. -/
def charybdis_config_sync_handler (w : World) (initiator2target_buffer_size : Nat)
    (initiator2target_buffer : List Nat) (_target2initiator_buffer_size : Nat)
    (target2initiator_buffer : List Nat) : World × List Nat :=
  if initiator2target_buffer_size = sizeof_charybdis_config_t then
    ({ w with g_charybdis_config := charybdis_config_t.of_bytes initiator2target_buffer },
      target2initiator_buffer)
  else (w, target2initiator_buffer)

/-! ## Tap-dance table (`schievel.c`) -/

/-- Source `enum td_keycodes`. -/
inductive td_keycodes where
  | ALT_TM
  | SFT_TM
  | CTL_TM
  | GUI_TM
  | RAI_TM
  | LOW_TM
  | ESC_TM
deriving DecidableEq

/-- The `finished` callbacks of `tap_dance_actions[]`. -/
def tap_dance_finished (w : World) (state : qk_tap_dance_state_t) (time : Nat) :
    td_keycodes → World
  | td_keycodes.ALT_TM => alttm_finished w state time
  | td_keycodes.SFT_TM => sfttm_finished w state time
  | td_keycodes.CTL_TM => ctltm_finished w state time
  | td_keycodes.GUI_TM => guitm_finished w state time
  | td_keycodes.RAI_TM => raitm_finished w state time
  | td_keycodes.LOW_TM => lowtm_finished w state time
  | td_keycodes.ESC_TM => esctm_finished w state time

/-- The `reset` callbacks of `tap_dance_actions[]`. -/
def tap_dance_reset (w : World) (state : qk_tap_dance_state_t) : td_keycodes → World
  | td_keycodes.ALT_TM => alttm_reset w state
  | td_keycodes.SFT_TM => sfttm_reset w state
  | td_keycodes.CTL_TM => ctltm_reset w state
  | td_keycodes.GUI_TM => guitm_reset w state
  | td_keycodes.RAI_TM => raitm_reset w state
  | td_keycodes.LOW_TM => lowtm_reset w state
  | td_keycodes.ESC_TM => esctm_reset w state

/-- A dance resolved while the key is still held (`count = 1`, pressed). -/
def hold_dance : qk_tap_dance_state_t :=
  { count := 1, interrupted := false, pressed := true }

/-- A dance resolved after the key was released (`count = 1`, not pressed). -/
def tap_dance : qk_tap_dance_state_t :=
  { count := 1, interrupted := false, pressed := false }

/-- A dance with two taps. -/
def double_dance : qk_tap_dance_state_t :=
  { count := 2, interrupted := false, pressed := false }

/-! ## Concrete states for reset, dispatch and sync -/

/-- A config with every field non-zero: default step 5, sniping step 1, the
six flags set; the store holds 5. -/
def full_world : World :=
  { World.init with
    g_charybdis_config :=
      { pointer_default_dpi := 5
        pointer_sniping_dpi := 1
        is_dragscroll_enabled := true
        is_sniping_enabled := true
        is_carret_enabled := true
        is_custom_enabled := true
        is_modemode_enabled := true
        is_integ_enabled := true }
    eeprom_kb := 5 }

/-- The primary half right after the config changed: drag-scroll was set and
the snapshot is still the zero config. -/
def changed_world : World :=
  charybdis_set_pointer_dragscroll_enabled World.init true

/-- A housekeeping tick of the primary half at `time` ms whose send fails. -/
def failed_tick (time : Nat) : TickEnv :=
  { is_keyboard_master := true, time_check := time, send_ok := false, time_sent := time }

/-! ## Three-mode exclusivity -/

/-- The number of the three flags dragscroll, carret and custom that are set. -/
def three_mode_count (c : charybdis_config_t) : Nat :=
  (if c.is_dragscroll_enabled then 1 else 0) + (if c.is_carret_enabled then 1 else 0)
    + (if c.is_custom_enabled then 1 else 0)

/-- At most one of `is_dragscroll_enabled`, `is_carret_enabled`,
`is_custom_enabled` is set. -/
def three_mode_exclusive (c : charybdis_config_t) : Prop :=
  three_mode_count c ≤ 1

instance (c : charybdis_config_t) : Decidable (three_mode_exclusive c) := by
  unfold three_mode_exclusive; infer_instance

/-- The three flags dragscroll, carret and custom are all clear. -/
def three_modes_off (c : charybdis_config_t) : Prop :=
  c.is_dragscroll_enabled = false ∧ c.is_carret_enabled = false ∧ c.is_custom_enabled = false

instance (c : charybdis_config_t) : Decidable (three_modes_off c) := by
  unfold three_modes_off; infer_instance

/-! ## Sequences of sticky-key operations -/

/-- The sticky-state invariant: every `is_*_active` flag that is set has its
effect applied, the left modifier bit registered or the layer on. -/
def sticky_invariant (w : World) : Prop :=
  (w.is_alt_active = true → mod_registered w KC_LALT = true)
  ∧ (w.is_sft_active = true → mod_registered w KC_LSFT = true)
  ∧ (w.is_ctl_active = true → mod_registered w KC_LCTL = true)
  ∧ (w.is_gui_active = true → mod_registered w KC_LGUI = true)
  ∧ (w.is_rai_active = true → layer_state_is w _RAISE = true)
  ∧ (w.is_low_active = true → layer_state_is w _LOWER = true)

instance (w : World) : Decidable (sticky_invariant w) := by
  unfold sticky_invariant; infer_instance

/-- One operation of the arbiter: a `finished` or a `reset` callback of one of
the seven tap dances, `activate_stkeys()` or `unstick_keys()`. -/
inductive StickyOp where
  | finished (k : td_keycodes) (state : qk_tap_dance_state_t) (time : Nat)
  | reset (k : td_keycodes) (state : qk_tap_dance_state_t)
  | activate
  | unstick
deriving DecidableEq

/-- The state after one operation. -/
def StickyOp.apply (w : World) : StickyOp → World
  | StickyOp.finished k state time => tap_dance_finished w state time k
  | StickyOp.reset k state => tap_dance_reset w state k
  | StickyOp.activate => activate_stkeys w
  | StickyOp.unstick => unstick_keys w

/-- The state after a sequence of operations, first to last. -/
def run_sticky_ops (w : World) (ops : List StickyOp) : World :=
  ops.foldl StickyOp.apply w

/-- The initial state with Caret mode enabled (Sniping and Integration off,
threshold 10) and 50 buffered on the x axis. -/
def carret_buffer_50 : World :=
  { carret_world with move_buffer_x := 50 }

/-- The initial state with Custom mode enabled (Sniping and Integration off). -/
def custom_world : World :=
  { World.init with
    g_charybdis_config := { charybdis_config_t.zero with is_custom_enabled := true } }

/-- The initial state with ModeSelect enabled and 39 buffered on the x axis,
one below the ModeSelect threshold. -/
def modemode_buffer_39 : World :=
  { modemode_world with move_buffer_x := 39 }

/-- The initial state with ModeSelect enabled and 40 buffered on the x axis,
at the ModeSelect threshold. -/
def modemode_buffer_40 : World :=
  { modemode_world with move_buffer_x := 40 }

/-! ## Theorems -/

/-- C1 (evaluation at the failing input): from the freshly loaded config, the
sequence `charybdis_set_pointer_dragscroll_enabled(true)`,
`charybdis_set_pointer_modemode_enabled(true)` leaves both
`is_dragscroll_enabled` and `is_modemode_enabled` set, so two of the four
non-stacking flags are true at once. -/
theorem C1_modemode_stacks_with_dragscroll :
    (run_mode_ops (matrix_init_kb World.init)
        [ModeOp.dragscroll true, ModeOp.modemode true]).g_charybdis_config.is_dragscroll_enabled
      = true
    ∧ (run_mode_ops (matrix_init_kb World.init)
        [ModeOp.dragscroll true, ModeOp.modemode true]).g_charybdis_config.is_modemode_enabled
      = true
    ∧ nonstacking_count (run_mode_ops (matrix_init_kb World.init)
        [ModeOp.dragscroll true, ModeOp.modemode true]).g_charybdis_config = 2 := by
  decide

/-- C4: for every in-memory config and every content of the store,
`write_charybdis_config_to_eeprom` followed by
`read_charybdis_config_from_eeprom` yields a config whose six transient flags
(dragscroll, sniping, carret, custom, modemode, integ) are all false. -/
theorem C4_save_then_load_clears_transient_flags (w : World) :
    (read_charybdis_config_from_eeprom
        (write_charybdis_config_to_eeprom w)).g_charybdis_config.is_dragscroll_enabled = false
    ∧ (read_charybdis_config_from_eeprom
        (write_charybdis_config_to_eeprom w)).g_charybdis_config.is_sniping_enabled = false
    ∧ (read_charybdis_config_from_eeprom
        (write_charybdis_config_to_eeprom w)).g_charybdis_config.is_carret_enabled = false
    ∧ (read_charybdis_config_from_eeprom
        (write_charybdis_config_to_eeprom w)).g_charybdis_config.is_custom_enabled = false
    ∧ (read_charybdis_config_from_eeprom
        (write_charybdis_config_to_eeprom w)).g_charybdis_config.is_modemode_enabled = false
    ∧ (read_charybdis_config_from_eeprom
        (write_charybdis_config_to_eeprom w)).g_charybdis_config.is_integ_enabled = false := by
  simp [read_charybdis_config_from_eeprom, write_charybdis_config_to_eeprom,
    charybdis_config_t.set_raw]

/-! ### DPI steps -/

theorem step_pointer_default_dpi_field (w : World) (forward : Bool) :
    (step_pointer_default_dpi w forward).g_charybdis_config.pointer_default_dpi
      = (((w.g_charybdis_config.pointer_default_dpi : Int)
          + (if forward then 1 else -1)) % 256).toNat := by
  unfold step_pointer_default_dpi maybe_update_pointing_device_cpi pointing_device_set_cpi
  dsimp only
  split
  · rfl
  · split <;> rfl

theorem step_pointer_sniping_dpi_field (w : World) (forward : Bool) :
    (step_pointer_sniping_dpi w forward).g_charybdis_config.pointer_sniping_dpi
      = (((w.g_charybdis_config.pointer_sniping_dpi : Int)
          + (if forward then 1 else -1)) % 2).toNat := by
  unfold step_pointer_sniping_dpi maybe_update_pointing_device_cpi pointing_device_set_cpi
  dsimp only
  split
  · rfl
  · split <;> rfl

theorem iterate_default_forward (n : Nat) (w : World)
    (h : w.g_charybdis_config.pointer_default_dpi < 256) :
    (Nat.iterate (fun s => step_pointer_default_dpi s true) n
        w).g_charybdis_config.pointer_default_dpi
      = (w.g_charybdis_config.pointer_default_dpi + n) % 256 := by
  induction n with
  | zero => simp; omega
  | succ k ih =>
    rw [Function.iterate_succ_apply', step_pointer_default_dpi_field, ih]
    simp only [if_true]
    omega

theorem iterate_default_backward (n : Nat) (w : World)
    (h : w.g_charybdis_config.pointer_default_dpi < 256) :
    (Nat.iterate (fun s => step_pointer_default_dpi s false) n
        w).g_charybdis_config.pointer_default_dpi
      = (w.g_charybdis_config.pointer_default_dpi + 255 * n) % 256 := by
  induction n with
  | zero => simp; omega
  | succ k ih =>
    rw [Function.iterate_succ_apply', step_pointer_default_dpi_field, ih]
    simp only [Bool.false_eq_true, if_false]
    omega

theorem iterate_sniping_forward (n : Nat) (w : World)
    (h : w.g_charybdis_config.pointer_sniping_dpi < 2) :
    (Nat.iterate (fun s => step_pointer_sniping_dpi s true) n
        w).g_charybdis_config.pointer_sniping_dpi
      = (w.g_charybdis_config.pointer_sniping_dpi + n) % 2 := by
  induction n with
  | zero => simp; omega
  | succ k ih =>
    rw [Function.iterate_succ_apply', step_pointer_sniping_dpi_field, ih]
    simp only [if_true]
    omega

theorem iterate_sniping_backward (n : Nat) (w : World)
    (h : w.g_charybdis_config.pointer_sniping_dpi < 2) :
    (Nat.iterate (fun s => step_pointer_sniping_dpi s false) n
        w).g_charybdis_config.pointer_sniping_dpi
      = (w.g_charybdis_config.pointer_sniping_dpi + n) % 2 := by
  induction n with
  | zero => simp; omega
  | succ k ih =>
    rw [Function.iterate_succ_apply', step_pointer_sniping_dpi_field, ih]
    simp only [Bool.false_eq_true, if_false]
    omega

/-- C5: for every config whose step fields hold values of their width and
every N, N forward steps followed by N backward steps of the default DPI
leave the default step field and `charybdis_get_pointer_default_dpi`
unchanged, and N forward steps followed by N backward steps of the sniping DPI
leave the sniping step field and `charybdis_get_pointer_sniping_dpi`
unchanged, wraparound of the 8-bit and 1-bit fields included. -/
theorem C5_dpi_round_trip (w : World) (N : Nat) (hwf : w.g_charybdis_config.wf) :
    (Nat.iterate (fun s => step_pointer_default_dpi s false) N
        (Nat.iterate (fun s => step_pointer_default_dpi s true) N
          w)).g_charybdis_config.pointer_default_dpi
      = w.g_charybdis_config.pointer_default_dpi
    ∧ charybdis_get_pointer_default_dpi
        (Nat.iterate (fun s => step_pointer_default_dpi s false) N
          (Nat.iterate (fun s => step_pointer_default_dpi s true) N w))
      = charybdis_get_pointer_default_dpi w
    ∧ (Nat.iterate (fun s => step_pointer_sniping_dpi s false) N
        (Nat.iterate (fun s => step_pointer_sniping_dpi s true) N
          w)).g_charybdis_config.pointer_sniping_dpi
      = w.g_charybdis_config.pointer_sniping_dpi
    ∧ charybdis_get_pointer_sniping_dpi
        (Nat.iterate (fun s => step_pointer_sniping_dpi s false) N
          (Nat.iterate (fun s => step_pointer_sniping_dpi s true) N w))
      = charybdis_get_pointer_sniping_dpi w := by
  obtain ⟨hd, hs⟩ := hwf
  have h1 := iterate_default_forward N w hd
  have h2 := iterate_default_backward N
    (Nat.iterate (fun s => step_pointer_default_dpi s true) N w) (by rw [h1]; omega)
  have h3 := iterate_sniping_forward N w hs
  have h4 := iterate_sniping_backward N
    (Nat.iterate (fun s => step_pointer_sniping_dpi s true) N w) (by rw [h3]; omega)
  have e1 : (Nat.iterate (fun s => step_pointer_default_dpi s false) N
        (Nat.iterate (fun s => step_pointer_default_dpi s true) N
          w)).g_charybdis_config.pointer_default_dpi
      = w.g_charybdis_config.pointer_default_dpi := by
    rw [h2, h1]; omega
  have e2 : (Nat.iterate (fun s => step_pointer_sniping_dpi s false) N
        (Nat.iterate (fun s => step_pointer_sniping_dpi s true) N
          w)).g_charybdis_config.pointer_sniping_dpi
      = w.g_charybdis_config.pointer_sniping_dpi := by
    rw [h4, h3]; omega
  refine ⟨e1, ?_, e2, ?_⟩
  · simp only [charybdis_get_pointer_default_dpi, get_pointer_default_dpi, e1]
  · simp only [charybdis_get_pointer_sniping_dpi, get_pointer_sniping_dpi, e2]

/-- Witness of C5: three forward and three backward steps from default step
255 and sniping step 1 (both wrap) restore both effective DPIs. -/
theorem C5_dpi_round_trip_witness :
    wrap_world.g_charybdis_config.wf
    ∧ charybdis_get_pointer_default_dpi
        (Nat.iterate (fun s => step_pointer_default_dpi s false) 3
          (Nat.iterate (fun s => step_pointer_default_dpi s true) 3 wrap_world)) = 51400
    ∧ charybdis_get_pointer_sniping_dpi
        (Nat.iterate (fun s => step_pointer_sniping_dpi s false) 3
          (Nat.iterate (fun s => step_pointer_sniping_dpi s true) 3 wrap_world)) = 300 :=
  ⟨by decide,
   (C5_dpi_round_trip wrap_world 3 (by decide)).2.1.trans (by decide),
   (C5_dpi_round_trip wrap_world 3 (by decide)).2.2.2.trans (by decide)⟩

/-! ### Modifier mask and the statements of `unstick_keys` -/

theorem MOD_BIT_KC_LCTL : MOD_BIT KC_LCTL = 1 := by decide
theorem MOD_BIT_KC_LSFT : MOD_BIT KC_LSFT = 2 := by decide
theorem MOD_BIT_KC_LALT : MOD_BIT KC_LALT = 4 := by decide
theorem MOD_BIT_KC_LGUI : MOD_BIT KC_LGUI = 8 := by decide

theorem unstick_alt_eq (w : World) :
    unstick_alt w = { w with real_mods := w.real_mods &&& 251, is_alt_active := false } := by
  rfl

theorem unstick_sft_eq (w : World) :
    unstick_sft w = { w with real_mods := w.real_mods &&& 253, is_sft_active := false } := by
  rfl

theorem unstick_ctl_eq (w : World) :
    unstick_ctl w = { w with real_mods := w.real_mods &&& 254, is_ctl_active := false } := by
  rfl

theorem unstick_gui_eq (w : World) :
    unstick_gui w = { w with real_mods := w.real_mods &&& 247, is_gui_active := false } := by
  rfl

/-- The four modifier statements of `unstick_keys` clear the low nibble of the
modifier mask and the four modifier flags. -/
theorem unstick_mods_eq (w : World) :
    unstick_gui (unstick_ctl (unstick_sft (unstick_alt w)))
      = { w with
          real_mods := w.real_mods &&& 240
          is_alt_active := false
          is_sft_active := false
          is_ctl_active := false
          is_gui_active := false } := by
  cases w
  simp only [unstick_alt_eq, unstick_sft_eq, unstick_ctl_eq, unstick_gui_eq, Nat.and_assoc]
  rfl

theorem unstick_rai_of_inactive (w : World) (h : w.is_rai_active = false) :
    unstick_rai w = w := by
  simp [unstick_rai, h]

theorem unstick_low_of_inactive (w : World) (h : w.is_low_active = false) :
    unstick_low w = w := by
  simp [unstick_low, h]

theorem unstick_rai_inactive (w : World) : (unstick_rai w).is_rai_active = false := by
  unfold unstick_rai; split
  · rfl
  · simp_all

theorem unstick_rai_low (w : World) : (unstick_rai w).is_low_active = w.is_low_active := by
  unfold unstick_rai; split <;> rfl

theorem unstick_low_inactive (w : World) : (unstick_low w).is_low_active = false := by
  unfold unstick_low; split
  · unfold charybdis_set_pointer_sniping_enabled maybe_update_pointing_device_cpi
      pointing_device_set_cpi
    dsimp only
  · simp_all

theorem maybe_update_pointing_device_cpi_eq (w : World) :
    maybe_update_pointing_device_cpi w
      = { w with
          cpi :=
            if w.g_charybdis_config.is_dragscroll_enabled then CHARYBDIS_DRAGSCROLL_DPI
            else if w.g_charybdis_config.is_sniping_enabled then
              get_pointer_sniping_dpi w.g_charybdis_config
            else get_pointer_default_dpi w.g_charybdis_config } := by
  unfold maybe_update_pointing_device_cpi pointing_device_set_cpi
  split
  · rfl
  · split <;> rfl

theorem unstick_rai_frame (w : World) :
    (unstick_rai w).real_mods = w.real_mods
    ∧ (unstick_rai w).is_alt_active = w.is_alt_active
    ∧ (unstick_rai w).is_sft_active = w.is_sft_active
    ∧ (unstick_rai w).is_ctl_active = w.is_ctl_active
    ∧ (unstick_rai w).is_gui_active = w.is_gui_active := by
  unfold unstick_rai; split
  · exact ⟨rfl, rfl, rfl, rfl, rfl⟩
  · exact ⟨rfl, rfl, rfl, rfl, rfl⟩

theorem unstick_low_frame (w : World) :
    (unstick_low w).real_mods = w.real_mods
    ∧ (unstick_low w).is_alt_active = w.is_alt_active
    ∧ (unstick_low w).is_sft_active = w.is_sft_active
    ∧ (unstick_low w).is_ctl_active = w.is_ctl_active
    ∧ (unstick_low w).is_gui_active = w.is_gui_active
    ∧ (unstick_low w).is_rai_active = w.is_rai_active := by
  unfold unstick_low; split
  · simp only [charybdis_set_pointer_sniping_enabled, maybe_update_pointing_device_cpi_eq]
    exact ⟨rfl, rfl, rfl, rfl, rfl, rfl⟩
  · exact ⟨rfl, rfl, rfl, rfl, rfl, rfl⟩

/-- What `unstick_keys` leaves in the modifier mask and the six role flags. -/
theorem unstick_keys_fields (w : World) :
    (unstick_keys w).real_mods = w.real_mods &&& 240
    ∧ (unstick_keys w).is_alt_active = false
    ∧ (unstick_keys w).is_sft_active = false
    ∧ (unstick_keys w).is_ctl_active = false
    ∧ (unstick_keys w).is_gui_active = false
    ∧ (unstick_keys w).is_rai_active = false
    ∧ (unstick_keys w).is_low_active = false := by
  unfold unstick_keys
  obtain ⟨l1, l2, l3, l4, l5, l6⟩ :=
    unstick_low_frame (unstick_rai (unstick_gui (unstick_ctl (unstick_sft (unstick_alt w)))))
  obtain ⟨r1, r2, r3, r4, r5⟩ :=
    unstick_rai_frame (unstick_gui (unstick_ctl (unstick_sft (unstick_alt w))))
  rw [l1, l2, l3, l4, l5, l6, r1, r2, r3, r4, r5, unstick_low_inactive, unstick_rai_inactive,
    unstick_mods_eq]
  exact ⟨rfl, rfl, rfl, rfl, rfl, rfl, rfl⟩

theorem unstick_mods_fixed (w : World) (hm : w.real_mods &&& 240 = w.real_mods)
    (h1 : w.is_alt_active = false) (h2 : w.is_sft_active = false)
    (h3 : w.is_ctl_active = false) (h4 : w.is_gui_active = false) :
    unstick_gui (unstick_ctl (unstick_sft (unstick_alt w))) = w := by
  rw [unstick_mods_eq]
  cases w
  simp_all

/-- C7: `unstick_keys` is idempotent: on every state (modifier mask, layer
state, config with its sniping flag, sensor sensitivity, `is_*_active` and
`activate_*` flags and all the rest), a second consecutive call changes
nothing. -/
theorem C7_unstick_keys_idempotent (w : World) :
    unstick_keys (unstick_keys w) = unstick_keys w := by
  obtain ⟨hm, h1, h2, h3, h4, h5, h6⟩ := unstick_keys_fields w
  have hm2 : (unstick_keys w).real_mods &&& 240 = (unstick_keys w).real_mods := by
    rw [hm, Nat.and_assoc, Nat.and_self]
  generalize unstick_keys w = v at *
  unfold unstick_keys
  rw [unstick_mods_fixed v hm2 h1 h2 h3 h4, unstick_rai_of_inactive v h5,
    unstick_low_of_inactive v h6]

/-! ### `activate_stkeys` and the shift role -/

theorem activate_stkeys_alt_keeps_sft (w : World) :
    (activate_stkeys_alt w).activate_sft = w.activate_sft := by
  unfold activate_stkeys_alt; split <;> rfl

theorem activate_stkeys_sft_sets (w : World) (h : w.activate_sft = true) :
    (activate_stkeys_sft w).is_sft_active = true
    ∧ mod_registered (activate_stkeys_sft w) KC_LSFT = true := by
  unfold activate_stkeys_sft
  rw [if_pos h]
  refine ⟨rfl, ?_⟩
  have h2 : Nat.testBit 2 1 = true := by decide
  simp only [mod_registered, register_mods, MOD_BIT_KC_LSFT, Nat.testBit_or]
  rw [show KC_LSFT &&& 7 = 1 from by decide, h2, Bool.or_true]

theorem activate_stkeys_ctl_keeps_sft (w : World) :
    (activate_stkeys_ctl w).is_sft_active = w.is_sft_active
    ∧ (mod_registered w KC_LSFT = true → mod_registered (activate_stkeys_ctl w) KC_LSFT = true) := by
  unfold activate_stkeys_ctl; split
  · refine ⟨rfl, fun h => ?_⟩
    simp only [mod_registered, register_mods, Nat.testBit_or] at h ⊢
    rw [h, Bool.true_or]
  · exact ⟨rfl, id⟩

theorem activate_stkeys_gui_keeps_sft (w : World) :
    (activate_stkeys_gui w).is_sft_active = w.is_sft_active
    ∧ (mod_registered w KC_LSFT = true → mod_registered (activate_stkeys_gui w) KC_LSFT = true) := by
  unfold activate_stkeys_gui; split
  · refine ⟨rfl, fun h => ?_⟩
    simp only [mod_registered, register_mods, Nat.testBit_or] at h ⊢
    rw [h, Bool.true_or]
  · exact ⟨rfl, id⟩

theorem activate_stkeys_rai_keeps_sft (w : World) :
    (activate_stkeys_rai w).is_sft_active = w.is_sft_active
    ∧ (mod_registered w KC_LSFT = true → mod_registered (activate_stkeys_rai w) KC_LSFT = true) := by
  unfold activate_stkeys_rai; split
  · exact ⟨rfl, id⟩
  · exact ⟨rfl, id⟩

theorem activate_stkeys_low_keeps_sft (w : World) :
    (activate_stkeys_low w).is_sft_active = w.is_sft_active
    ∧ (mod_registered w KC_LSFT = true → mod_registered (activate_stkeys_low w) KC_LSFT = true) := by
  unfold activate_stkeys_low; split
  · simp only [charybdis_set_pointer_sniping_enabled, maybe_update_pointing_device_cpi_eq]
    exact ⟨rfl, id⟩
  · exact ⟨rfl, id⟩

/-- A pending shift role is applied by `activate_stkeys`. -/
theorem activate_stkeys_applies_sft (w : World) (h : w.activate_sft = true) :
    (activate_stkeys w).is_sft_active = true
    ∧ mod_registered (activate_stkeys w) KC_LSFT = true := by
  unfold activate_stkeys
  have h0 : (activate_stkeys_alt w).activate_sft = true := by
    rw [activate_stkeys_alt_keeps_sft, h]
  obtain ⟨a1, a2⟩ := activate_stkeys_sft_sets _ h0
  obtain ⟨c1, c2⟩ := activate_stkeys_ctl_keeps_sft (activate_stkeys_sft (activate_stkeys_alt w))
  obtain ⟨g1, g2⟩ := activate_stkeys_gui_keeps_sft
    (activate_stkeys_ctl (activate_stkeys_sft (activate_stkeys_alt w)))
  obtain ⟨r1, r2⟩ := activate_stkeys_rai_keeps_sft
    (activate_stkeys_gui (activate_stkeys_ctl (activate_stkeys_sft (activate_stkeys_alt w))))
  obtain ⟨l1, l2⟩ := activate_stkeys_low_keeps_sft
    (activate_stkeys_rai (activate_stkeys_gui (activate_stkeys_ctl
      (activate_stkeys_sft (activate_stkeys_alt w)))))
  exact ⟨by rw [l1, r1, g1, c1, a1], l2 (r2 (g2 (c2 a2)))⟩

/-- C6: from any state, `sfttm_finished` on a dance with `count = 1` and the
key still pressed resolves as SINGLE_HOLD, registers the left-shift modifier
and sets `is_sft_active`; a following `unstick_keys()` leaves `is_sft_active`
false and the left-shift modifier bit unregistered. -/
theorem C6_sticky_shift_round_trip (w : World) (state : qk_tap_dance_state_t) (time : Nat)
    (hcount : state.count = 1) (hpressed : state.pressed = true) :
    cur_dance state = SINGLE_HOLD
    ∧ mod_registered (sfttm_finished w state time) KC_LSFT = true
    ∧ (sfttm_finished w state time).is_sft_active = true
    ∧ (unstick_keys (sfttm_finished w state time)).is_sft_active = false
    ∧ mod_registered (unstick_keys (sfttm_finished w state time)) KC_LSFT = false := by
  have hd : cur_dance state = SINGLE_HOLD := by
    simp [cur_dance, hcount, hpressed]
  obtain ⟨hm, _, h2, _⟩ := unstick_keys_fields (sfttm_finished w state time)
  have hoff : mod_registered (unstick_keys (sfttm_finished w state time)) KC_LSFT = false := by
    have h240 : Nat.testBit 240 1 = false := by decide
    simp only [mod_registered, hm, Nat.testBit_and]
    rw [show KC_LSFT &&& 7 = 1 from by decide, h240, Bool.and_false]
  have hfin : sfttm_finished w state time
      = { activate_stkeys
            { w with
              td_state := cur_dance state
              sticky_timer := timer_read32 time
              activate_sft := true
              sticky_key := true } with sticky_key := false } := by
    unfold sfttm_finished
    simp only [hd]
    rfl
  obtain ⟨s1, s2⟩ := activate_stkeys_applies_sft
    { w with
      td_state := cur_dance state
      sticky_timer := timer_read32 time
      activate_sft := true
      sticky_key := true } rfl
  refine ⟨hd, ?_, ?_, h2, hoff⟩
  · rw [hfin]; exact s2
  · rw [hfin]; exact s1

/-- Witness of C6: a single hold of the shift role from the initial state. -/
theorem C6_sticky_shift_round_trip_witness :
    mod_registered
      (sfttm_finished World.init { count := 1, interrupted := false, pressed := true } 0)
      KC_LSFT = true
    ∧ mod_registered
        (unstick_keys
          (sfttm_finished World.init { count := 1, interrupted := false, pressed := true } 0))
        KC_LSFT = false :=
  ⟨(C6_sticky_shift_round_trip World.init { count := 1, interrupted := false, pressed := true } 0
      rfl rfl).2.1,
   (C6_sticky_shift_round_trip World.init { count := 1, interrupted := false, pressed := true } 0
      rfl rfl).2.2.2.2⟩

/-! ### SyncBridge -/

theorem timer_elapsed32_of_le (t t2 : Nat) (hle : t ≤ t2) (hwin : t2 - t ≤ 500) :
    timer_elapsed32 t2 (timer_read32 t) = t2 - t := by
  unfold timer_elapsed32 timer_read32
  omega

/-- A tick of the primary half that finds the config changed attempts one
transmission of the current config; when the send succeeds it records the
clock. -/
theorem housekeeping_changed_sends (w : World) (env : TickEnv)
    (hm : env.is_keyboard_master = true)
    (hchanged : w.g_charybdis_config ≠ w.last_charybdis_config) (hok : env.send_ok = true) :
    housekeeping_task_kb w env
      = { w with
          last_charybdis_config := w.g_charybdis_config
          rpc_attempts := w.rpc_attempts ++ [w.g_charybdis_config]
          last_sync := timer_read32 env.time_sent } := by
  unfold housekeeping_task_kb
  simp [hm, hchanged, hok]

/-- A tick of the primary half that finds the config equal to the snapshot and
at most 500 ms elapsed changes nothing. -/
theorem housekeeping_idle (w : World) (env : TickEnv)
    (hsame : w.g_charybdis_config = w.last_charybdis_config)
    (hwin : timer_elapsed32 env.time_check w.last_sync ≤ 500) :
    housekeeping_task_kb w env = w := by
  unfold housekeeping_task_kb
  have h : ¬ (500 < timer_elapsed32 env.time_check w.last_sync) := by omega
  simp [hsame, h]

/-- C8: on the primary half, when a housekeeping tick finds the config changed
against the snapshot and its transmission succeeds at time `t` (`time_sent`),
the next housekeeping tick, at a time `t2` (`time_check`) with `t2 - t ≤ 500`
and with the same config, makes no transmission attempt (it changes nothing,
on either half): the two ticks make exactly one attempt, the first tick's
transmission of the config. -/
theorem C8_sync_dedup (w w1 : World) (e1 e2 : TickEnv)
    (hm1 : e1.is_keyboard_master = true)
    (hchanged : w.g_charybdis_config ≠ w.last_charybdis_config)
    (hok : e1.send_ok = true)
    (hle : e1.time_sent ≤ e2.time_check) (hwin : e2.time_check - e1.time_sent ≤ 500)
    (hg : w1.g_charybdis_config = (housekeeping_task_kb w e1).g_charybdis_config)
    (hlast : w1.last_charybdis_config = (housekeeping_task_kb w e1).last_charybdis_config)
    (hsync : w1.last_sync = (housekeeping_task_kb w e1).last_sync)
    (hlog : w1.rpc_attempts = (housekeeping_task_kb w e1).rpc_attempts) :
    (housekeeping_task_kb w e1).rpc_attempts = w.rpc_attempts ++ [w.g_charybdis_config]
    ∧ housekeeping_task_kb w1 e2 = w1
    ∧ (housekeeping_task_kb w1 e2).rpc_attempts = w.rpc_attempts ++ [w.g_charybdis_config] := by
  rw [housekeeping_changed_sends w e1 hm1 hchanged hok] at hg hlast hsync hlog ⊢
  have hidle : housekeeping_task_kb w1 e2 = w1 := by
    apply housekeeping_idle
    · rw [hg, hlast]
    · rw [hsync]
      show timer_elapsed32 e2.time_check (timer_read32 e1.time_sent) ≤ 500
      rw [timer_elapsed32_of_le _ _ hle hwin]
      exact hwin
  refine ⟨rfl, hidle, ?_⟩
  rw [hidle, hlog]

/-- Witness of C8: the config changes (drag-scroll set) before a tick at
1000 ms whose send succeeds; the next tick comes 500 ms later. -/
theorem C8_sync_dedup_witness :
    (housekeeping_task_kb
        (housekeeping_task_kb (charybdis_set_pointer_dragscroll_enabled World.init true)
          { is_keyboard_master := true, time_check := 1000, send_ok := true, time_sent := 1000 })
        { is_keyboard_master := true, time_check := 1500, send_ok := true,
          time_sent := 1500 }).rpc_attempts
      = [(charybdis_set_pointer_dragscroll_enabled World.init true).g_charybdis_config] :=
  (C8_sync_dedup (charybdis_set_pointer_dragscroll_enabled World.init true)
    (housekeeping_task_kb (charybdis_set_pointer_dragscroll_enabled World.init true)
      { is_keyboard_master := true, time_check := 1000, send_ok := true, time_sent := 1000 })
    { is_keyboard_master := true, time_check := 1000, send_ok := true, time_sent := 1000 }
    { is_keyboard_master := true, time_check := 1500, send_ok := true, time_sent := 1500 }
    rfl (by decide) rfl (by decide) (by decide) rfl rfl rfl rfl).2.2

/-! ### DragScroll -/

theorem wrap16_of_range (v : Int) (hlo : -32768 ≤ v) (hhi : v ≤ 32767) : wrap16 v = v := by
  unfold wrap16; omega

theorem wrap8_of_range (v : Int) (hlo : -128 ≤ v) (hhi : v ≤ 127) : wrap8 v = v := by
  unfold wrap8; omega

/-- One DragScroll tick, Integration off, x not reversed, that keeps the x
buffer within the buffer size: no scroll field is written and the sample is
accumulated. -/
theorem dragscroll_tick_quiet (o : BuildOpts) (fuel : Nat) (w : World) (r : report_mouse_t)
    (ho : o.CHARYBDIS_DRAGSCROLL_REVERSE_X = false)
    (hmm : w.g_charybdis_config.is_modemode_enabled = false)
    (hds : w.g_charybdis_config.is_dragscroll_enabled = true)
    (hint : w.g_charybdis_config.is_integ_enabled = false)
    (hby : w.move_buffer_y = 0) (hy : r.y = 0)
    (h0lo : -6 ≤ w.move_buffer_x) (h0hi : w.move_buffer_x ≤ 6)
    (hlo : -6 ≤ w.move_buffer_x + r.x) (hhi : w.move_buffer_x + r.x ≤ 6) :
    pointing_device_task_charybdis o fuel w r
      = some
          ({ w with
             local_mouse_report_x := r.x
             local_mouse_report_y := 0
             move_buffer_x := w.move_buffer_x + r.x
             move_buffer_y := 0 },
           { r with x := 0, y := 0 }) := by
  have e1 : wrap16 r.x = r.x := wrap16_of_range _ (by omega) (by omega)
  have e2 : wrap16 (w.move_buffer_x + r.x) = w.move_buffer_x + r.x :=
    wrap16_of_range _ (by omega) (by omega)
  have e3 : wrap16 0 = 0 := by decide
  have e4 : ¬ (abs (w.move_buffer_x + r.x) > 6) := by unfold abs; split <;> omega
  have e5 : ¬ (abs 0 > 6) := by decide
  simp only [pointing_device_task_charybdis, load_local_mouse_report, add_sample,
    dragscroll_emit, local_dragscroll_buffer_size, CHARYBDIS_DRAGSCROLL_BUFFER_SIZE, hmm, hds, hint, ho, hby, hy,
    e1, e2, e3, e4, e5, if_true, if_false, Bool.false_eq_true, sub_zero, add_zero, ite_self]

/-- One DragScroll tick, Integration off, x not reversed, that brings the x
buffer from within the buffer size to buffer size + 1: `h` is set to +1, `v`
is not written and the x buffer is cleared. -/
theorem dragscroll_tick_fire (o : BuildOpts) (fuel : Nat) (w : World) (r : report_mouse_t)
    (ho : o.CHARYBDIS_DRAGSCROLL_REVERSE_X = false)
    (hmm : w.g_charybdis_config.is_modemode_enabled = false)
    (hds : w.g_charybdis_config.is_dragscroll_enabled = true)
    (hint : w.g_charybdis_config.is_integ_enabled = false)
    (hby : w.move_buffer_y = 0) (hy : r.y = 0)
    (h0lo : -6 ≤ w.move_buffer_x) (h0hi : w.move_buffer_x ≤ 6)
    (hsum : w.move_buffer_x + r.x = 7) :
    pointing_device_task_charybdis o fuel w r
      = some
          ({ w with
             local_mouse_report_x := r.x
             local_mouse_report_y := 0
             move_buffer_x := 0
             move_buffer_y := 0 },
           { r with x := 0, y := 0, h := 1 }) := by
  have e1 : wrap16 r.x = r.x := wrap16_of_range _ (by omega) (by omega)
  have e2 : wrap16 (w.move_buffer_x + r.x) = 7 := by
    rw [hsum]; decide
  have e3 : wrap16 0 = 0 := by decide
  have e4 : abs 7 > 6 := by decide
  have e5 : ¬ (abs 0 > 6) := by decide
  have e6 : (7 : Int) > 0 := by decide
  simp only [pointing_device_task_charybdis, load_local_mouse_report, add_sample,
    dragscroll_emit, local_dragscroll_buffer_size, CHARYBDIS_DRAGSCROLL_BUFFER_SIZE, hmm, hds, hint, ho, hby, hy,
    e1, e2, e3, e4, e5, e6, if_true, if_false, Bool.false_eq_true, sub_zero, add_zero, ite_self]

theorem run_pointing_device_task_cons (o : BuildOpts) (fuel : Nat) (w w1 : World)
    (r r1 : report_mouse_t) (rs : List report_mouse_t) (w2 : World) (outs : List report_mouse_t)
    (h1 : pointing_device_task_charybdis o fuel w r = some (w1, r1))
    (h2 : run_pointing_device_task o fuel w1 rs = some (w2, outs)) :
    run_pointing_device_task o fuel w (r :: rs) = some (w2, r1 :: outs) := by
  simp only [run_pointing_device_task, h1, h2]

/-- DragScroll over a run of x-only samples whose running sum stays within the
buffer size and whose last sample brings it to buffer size + 1, from an x
buffer `w.move_buffer_x` within the buffer size. -/
theorem dragscroll_run_fire (o : BuildOpts) (fuel : Nat) (last : report_mouse_t)
    (ho : o.CHARYBDIS_DRAGSCROLL_REVERSE_X = false) (hylast : last.y = 0) :
    ∀ (rs : List report_mouse_t) (w : World),
      w.g_charybdis_config.is_modemode_enabled = false →
      w.g_charybdis_config.is_dragscroll_enabled = true →
      w.g_charybdis_config.is_integ_enabled = false →
      w.move_buffer_y = 0 →
      (∀ r ∈ rs, r.y = 0) →
      (∀ k, k ≤ rs.length →
        -6 ≤ w.move_buffer_x + ((rs.take k).map report_mouse_t.x).sum
        ∧ w.move_buffer_x + ((rs.take k).map report_mouse_t.x).sum ≤ 6) →
      w.move_buffer_x + (rs.map report_mouse_t.x).sum + last.x = 7 →
      ∃ w', run_pointing_device_task o fuel w (rs ++ [last])
              = some (w', rs.map (fun r => { r with x := 0, y := 0 })
                            ++ [{ last with x := 0, y := 0, h := 1 }])
            ∧ w'.move_buffer_x = 0 ∧ w'.move_buffer_y = 0 := by
  intro rs
  induction rs with
  | nil =>
    intro w hmm hds hint hby _ hpre hsum
    have h0 := hpre 0 (Nat.le_refl _)
    simp only [List.take_nil, List.map_nil, List.sum_nil, add_zero] at h0 hsum
    refine ⟨{ w with
              local_mouse_report_x := last.x
              local_mouse_report_y := 0
              move_buffer_x := 0
              move_buffer_y := 0 }, ?_, rfl, rfl⟩
    simp only [List.nil_append, List.map_nil, run_pointing_device_task,
      dragscroll_tick_fire o fuel w last ho hmm hds hint hby hylast h0.1 h0.2 hsum]
  | cons r rs ih =>
    intro w hmm hds hint hby hy hpre hsum
    have h0 := hpre 0 (Nat.zero_le _)
    have h1 := hpre 1 (by simp)
    simp only [List.take_zero, List.map_nil, List.sum_nil, add_zero] at h0
    simp only [List.take_succ_cons, List.take_zero, List.map_cons, List.map_nil, List.sum_cons,
      List.sum_nil, add_zero] at h1
    have hry : r.y = 0 := hy r (List.mem_cons_self _ _)
    have htick := dragscroll_tick_quiet o fuel w r ho hmm hds hint hby hry h0.1 h0.2 h1.1 h1.2
    obtain ⟨w', hrun, hx, hy'⟩ := ih
      { w with
        local_mouse_report_x := r.x
        local_mouse_report_y := 0
        move_buffer_x := w.move_buffer_x + r.x
        move_buffer_y := 0 }
      hmm hds hint rfl
      (fun r' hr' => hy r' (List.mem_cons_of_mem _ hr'))
      (fun k hk => by
        have := hpre (k + 1) (by simp; omega)
        simp only [List.take_succ_cons, List.map_cons, List.sum_cons] at this
        constructor
        · show -6 ≤ w.move_buffer_x + r.x + _
          omega
        · show w.move_buffer_x + r.x + _ ≤ 6
          omega)
      (by
        simp only [List.map_cons, List.sum_cons] at hsum
        show w.move_buffer_x + r.x + _ + last.x = 7
        omega)
    exact ⟨w', run_pointing_device_task_cons o fuel w _ r _ _ _ _ htick hrun, hx, hy'⟩

/-- C2: DragScroll mode without Integration (buffer size 6), x not reversed,
both buffers empty: for every sequence of x-only samples (y = 0) whose running
sum stays within [-6, 6] until the last sample brings it to exactly 7, every
invocation before the last leaves `h` and `v` as they came in, the last one
sets `h = +1` and leaves `v` as it came in, and afterwards the x buffer (and
the y buffer) is 0; every invocation reports `x = y = 0`. -/
theorem C2_dragscroll_threshold (o : BuildOpts) (fuel : Nat) (w : World)
    (rs : List report_mouse_t) (last : report_mouse_t)
    (ho : o.CHARYBDIS_DRAGSCROLL_REVERSE_X = false)
    (hmm : w.g_charybdis_config.is_modemode_enabled = false)
    (hds : w.g_charybdis_config.is_dragscroll_enabled = true)
    (hint : w.g_charybdis_config.is_integ_enabled = false)
    (hbx : w.move_buffer_x = 0) (hby : w.move_buffer_y = 0)
    (hy : ∀ r ∈ rs ++ [last], r.y = 0)
    (hpre : ∀ k, k ≤ rs.length →
      -CHARYBDIS_DRAGSCROLL_BUFFER_SIZE ≤ ((rs.take k).map report_mouse_t.x).sum
      ∧ ((rs.take k).map report_mouse_t.x).sum ≤ CHARYBDIS_DRAGSCROLL_BUFFER_SIZE)
    (hsum : (rs.map report_mouse_t.x).sum + last.x = CHARYBDIS_DRAGSCROLL_BUFFER_SIZE + 1) :
    ∃ w', run_pointing_device_task o fuel w (rs ++ [last])
            = some (w', rs.map (fun r => { r with x := 0, y := 0 })
                          ++ [{ last with x := 0, y := 0, h := 1 }])
          ∧ w'.move_buffer_x = 0 ∧ w'.move_buffer_y = 0 := by
  simp only [CHARYBDIS_DRAGSCROLL_BUFFER_SIZE] at hpre hsum
  apply dragscroll_run_fire o fuel last ho (hy last (by simp)) rs w hmm hds hint hby
    (fun r hr => hy r (by simp [hr]))
  · intro k hk
    rw [hbx]
    have := hpre k hk
    omega
  · rw [hbx]; omega

/-- Witness of C2: samples 3, 3, -2 (running sums 3, 6, 4) and a last sample
3 (sum 7) in DragScroll mode from empty buffers. -/
theorem C2_dragscroll_threshold_witness :
    ∃ w', run_pointing_device_task defaultBuild 0 dragscroll_world
            ([sample 3 0, sample 3 0, sample (-2) 0] ++ [sample 3 0])
            = some (w', [sample 3 0, sample 3 0, sample (-2) 0].map
                            (fun r => { r with x := 0, y := 0 })
                          ++ [{ sample 3 0 with x := 0, y := 0, h := 1 }])
          ∧ w'.move_buffer_x = 0 ∧ w'.move_buffer_y = 0 :=
  C2_dragscroll_threshold defaultBuild 0 dragscroll_world
    [sample 3 0, sample 3 0, sample (-2) 0] (sample 3 0)
    rfl rfl rfl rfl rfl rfl (by decide) (by decide) (by decide)

/-! ### Caret and Custom -/

/-- Caret mode, Sniping and Integration off, x not reversed, empty buffers:
the sample (11, 0) gives one tap of `KC_RIGHT` and leaves 1 in the x buffer. -/
theorem carret_tick_11 (o : BuildOpts) (fuel : Nat) (w : World) (r : report_mouse_t)
    (ho : o.CHARYBDIS_CARRET_REVERSE_X = false)
    (hmm : w.g_charybdis_config.is_modemode_enabled = false)
    (hds : w.g_charybdis_config.is_dragscroll_enabled = false)
    (hcar : w.g_charybdis_config.is_carret_enabled = true)
    (hint : w.g_charybdis_config.is_integ_enabled = false)
    (hsn : w.g_charybdis_config.is_sniping_enabled = false)
    (hbx : w.move_buffer_x = 0) (hby : w.move_buffer_y = 0)
    (hx : r.x = 11) (hy : r.y = 0) :
    pointing_device_task_charybdis o (fuel + 2) w r
      = some
          ({ w with
             local_mouse_report_x := 11
             local_mouse_report_y := 0
             move_buffer_x := 1
             move_buffer_y := 0
             key_events := w.key_events ++ [KeyEvent.press KC_RIGHT] ++ [KeyEvent.release KC_RIGHT] },
           { r with x := 0, y := 0 }) := by
  simp [pointing_device_task_charybdis, load_local_mouse_report, add_sample,
    hmm, hds, hcar, hint, hsn, ho, hbx, hby, hx, hy, tap_tb, local_carret_dpi,
    CHARYBDIS_CARRET_BUFFER, for_int8, tap_code_fast, register_code, unregister_code,
    abs, max, wrap8, wrap16]

/-! ### The 8-bit loop -/

theorem abs_int_nonneg (v : Int) : 0 ≤ abs v := by
  unfold abs; split <;> omega

theorem abs_wrap16_le (v : Int) : abs (wrap16 v) ≤ abs v := by
  unfold abs wrap16; split <;> split <;> omega

theorem magnitude_nonneg (w : World) : 0 ≤ magnitude w := by
  have h1 := abs_int_nonneg w.move_buffer_x
  have h2 := abs_int_nonneg w.move_buffer_y
  unfold magnitude; omega

/-- An invariant of the loop body holds of the state the loop returns. -/
theorem for_int8_inv (bound : World → Int) (body : World → World) (P : World → Prop)
    (hbody : ∀ s, P s → P (body s)) :
    ∀ (fuel : Nat) (i : Int) (w w' : World),
      P w → for_int8 bound body fuel i w = some w' → P w' := by
  intro fuel
  induction fuel with
  | zero =>
    intro i w w' _ h
    simp [for_int8] at h
  | succ n ih =>
    intro i w w' hP h
    simp only [for_int8] at h
    split at h
    · exact ih _ _ _ (hbody _ hP) h
    · cases h; exact hP

/-- The loop returns within 128 iterations of its start whenever the bound
stays below 127, so that the 8-bit counter does not wrap. -/
theorem for_int8_terminates (bound : World → Int) (body : World → World) (P : World → Prop)
    (hbody : ∀ s, P s → P (body s)) (hbound : ∀ s, P s → bound s ≤ 126) :
    ∀ (fuel : Nat) (i : Int) (w : World),
      P w → 0 ≤ i → i ≤ 127 → (127 - i).toNat < fuel →
      ∃ w', for_int8 bound body fuel i w = some w' := by
  intro fuel
  induction fuel with
  | zero =>
    intro i w _ _ _ h
    omega
  | succ n ih =>
    intro i w hP h0 h1 hf
    simp only [for_int8]
    split
    · rename_i hle
      have hb := hbound w hP
      have hw : wrap8 (i + 1) = i + 1 := wrap8_of_range _ (by omega) (by omega)
      rw [hw]
      exact ih (i + 1) (body w) (hbody w hP) (by omega) (by omega) (by omega)
    · exact ⟨w, rfl⟩

/-- With no fuel, or with fuel for a single test of the condition, a loop whose
first test succeeds does not return. -/
theorem for_int8_needs_fuel (bound : World → Int) (body : World → World) (w : World)
    (h0 : 0 ≤ bound w) :
    for_int8 bound body 0 0 w = none
    ∧ for_int8 bound body 1 0 w = none := by
  simp [for_int8, h0]

/-! ### `tap_tb` -/

theorem local_carret_dpi_eq (w : World) :
    local_carret_dpi w
      = if w.g_charybdis_config.is_integ_enabled then
          (if w.g_charybdis_config.is_sniping_enabled then 800 else 200)
        else (if w.g_charybdis_config.is_sniping_enabled then 40 else 10) := by
  unfold local_carret_dpi CHARYBDIS_CARRET_BUFFER
  cases w.g_charybdis_config.is_integ_enabled <;>
    cases w.g_charybdis_config.is_sniping_enabled <;> decide

theorem local_carret_dpi_ge (w : World) : 10 ≤ local_carret_dpi w := by
  rw [local_carret_dpi_eq]
  split <;> split <;> omega

/-- A loop whose body taps keycode `k` and otherwise writes only the motion
buffers returns after at least one tap of `k`, with only taps of `k` sent. -/
theorem tap_loop_spec (bound : World → Int) (body : World → World) (k : Nat)
    (hev : ∀ s, (body s).key_events
      = s.key_events ++ [KeyEvent.press k, KeyEvent.release k])
    (hfr : ∀ s, (body s).erase_motion = s.erase_motion)
    (hpos : ∀ s, 0 ≤ bound s) (fuel : Nat) (w w' : World)
    (h : for_int8 bound body fuel 0 w = some w') :
    (∃ n, 1 ≤ n ∧ w'.key_events = w.key_events ++ key_taps k n)
    ∧ w'.erase_motion = w.erase_motion := by
  cases fuel with
  | zero => simp [for_int8] at h
  | succ m =>
    simp only [for_int8] at h
    rw [if_pos (hpos w)] at h
    refine for_int8_inv bound body
      (fun s => (∃ n, 1 ≤ n ∧ s.key_events = w.key_events ++ key_taps k n)
        ∧ s.erase_motion = w.erase_motion)
      ?_ m _ (body w) w' ?_ h
    · rintro s ⟨⟨n, hn, hs⟩, hf⟩
      refine ⟨⟨n + 1, by omega, ?_⟩, ?_⟩
      · rw [hev, hs, List.append_assoc]; rfl
      · rw [hfr, hf]
    · refine ⟨⟨1, Nat.le_refl _, ?_⟩, hfr w⟩
      rw [hev]; rfl

/-- What a returning call of `tap_tb` has done: below the threshold nothing;
from the threshold on, at least one tap, all taps of one of the four keycodes;
in both cases only the motion buffers and the key events are written. -/
theorem tap_tb_spec (fuel : Nat) (k0 k1 k2 k3 : Nat) (w w' : World)
    (h : tap_tb fuel k0 k1 k2 k3 w = some w') :
    w'.erase_motion = w.erase_motion
    ∧ ((magnitude w < local_carret_dpi w ∧ w' = w)
      ∨ (local_carret_dpi w ≤ magnitude w
        ∧ ∃ k n, k ∈ [k0, k1, k2, k3] ∧ 1 ≤ n
          ∧ w'.key_events = w.key_events ++ key_taps k n)) := by
  have hT := local_carret_dpi_ge w
  have hpos : ∀ s : World,
      0 ≤ (abs s.move_buffer_x + abs s.move_buffer_y) / local_carret_dpi w := fun s =>
    Int.ediv_nonneg (magnitude_nonneg s) (by omega)
  have hax := abs_int_nonneg w.move_buffer_x
  have hay := abs_int_nonneg w.move_buffer_y
  unfold tap_tb at h
  dsimp only at h
  unfold magnitude
  split at h
  · cases h
    rename_i hlt
    exact ⟨rfl, Or.inl ⟨hlt, rfl⟩⟩
  · rename_i hge
    split at h
    · obtain ⟨s, hs, rfl⟩ := Option.map_eq_some'.mp h
      obtain ⟨⟨n, hn, hk⟩, hf⟩ := tap_loop_spec _ _ k0
        (fun s => by simp [tap_code_fast, register_code, unregister_code])
        (fun s => by simp [World.erase_motion, tap_code_fast, register_code, unregister_code])
        hpos fuel w s hs
      refine ⟨?_, Or.inr ⟨by omega, k0, n, by simp, hn, hk⟩⟩
      rw [← hf]; rfl
    · split at h
      · obtain ⟨s, hs, rfl⟩ := Option.map_eq_some'.mp h
        obtain ⟨⟨n, hn, hk⟩, hf⟩ := tap_loop_spec _ _ k1
          (fun s => by simp [tap_code_fast, register_code, unregister_code])
          (fun s => by simp [World.erase_motion, tap_code_fast, register_code, unregister_code])
          hpos fuel w s hs
        refine ⟨?_, Or.inr ⟨by omega, k1, n, by simp, hn, hk⟩⟩
        rw [← hf]; rfl
      · split at h
        · obtain ⟨s, hs, rfl⟩ := Option.map_eq_some'.mp h
          obtain ⟨⟨n, hn, hk⟩, hf⟩ := tap_loop_spec _ _ k2
            (fun s => by simp [tap_code_fast, register_code, unregister_code])
            (fun s => by simp [World.erase_motion, tap_code_fast, register_code, unregister_code])
            hpos fuel w s hs
          refine ⟨?_, Or.inr ⟨by omega, k2, n, by simp, hn, hk⟩⟩
          rw [← hf]; rfl
        · split at h
          · obtain ⟨s, hs, rfl⟩ := Option.map_eq_some'.mp h
            obtain ⟨⟨n, hn, hk⟩, hf⟩ := tap_loop_spec _ _ k3
              (fun s => by simp [tap_code_fast, register_code, unregister_code])
              (fun s => by simp [World.erase_motion, tap_code_fast, register_code, unregister_code])
              hpos fuel w s hs
            refine ⟨?_, Or.inr ⟨by omega, k3, n, by simp, hn, hk⟩⟩
            rw [← hf]; rfl
          · rename_i c1 c2 c3 c4
            exfalso
            omega

theorem abs_step_max (x t : Int) (ht : 0 ≤ t) : abs (wrap16 (max (x - t) 0)) ≤ abs x := by
  refine Int.le_trans (abs_wrap16_le _) ?_
  unfold abs max
  split <;> split <;> split <;> omega

theorem abs_step_min (x t : Int) (ht : 0 ≤ t) : abs (wrap16 (min (x + t) 0)) ≤ abs x := by
  refine Int.le_trans (abs_wrap16_le _) ?_
  unfold abs min
  split <;> split <;> split <;> omega

/-- A loop of `tap_tb` or `tap_modes` returns within 128 iterations when its
body does not increase the buffered magnitude and the magnitude is below 127
thresholds. -/
theorem magnitude_loop_terminates (t : Int) (ht : 0 < t) (body : World → World)
    (hbody : ∀ s, magnitude (body s) ≤ magnitude s) (fuel : Nat) (hfuel : 128 ≤ fuel)
    (w : World) (hsafe : magnitude w < 127 * t) :
    ∃ w', for_int8 (fun s => (abs s.move_buffer_x + abs s.move_buffer_y) / t) body fuel 0 w
      = some w' := by
  refine for_int8_terminates _ body (fun s => magnitude s ≤ magnitude w) ?_ ?_ fuel 0 w
    (Int.le_refl _) (by omega) (by omega) (by omega)
  · intro s hs
    exact Int.le_trans (hbody s) hs
  · intro s hs
    have h1 : magnitude s < 127 * t := by omega
    have h2 : magnitude s / t < 127 := Int.ediv_lt_of_lt_mul ht h1
    show magnitude s / t ≤ 126
    omega

/-- The same for a branch of `tap_tb` or `tap_modes`: the loop followed by the
statement that clears the other buffer. -/
theorem magnitude_branch_terminates (t : Int) (ht : 0 < t) (body : World → World)
    (f : World → World) (hbody : ∀ s, magnitude (body s) ≤ magnitude s)
    (fuel : Nat) (hfuel : 128 ≤ fuel) (w : World) (hsafe : magnitude w < 127 * t) :
    ∃ w', (for_int8 (fun s => (abs s.move_buffer_x + abs s.move_buffer_y) / t) body fuel 0
      w).map f = some w' := by
  obtain ⟨s, hs⟩ := magnitude_loop_terminates t ht body hbody fuel hfuel w hsafe
  rw [hs]
  exact ⟨_, rfl⟩

/-- Function `tap_tb` returns, for any fuel from 128 on, when the buffered magnitude is
below 127 thresholds. -/
theorem tap_tb_terminates (fuel : Nat) (hfuel : 128 ≤ fuel) (k0 k1 k2 k3 : Nat) (w : World)
    (hsafe : magnitude w < 127 * local_carret_dpi w) :
    ∃ w', tap_tb fuel k0 k1 k2 k3 w = some w' := by
  have hT := local_carret_dpi_ge w
  have ht0 : (0 : Int) ≤ local_carret_dpi w := by omega
  unfold tap_tb
  dsimp only
  split
  · exact ⟨w, rfl⟩
  · split
    · refine magnitude_branch_terminates (local_carret_dpi w) (by omega) _ _ ?_ fuel hfuel w hsafe
      intro s
      have := abs_step_max s.move_buffer_x (local_carret_dpi w) ht0
      simp only [magnitude, tap_code_fast, register_code, unregister_code]
      omega
    · split
      · refine magnitude_branch_terminates (local_carret_dpi w) (by omega) _ _ ?_ fuel hfuel w hsafe
        intro s
        have := abs_step_min s.move_buffer_x (local_carret_dpi w) ht0
        simp only [magnitude, tap_code_fast, register_code, unregister_code]
        omega
      · split
        · refine magnitude_branch_terminates (local_carret_dpi w) (by omega) _ _ ?_ fuel hfuel w hsafe
          intro s
          have := abs_step_max s.move_buffer_y (local_carret_dpi w) ht0
          simp only [magnitude, tap_code_fast, register_code, unregister_code]
          omega
        · split
          · refine magnitude_branch_terminates (local_carret_dpi w) (by omega) _ _ ?_ fuel hfuel w hsafe
            intro s
            have := abs_step_min s.move_buffer_y (local_carret_dpi w) ht0
            simp only [magnitude, tap_code_fast, register_code, unregister_code]
            omega
          · exact ⟨w, rfl⟩

/-! ### `tap_modes` -/

/-- The mode setters called by `tap_modes` write neither the key events nor
the motion buffers. -/
theorem mode_setters_frame (w : World) (enable : Bool) :
    ((charybdis_set_pointer_dragscroll_enabled w enable).key_events = w.key_events
      ∧ (charybdis_set_pointer_dragscroll_enabled w enable).move_buffer_x = w.move_buffer_x
      ∧ (charybdis_set_pointer_dragscroll_enabled w enable).move_buffer_y = w.move_buffer_y)
    ∧ ((charybdis_set_pointer_carret_enabled w enable).key_events = w.key_events
      ∧ (charybdis_set_pointer_carret_enabled w enable).move_buffer_x = w.move_buffer_x
      ∧ (charybdis_set_pointer_carret_enabled w enable).move_buffer_y = w.move_buffer_y)
    ∧ ((charybdis_set_pointer_integ_enabled w enable).key_events = w.key_events
      ∧ (charybdis_set_pointer_integ_enabled w enable).move_buffer_x = w.move_buffer_x
      ∧ (charybdis_set_pointer_integ_enabled w enable).move_buffer_y = w.move_buffer_y)
    ∧ ((charybdis_set_pointer_disable_nonstacking w).key_events = w.key_events
      ∧ (charybdis_set_pointer_disable_nonstacking w).move_buffer_x = w.move_buffer_x
      ∧ (charybdis_set_pointer_disable_nonstacking w).move_buffer_y = w.move_buffer_y) := by
  simp only [charybdis_set_pointer_dragscroll_enabled, charybdis_set_pointer_carret_enabled,
    charybdis_set_pointer_integ_enabled, charybdis_set_pointer_disable_nonstacking,
    maybe_update_pointing_device_cpi_eq, and_self]

/-- A returning call of `tap_modes` has sent no key event. -/
theorem tap_modes_key_events (fuel : Nat) (w w' : World) (h : tap_modes fuel w = some w') :
    w'.key_events = w.key_events := by
  unfold tap_modes at h
  dsimp only at h
  split at h
  · cases h; rfl
  · split at h
    · obtain ⟨s, hs, rfl⟩ := Option.map_eq_some'.mp h
      exact for_int8_inv _ _ (fun s => s.key_events = w.key_events)
        (fun s hs => by
          show (charybdis_set_pointer_dragscroll_enabled s true).key_events = _
          rw [(mode_setters_frame s true).1.1]; exact hs)
        fuel 0 w s rfl hs
    · split at h
      · obtain ⟨s, hs, rfl⟩ := Option.map_eq_some'.mp h
        exact for_int8_inv _ _ (fun s => s.key_events = w.key_events)
          (fun s hs => by
            show (charybdis_set_pointer_carret_enabled s true).key_events = _
            rw [(mode_setters_frame s true).2.1.1]; exact hs)
          fuel 0 w s rfl hs
      · split at h
        · obtain ⟨s, hs, rfl⟩ := Option.map_eq_some'.mp h
          exact for_int8_inv _ _ (fun s => s.key_events = w.key_events)
            (fun s hs => by
              show (charybdis_set_pointer_integ_enabled
                (charybdis_set_pointer_disable_nonstacking s) false).key_events = _
              rw [(mode_setters_frame _ false).2.2.1.1, (mode_setters_frame s false).2.2.2.1]
              exact hs)
            fuel 0 w s rfl hs
        · split at h
          · obtain ⟨s, hs, rfl⟩ := Option.map_eq_some'.mp h
            exact for_int8_inv _ _ (fun s => s.key_events = w.key_events)
              (fun s hs => by
                show (charybdis_set_pointer_integ_enabled s true).key_events = _
                rw [(mode_setters_frame s true).2.2.1.1]; exact hs)
              fuel 0 w s rfl hs
          · cases h; rfl

/-- Function `tap_modes` returns, for any fuel from 128 on, when the buffered magnitude
is below 127 thresholds. -/
theorem tap_modes_terminates (fuel : Nat) (hfuel : 128 ≤ fuel) (w : World)
    (hsafe : magnitude w < 127 * CHARYBDIS_CARRET_BUFFER) :
    ∃ w', tap_modes fuel w = some w' := by
  have ht0 : (0 : Int) ≤ CHARYBDIS_CARRET_BUFFER := by decide
  have ht : (0 : Int) < CHARYBDIS_CARRET_BUFFER := by decide
  unfold tap_modes
  dsimp only
  split
  · exact ⟨w, rfl⟩
  · split
    · refine magnitude_branch_terminates CHARYBDIS_CARRET_BUFFER ht _ _ ?_ fuel hfuel w hsafe
      intro s
      have := abs_step_max s.move_buffer_x CHARYBDIS_CARRET_BUFFER ht0
      have hf := (mode_setters_frame s true).1
      simp only [magnitude, hf.2.1, hf.2.2]
      omega
    · split
      · refine magnitude_branch_terminates CHARYBDIS_CARRET_BUFFER ht _ _ ?_ fuel hfuel w hsafe
        intro s
        have := abs_step_min s.move_buffer_x CHARYBDIS_CARRET_BUFFER ht0
        have hf := (mode_setters_frame s true).2.1
        simp only [magnitude, hf.2.1, hf.2.2]
        omega
      · split
        · refine magnitude_branch_terminates CHARYBDIS_CARRET_BUFFER ht _ _ ?_ fuel hfuel w hsafe
          intro s
          have := abs_step_max s.move_buffer_y CHARYBDIS_CARRET_BUFFER ht0
          have hf := (mode_setters_frame (charybdis_set_pointer_disable_nonstacking s)
          false).2.2.1
          have hg := (mode_setters_frame s false).2.2.2
          simp only [magnitude, hf.2.1, hf.2.2, hg.2.1, hg.2.2]
          omega
        · split
          · refine magnitude_branch_terminates CHARYBDIS_CARRET_BUFFER ht _ _ ?_ fuel hfuel w hsafe
            intro s
            have := abs_step_min s.move_buffer_y CHARYBDIS_CARRET_BUFFER ht0
            have hf := (mode_setters_frame s true).2.2.1
            simp only [magnitude, hf.2.1, hf.2.2]
            omega
          · exact ⟨w, rfl⟩

/-- C3 (counterexample): in Caret mode with Integration and Sniping off and
empty buffers, no amount of fuel makes the invocation with sample (11, 0)
return with one tap of `KC_RIGHT` and the motion buffer at (0, 0). -/
theorem C3_carret_emission_counterexample :
    ¬ ∃ (fuel : Nat) (w' : World) (r' : report_mouse_t),
        pointing_device_task_charybdis defaultBuild fuel carret_world (sample 11 0)
          = some (w', r')
        ∧ w'.key_events = [KeyEvent.press KC_RIGHT, KeyEvent.release KC_RIGHT]
        ∧ w'.move_buffer_x = 0 ∧ w'.move_buffer_y = 0 := by
  rintro ⟨fuel, w', r', h, _, hx, _⟩
  match fuel with
  | 0 =>
    have h0 : pointing_device_task_charybdis defaultBuild 0 carret_world (sample 11 0)
        = none := by decide
    rw [h0] at h; cases h
  | 1 =>
    have h1 : pointing_device_task_charybdis defaultBuild 1 carret_world (sample 11 0)
        = none := by decide
    rw [h1] at h; cases h
  | n + 2 =>
    rw [carret_tick_11 defaultBuild n carret_world (sample 11 0) rfl rfl rfl rfl rfl rfl rfl rfl
      rfl rfl] at h
    cases h
    exact absurd hx (by decide)

/-- C3 (amended): in Caret mode with Integration and Sniping off (threshold
40 / 4 = 10), x not reversed, empty buffers, one invocation with sample
(11, 0) returns for any fuel from 2 on, emits exactly one tap of `KC_RIGHT`,
reports `x = y = 0` and leaves the motion buffer at (1, 0): the dominant buffer
is decremented by the threshold, not cleared. -/
theorem C3_carret_emission_amended (o : BuildOpts) (fuel : Nat) (w : World) (r : report_mouse_t)
    (hfuel : 2 ≤ fuel)
    (ho : o.CHARYBDIS_CARRET_REVERSE_X = false)
    (hmm : w.g_charybdis_config.is_modemode_enabled = false)
    (hds : w.g_charybdis_config.is_dragscroll_enabled = false)
    (hcar : w.g_charybdis_config.is_carret_enabled = true)
    (hint : w.g_charybdis_config.is_integ_enabled = false)
    (hsn : w.g_charybdis_config.is_sniping_enabled = false)
    (hbx : w.move_buffer_x = 0) (hby : w.move_buffer_y = 0)
    (hx : r.x = 11) (hy : r.y = 0) :
    local_carret_dpi w = 10
    ∧ ∃ w', pointing_device_task_charybdis o fuel w r = some (w', { r with x := 0, y := 0 })
        ∧ w'.key_events = w.key_events ++ [KeyEvent.press KC_RIGHT, KeyEvent.release KC_RIGHT]
        ∧ w'.move_buffer_x = 1 ∧ w'.move_buffer_y = 0 := by
  obtain ⟨n, rfl⟩ : ∃ n, fuel = n + 2 := ⟨fuel - 2, by omega⟩
  refine ⟨by rw [local_carret_dpi_eq, hint, hsn]; rfl, _,
    carret_tick_11 o n w r ho hmm hds hcar hint hsn hbx hby hx hy, ?_, rfl, rfl⟩
  simp

/-- Witness of C3 (amended): the initial state with Caret mode enabled, the
default build and fuel 2. -/
theorem C3_carret_emission_amended_witness :
    ∃ w', pointing_device_task_charybdis defaultBuild 2 carret_world (sample 11 0)
        = some (w', { sample 11 0 with x := 0, y := 0 })
      ∧ w'.key_events
        = carret_world.key_events ++ [KeyEvent.press KC_RIGHT, KeyEvent.release KC_RIGHT]
      ∧ w'.move_buffer_x = 1 ∧ w'.move_buffer_y = 0 :=
  (C3_carret_emission_amended defaultBuild 2 carret_world (sample 11 0) (by decide)
    rfl rfl rfl rfl rfl rfl rfl rfl rfl rfl).2

/-! ### Dispatch of `pointing_device_task_charybdis` -/

theorem load_local_mouse_report_frame (w : World) (r : report_mouse_t) :
    (load_local_mouse_report w r).g_charybdis_config = w.g_charybdis_config
    ∧ (load_local_mouse_report w r).key_events = w.key_events
    ∧ (load_local_mouse_report w r).move_buffer_x = w.move_buffer_x
    ∧ (load_local_mouse_report w r).move_buffer_y = w.move_buffer_y := by
  unfold load_local_mouse_report
  split <;> exact ⟨rfl, rfl, rfl, rfl⟩

theorem buffered_frame (rx ry : Bool) (w : World) (r : report_mouse_t) :
    (buffered rx ry w r).g_charybdis_config = w.g_charybdis_config
    ∧ (buffered rx ry w r).key_events = w.key_events := by
  obtain ⟨h1, h2, _, _⟩ := load_local_mouse_report_frame w r
  exact ⟨h1, h2⟩

/-- The ModeSelect branch: taken whenever `is_modemode_enabled` is set. -/
theorem task_modemode (o : BuildOpts) (fuel : Nat) (w : World) (r : report_mouse_t)
    (hmm : w.g_charybdis_config.is_modemode_enabled = true) :
    pointing_device_task_charybdis o fuel w r
      = (tap_modes fuel (buffered false true w r)).map
          (fun w3 => (w3, { r with x := 0, y := 0 })) := by
  have hg := (load_local_mouse_report_frame w r).1
  unfold pointing_device_task_charybdis
  simp only [hg, hmm, if_true]
  rfl

/-- The Caret branch: taken when `is_carret_enabled` is set and neither
`is_modemode_enabled` nor `is_dragscroll_enabled` is. -/
theorem task_carret (o : BuildOpts) (fuel : Nat) (w : World) (r : report_mouse_t)
    (hmm : w.g_charybdis_config.is_modemode_enabled = false)
    (hds : w.g_charybdis_config.is_dragscroll_enabled = false)
    (hcar : w.g_charybdis_config.is_carret_enabled = true) :
    pointing_device_task_charybdis o fuel w r
      = (tap_tb fuel KC_RIGHT KC_LEFT KC_UP KC_DOWN
          (buffered o.CHARYBDIS_CARRET_REVERSE_X o.CHARYBDIS_CARRET_REVERSE_Y w r)).map
          (fun w3 => (w3, { r with x := 0, y := 0 })) := by
  have hg := (load_local_mouse_report_frame w r).1
  unfold pointing_device_task_charybdis
  simp only [hg, hmm, hds, hcar, if_true, if_false, Bool.false_eq_true]
  rfl

/-- The Custom branch: taken when `is_custom_enabled` is the first flag set. -/
theorem task_custom (o : BuildOpts) (fuel : Nat) (w : World) (r : report_mouse_t)
    (hmm : w.g_charybdis_config.is_modemode_enabled = false)
    (hds : w.g_charybdis_config.is_dragscroll_enabled = false)
    (hcar : w.g_charybdis_config.is_carret_enabled = false)
    (hcus : w.g_charybdis_config.is_custom_enabled = true) :
    pointing_device_task_charybdis o fuel w r
      = (tap_tb fuel CUSTOM_FN_RIGHT CUSTOM_FN_LEFT CUSTOM_FN_UP CUSTOM_FN_DOWN
          (buffered false true w r)).map
          (fun w3 => (w3, { r with x := 0, y := 0 })) := by
  have hg := (load_local_mouse_report_frame w r).1
  unfold pointing_device_task_charybdis
  simp only [hg, hmm, hds, hcar, hcus, if_true, if_false, Bool.false_eq_true]
  rfl

/-- The threshold tests of DragScroll write only the motion buffers and the
scroll fields `h`, `v`. -/
theorem dragscroll_emit_frame (size : Int) (w : World) (r : report_mouse_t) :
    (dragscroll_emit size w r).2.x = r.x
    ∧ (dragscroll_emit size w r).2.y = r.y
    ∧ (dragscroll_emit size w r).2.buttons = r.buttons
    ∧ (dragscroll_emit size w r).1.key_events = w.key_events
    ∧ (dragscroll_emit size w r).1.g_charybdis_config = w.g_charybdis_config := by
  unfold dragscroll_emit
  by_cases h1 : abs w.move_buffer_x > size <;> by_cases h2 : abs w.move_buffer_y > size <;>
    simp [h1, h2]

/-- The DragScroll branch: taken when `is_dragscroll_enabled` is set and
`is_modemode_enabled` is not; it returns for any fuel. -/
theorem task_dragscroll (o : BuildOpts) (fuel : Nat) (w : World) (r : report_mouse_t)
    (hmm : w.g_charybdis_config.is_modemode_enabled = false)
    (hds : w.g_charybdis_config.is_dragscroll_enabled = true) :
    pointing_device_task_charybdis o fuel w r
      = some (dragscroll_emit (local_dragscroll_buffer_size w)
          (buffered o.CHARYBDIS_DRAGSCROLL_REVERSE_X o.CHARYBDIS_DRAGSCROLL_REVERSE_Y w r)
          { r with x := 0, y := 0 }) := by
  have hg := (load_local_mouse_report_frame w r).1
  unfold pointing_device_task_charybdis
  simp only [hg, hmm, hds, if_true, if_false, Bool.false_eq_true]
  rfl

/-- DragScroll reports `x = y = 0` and writes neither the key events nor the
config. -/
theorem task_dragscroll_frame (o : BuildOpts) (w : World) (r : report_mouse_t) :
    (dragscroll_emit (local_dragscroll_buffer_size w)
        (buffered o.CHARYBDIS_DRAGSCROLL_REVERSE_X o.CHARYBDIS_DRAGSCROLL_REVERSE_Y w r)
        { r with x := 0, y := 0 }).2.x = 0
    ∧ (dragscroll_emit (local_dragscroll_buffer_size w)
        (buffered o.CHARYBDIS_DRAGSCROLL_REVERSE_X o.CHARYBDIS_DRAGSCROLL_REVERSE_Y w r)
        { r with x := 0, y := 0 }).2.y = 0
    ∧ (dragscroll_emit (local_dragscroll_buffer_size w)
        (buffered o.CHARYBDIS_DRAGSCROLL_REVERSE_X o.CHARYBDIS_DRAGSCROLL_REVERSE_Y w r)
        { r with x := 0, y := 0 }).1.key_events = w.key_events
    ∧ (dragscroll_emit (local_dragscroll_buffer_size w)
        (buffered o.CHARYBDIS_DRAGSCROLL_REVERSE_X o.CHARYBDIS_DRAGSCROLL_REVERSE_Y w r)
        { r with x := 0, y := 0 }).1.g_charybdis_config = w.g_charybdis_config := by
  obtain ⟨e1, e2, _, e4, e5⟩ := dragscroll_emit_frame (local_dragscroll_buffer_size w)
    (buffered o.CHARYBDIS_DRAGSCROLL_REVERSE_X o.CHARYBDIS_DRAGSCROLL_REVERSE_Y w r)
    { r with x := 0, y := 0 }
  obtain ⟨hg, hk⟩ := buffered_frame o.CHARYBDIS_DRAGSCROLL_REVERSE_X
    o.CHARYBDIS_DRAGSCROLL_REVERSE_Y w r
  exact ⟨e1, e2, e4.trans hk, e5.trans hg⟩

/-- The Pointing branch: taken when none of the four mode flags is set; it
returns for any fuel and writes only `local_mouse_report_x/y` and the `x`, `y`
fields of the report. -/
theorem task_pointing (o : BuildOpts) (fuel : Nat) (w : World) (r : report_mouse_t)
    (hmm : w.g_charybdis_config.is_modemode_enabled = false)
    (hds : w.g_charybdis_config.is_dragscroll_enabled = false)
    (hcar : w.g_charybdis_config.is_carret_enabled = false)
    (hcus : w.g_charybdis_config.is_custom_enabled = false) :
    pointing_device_task_charybdis o fuel w r
      = some (load_local_mouse_report w r,
          if w.g_charybdis_config.is_sniping_enabled then r
          else
            { r with
              x := DISPLACEMENT_WITH_ACCELERATION o r.x
              y := DISPLACEMENT_WITH_ACCELERATION o r.y }) := by
  have hg := (load_local_mouse_report_frame w r).1
  unfold pointing_device_task_charybdis
  simp only [hg, hmm, hds, hcar, hcus, if_true, if_false, Bool.false_eq_true]
  cases w.g_charybdis_config.is_sniping_enabled <;> rfl

theorem abs_add_le (a b : Int) : abs (a + b) ≤ abs a + abs b := by
  unfold abs; split <;> split <;> split <;> omega

theorem abs_sub_le (a b : Int) : abs (a - b) ≤ abs a + abs b := by
  unfold abs; split <;> split <;> split <;> omega

/-- Adding the loaded sample raises the buffered magnitude by at most the
magnitude of the loaded sample. -/
theorem buffered_magnitude_le (rx ry : Bool) (w : World) (r : report_mouse_t) :
    magnitude (buffered rx ry w r)
      ≤ abs w.move_buffer_x + abs w.move_buffer_y
        + abs (load_local_mouse_report w r).local_mouse_report_x
        + abs (load_local_mouse_report w r).local_mouse_report_y := by
  obtain ⟨_, _, hx, hy⟩ := load_local_mouse_report_frame w r
  have hx1 : abs (buffered rx ry w r).move_buffer_x
      ≤ abs w.move_buffer_x + abs (load_local_mouse_report w r).local_mouse_report_x := by
    unfold buffered add_sample
    dsimp only
    rw [hx]
    split
    · exact Int.le_trans (abs_wrap16_le _) (abs_sub_le _ _)
    · exact Int.le_trans (abs_wrap16_le _) (abs_add_le _ _)
  have hy1 : abs (buffered rx ry w r).move_buffer_y
      ≤ abs w.move_buffer_y + abs (load_local_mouse_report w r).local_mouse_report_y := by
    unfold buffered add_sample
    dsimp only
    rw [hy]
    split
    · exact Int.le_trans (abs_wrap16_le _) (abs_sub_le _ _)
    · exact Int.le_trans (abs_wrap16_le _) (abs_add_le _ _)
  unfold magnitude
  omega

/-- A returning call of `tap_tb` leaves the config alone and has sent only
taps of one of its four keycodes. -/
theorem tap_tb_keys (fuel : Nat) (k0 k1 k2 k3 : Nat) (w w' : World)
    (h : tap_tb fuel k0 k1 k2 k3 w = some w') :
    w'.g_charybdis_config = w.g_charybdis_config
    ∧ ∃ k n, k ∈ [k0, k1, k2, k3] ∧ w'.key_events = w.key_events ++ key_taps k n := by
  obtain ⟨hf, hc⟩ := tap_tb_spec fuel k0 k1 k2 k3 w w' h
  have hg : w'.erase_motion.g_charybdis_config = w.erase_motion.g_charybdis_config :=
    congrArg World.g_charybdis_config hf
  refine ⟨hg, ?_⟩
  rcases hc with ⟨_, rfl⟩ | ⟨_, k, n, hk, _, he⟩
  · exact ⟨k0, 0, by simp, by simp [key_taps]⟩
  · exact ⟨k, n, hk, he⟩

/-- C9: `pointing_device_task_charybdis` processes exactly one mode, the first
whose flag is set in the order modemode, dragscroll, carret, custom, and
Pointing when none is set. A returning invocation is the ModeSelect step
(`tap_modes`) whenever modemode is set, whatever the other flags: the report
gets `x = y = 0`, `h` and `v` are not modified and no key is tapped. Otherwise
with dragscroll set it is the DragScroll step: `x = y = 0`, no key is tapped
and the config is not written, even when carret or custom is set. Otherwise
with carret set it is `tap_tb` on the arrow keycodes: `x = y = 0`, `h` and `v`
not modified, only arrow keys tapped. Otherwise with custom set it is `tap_tb`
on the Custom keycodes. With none set the buffers, keys, `h` and `v` are left
alone. The invocation returns for any fuel in DragScroll and Pointing, and for
any fuel from 128 on in the other modes when the loop counter cannot wrap
(`counter_safe`). -/
theorem C9_mode_priority (o : BuildOpts) (w : World) (r : report_mouse_t) :
    (∀ (fuel : Nat) (w' : World) (r' : report_mouse_t),
      pointing_device_task_charybdis o fuel w r = some (w', r') →
      (w.g_charybdis_config.is_modemode_enabled = true →
        tap_modes fuel (buffered false true w r) = some w'
        ∧ r' = { r with x := 0, y := 0 }
        ∧ w'.key_events = w.key_events)
      ∧ (w.g_charybdis_config.is_modemode_enabled = false →
        w.g_charybdis_config.is_dragscroll_enabled = true →
        (w', r') = dragscroll_emit (local_dragscroll_buffer_size w)
          (buffered o.CHARYBDIS_DRAGSCROLL_REVERSE_X o.CHARYBDIS_DRAGSCROLL_REVERSE_Y w r)
          { r with x := 0, y := 0 }
        ∧ r'.x = 0 ∧ r'.y = 0
        ∧ w'.key_events = w.key_events
        ∧ w'.g_charybdis_config = w.g_charybdis_config)
      ∧ (w.g_charybdis_config.is_modemode_enabled = false →
        w.g_charybdis_config.is_dragscroll_enabled = false →
        w.g_charybdis_config.is_carret_enabled = true →
        tap_tb fuel KC_RIGHT KC_LEFT KC_UP KC_DOWN
          (buffered o.CHARYBDIS_CARRET_REVERSE_X o.CHARYBDIS_CARRET_REVERSE_Y w r) = some w'
        ∧ r' = { r with x := 0, y := 0 }
        ∧ w'.g_charybdis_config = w.g_charybdis_config
        ∧ ∃ k n, k ∈ [KC_RIGHT, KC_LEFT, KC_UP, KC_DOWN]
            ∧ w'.key_events = w.key_events ++ key_taps k n)
      ∧ (w.g_charybdis_config.is_modemode_enabled = false →
        w.g_charybdis_config.is_dragscroll_enabled = false →
        w.g_charybdis_config.is_carret_enabled = false →
        w.g_charybdis_config.is_custom_enabled = true →
        tap_tb fuel CUSTOM_FN_RIGHT CUSTOM_FN_LEFT CUSTOM_FN_UP CUSTOM_FN_DOWN
          (buffered false true w r) = some w'
        ∧ r' = { r with x := 0, y := 0 }
        ∧ w'.g_charybdis_config = w.g_charybdis_config
        ∧ ∃ k n, k ∈ [CUSTOM_FN_RIGHT, CUSTOM_FN_LEFT, CUSTOM_FN_UP, CUSTOM_FN_DOWN]
            ∧ w'.key_events = w.key_events ++ key_taps k n)
      ∧ (w.g_charybdis_config.is_modemode_enabled = false →
        w.g_charybdis_config.is_dragscroll_enabled = false →
        w.g_charybdis_config.is_carret_enabled = false →
        w.g_charybdis_config.is_custom_enabled = false →
        w' = load_local_mouse_report w r
        ∧ w'.move_buffer_x = w.move_buffer_x ∧ w'.move_buffer_y = w.move_buffer_y
        ∧ w'.key_events = w.key_events
        ∧ w'.g_charybdis_config = w.g_charybdis_config
        ∧ r'.h = r.h ∧ r'.v = r.v))
    ∧ (w.g_charybdis_config.is_modemode_enabled = false →
      (w.g_charybdis_config.is_dragscroll_enabled = true
        ∨ (w.g_charybdis_config.is_carret_enabled = false
          ∧ w.g_charybdis_config.is_custom_enabled = false)) →
      ∀ fuel : Nat, ∃ w' r', pointing_device_task_charybdis o fuel w r = some (w', r'))
    ∧ (counter_safe w r → ∀ fuel : Nat, 128 ≤ fuel →
      ∃ w' r', pointing_device_task_charybdis o fuel w r = some (w', r')) := by
  refine ⟨?_, ?_, ?_⟩
  · intro fuel w' r' h
    refine ⟨?_, ?_, ?_, ?_, ?_⟩
    · intro hmm
      rw [task_modemode o fuel w r hmm] at h
      obtain ⟨s, hs, heq⟩ := Option.map_eq_some'.mp h
      cases heq
      exact ⟨hs, rfl, (tap_modes_key_events fuel _ _ hs).trans (buffered_frame _ _ w r).2⟩
    · intro hmm hds
      rw [task_dragscroll o fuel w r hmm hds] at h
      obtain ⟨e1, e2, e3, e4⟩ := task_dragscroll_frame o w r
      have h' := Option.some.inj h
      have hw := congrArg Prod.fst h'
      have hr := congrArg Prod.snd h'
      dsimp only at hw hr
      rw [← hw, ← hr]
      exact ⟨rfl, e1, e2, e3, e4⟩
    · intro hmm hds hcar
      rw [task_carret o fuel w r hmm hds hcar] at h
      obtain ⟨s, hs, heq⟩ := Option.map_eq_some'.mp h
      cases heq
      obtain ⟨hg, k, n, hk, he⟩ := tap_tb_keys fuel _ _ _ _ _ _ hs
      obtain ⟨bg, bk⟩ := buffered_frame o.CHARYBDIS_CARRET_REVERSE_X
        o.CHARYBDIS_CARRET_REVERSE_Y w r
      exact ⟨hs, rfl, hg.trans bg, k, n, hk, by rw [he, bk]⟩
    · intro hmm hds hcar hcus
      rw [task_custom o fuel w r hmm hds hcar hcus] at h
      obtain ⟨s, hs, heq⟩ := Option.map_eq_some'.mp h
      cases heq
      obtain ⟨hg, k, n, hk, he⟩ := tap_tb_keys fuel _ _ _ _ _ _ hs
      obtain ⟨bg, bk⟩ := buffered_frame false true w r
      exact ⟨hs, rfl, hg.trans bg, k, n, hk, by rw [he, bk]⟩
    · intro hmm hds hcar hcus
      rw [task_pointing o fuel w r hmm hds hcar hcus] at h
      obtain ⟨lg, lk, lx, ly⟩ := load_local_mouse_report_frame w r
      cases h
      refine ⟨rfl, lx, ly, lk, lg, ?_, ?_⟩ <;> split <;> rfl
  · intro hmm hcase fuel
    rcases hcase with hds | ⟨hcar, hcus⟩
    · exact ⟨_, _, task_dragscroll o fuel w r hmm hds⟩
    · cases hds : w.g_charybdis_config.is_dragscroll_enabled
      · exact ⟨_, _, task_pointing o fuel w r hmm hds hcar hcus⟩
      · exact ⟨_, _, task_dragscroll o fuel w r hmm hds⟩
  · intro hsafe fuel hfuel
    unfold counter_safe at hsafe
    cases hmm : w.g_charybdis_config.is_modemode_enabled
    · cases hds : w.g_charybdis_config.is_dragscroll_enabled
      · cases hcar : w.g_charybdis_config.is_carret_enabled
        · cases hcus : w.g_charybdis_config.is_custom_enabled
          · exact ⟨_, _, task_pointing o fuel w r hmm hds hcar hcus⟩
          · have hb := buffered_magnitude_le false true w r
            have hT := local_carret_dpi_ge (buffered false true w r)
            obtain ⟨s, hs⟩ := tap_tb_terminates fuel hfuel CUSTOM_FN_RIGHT CUSTOM_FN_LEFT
              CUSTOM_FN_UP CUSTOM_FN_DOWN (buffered false true w r) (by omega)
            rw [task_custom o fuel w r hmm hds hcar hcus, hs]
            exact ⟨_, _, rfl⟩
        · have hb := buffered_magnitude_le o.CHARYBDIS_CARRET_REVERSE_X
            o.CHARYBDIS_CARRET_REVERSE_Y w r
          have hT := local_carret_dpi_ge
            (buffered o.CHARYBDIS_CARRET_REVERSE_X o.CHARYBDIS_CARRET_REVERSE_Y w r)
          obtain ⟨s, hs⟩ := tap_tb_terminates fuel hfuel KC_RIGHT KC_LEFT KC_UP KC_DOWN
            (buffered o.CHARYBDIS_CARRET_REVERSE_X o.CHARYBDIS_CARRET_REVERSE_Y w r) (by omega)
          rw [task_carret o fuel w r hmm hds hcar, hs]
          exact ⟨_, _, rfl⟩
      · exact ⟨_, _, task_dragscroll o fuel w r hmm hds⟩
    · have hb := buffered_magnitude_le false true w r
      obtain ⟨s, hs⟩ := tap_modes_terminates fuel hfuel (buffered false true w r)
        (by simp only [CHARYBDIS_CARRET_BUFFER]; omega)
      rw [task_modemode o fuel w r hmm, hs]
      exact ⟨_, _, rfl⟩

/-- Witness of C9: ModeSelect and DragScroll both set, sample (50, 0): the
invocation returns, the report keeps `h` and `v`, and no key is tapped. -/
theorem C9_mode_priority_witness :
    counter_safe modemode_dragscroll_world (sample 50 0)
    ∧ ∃ w' r', pointing_device_task_charybdis defaultBuild 128 modemode_dragscroll_world
          (sample 50 0) = some (w', r')
        ∧ r' = { sample 50 0 with x := 0, y := 0 }
        ∧ w'.key_events = modemode_dragscroll_world.key_events := by
  refine ⟨by decide, ?_⟩
  obtain ⟨w', r', h⟩ :=
    (C9_mode_priority defaultBuild modemode_dragscroll_world (sample 50 0)).2.2
      (by decide) 128 (by decide)
  exact ⟨w', r', h,
    (((C9_mode_priority defaultBuild modemode_dragscroll_world (sample 50 0)).1
      128 w' r' h).1 rfl).2⟩

/-! ### Firing condition of Caret and Custom -/

theorem key_taps_ne_nil (k n : Nat) (hn : 1 ≤ n) : key_taps k n ≠ [] := by
  cases n with
  | zero => omega
  | succ m => simp [key_taps]

theorem local_carret_dpi_congr (w1 w2 : World)
    (h : w1.g_charybdis_config = w2.g_charybdis_config) :
    local_carret_dpi w1 = local_carret_dpi w2 := by
  unfold local_carret_dpi; rw [h]

theorem carret_custom_buffered_frame (o : BuildOpts) (w : World) (r : report_mouse_t) :
    (carret_custom_buffered o w r).g_charybdis_config = w.g_charybdis_config
    ∧ (carret_custom_buffered o w r).key_events = w.key_events := by
  unfold carret_custom_buffered
  split <;> exact buffered_frame _ _ w r

/-- Below the threshold `tap_tb` returns at once and changes nothing. -/
theorem tap_tb_below (fuel : Nat) (k0 k1 k2 k3 : Nat) (w : World)
    (h : magnitude w < local_carret_dpi w) :
    tap_tb fuel k0 k1 k2 k3 w = some w := by
  unfold magnitude at h
  unfold tap_tb
  dsimp only
  rw [if_pos h]

/-- In Caret or Custom mode the invocation is `tap_tb`, on the keycodes of the
mode, applied to the buffers with the sample added. -/
theorem task_carret_custom (o : BuildOpts) (fuel : Nat) (w : World) (r : report_mouse_t)
    (hmm : w.g_charybdis_config.is_modemode_enabled = false)
    (hds : w.g_charybdis_config.is_dragscroll_enabled = false)
    (hmode : w.g_charybdis_config.is_carret_enabled = true
      ∨ w.g_charybdis_config.is_custom_enabled = true) :
    ∃ k0 k1 k2 k3, pointing_device_task_charybdis o fuel w r
      = (tap_tb fuel k0 k1 k2 k3 (carret_custom_buffered o w r)).map
          (fun w3 => (w3, { r with x := 0, y := 0 })) := by
  unfold carret_custom_buffered
  cases hcar : w.g_charybdis_config.is_carret_enabled
  · rcases hmode with h | hcus
    · rw [hcar] at h; cases h
    · exact ⟨_, _, _, _, task_custom o fuel w r hmm hds hcar hcus⟩
  · exact ⟨_, _, _, _, task_carret o fuel w r hmm hds hcar⟩

/-- C10 (counterexample): Caret mode, Sniping and Integration off (T = 10),
empty buffers, sample (10, 0): the buffered magnitude is 10, which does not
exceed T, and the invocation emits a tap of `KC_RIGHT`; so "emits if and only
if the magnitude is strictly greater than T" fails. -/
theorem C10_firing_condition_counterexample :
    ¬ ∀ (w' : World) (r' : report_mouse_t),
        pointing_device_task_charybdis defaultBuild 2 carret_world (sample 10 0)
          = some (w', r') →
        (w'.key_events ≠ carret_world.key_events
          ↔ magnitude (carret_custom_buffered defaultBuild carret_world (sample 10 0))
              > local_carret_dpi carret_world) := by
  intro H
  have hres : pointing_device_task_charybdis defaultBuild 2 carret_world (sample 10 0)
      = some ({ carret_world with
                local_mouse_report_x := 10
                key_events := [KeyEvent.press KC_RIGHT, KeyEvent.release KC_RIGHT] },
              { sample 10 0 with x := 0, y := 0 }) := by
    decide
  exact absurd (H _ _ hres) (by decide)

/-- C10 (amended): in Caret or Custom mode (modemode and dragscroll clear),
with T = `local_carret_dpi` (10 plain, 40 with Sniping, 200 with Integration,
800 with both) and the buffers taken after the sample is added: when
`|bx| + |by| < T` the invocation returns for any fuel, emits nothing and both
buffers keep the accumulated motion; when `|bx| + |by| ≥ T` every returning
invocation has emitted at least one key tap, and the invocation returns for
any fuel from 128 on when the magnitude is below 127 T. -/
theorem C10_firing_condition_amended (o : BuildOpts) (fuel : Nat) (w : World)
    (r : report_mouse_t)
    (hmm : w.g_charybdis_config.is_modemode_enabled = false)
    (hds : w.g_charybdis_config.is_dragscroll_enabled = false)
    (hmode : w.g_charybdis_config.is_carret_enabled = true
      ∨ w.g_charybdis_config.is_custom_enabled = true) :
    local_carret_dpi w
        = (if w.g_charybdis_config.is_integ_enabled then
            (if w.g_charybdis_config.is_sniping_enabled then 800 else 200)
          else (if w.g_charybdis_config.is_sniping_enabled then 40 else 10))
    ∧ (magnitude (carret_custom_buffered o w r) < local_carret_dpi w →
        pointing_device_task_charybdis o fuel w r
          = some (carret_custom_buffered o w r, { r with x := 0, y := 0 })
        ∧ (carret_custom_buffered o w r).key_events = w.key_events)
    ∧ (local_carret_dpi w ≤ magnitude (carret_custom_buffered o w r) →
        ∀ (w' : World) (r' : report_mouse_t),
          pointing_device_task_charybdis o fuel w r = some (w', r') →
          w'.key_events ≠ w.key_events
          ∧ ∃ k n, 1 ≤ n ∧ w'.key_events = w.key_events ++ key_taps k n)
    ∧ (local_carret_dpi w ≤ magnitude (carret_custom_buffered o w r) →
        magnitude (carret_custom_buffered o w r) < 127 * local_carret_dpi w →
        128 ≤ fuel →
        ∃ w' r', pointing_device_task_charybdis o fuel w r = some (w', r')) := by
  obtain ⟨k0, k1, k2, k3, htask⟩ := task_carret_custom o fuel w r hmm hds hmode
  obtain ⟨hg, hk⟩ := carret_custom_buffered_frame o w r
  have hT := local_carret_dpi_congr _ _ hg
  refine ⟨local_carret_dpi_eq w, ?_, ?_, ?_⟩
  · intro hlt
    rw [htask, tap_tb_below fuel k0 k1 k2 k3 _ (by rw [hT]; exact hlt)]
    exact ⟨rfl, hk⟩
  · intro hge w' r' h
    rw [htask] at h
    obtain ⟨s, hs, heq⟩ := Option.map_eq_some'.mp h
    cases heq
    obtain ⟨_, hc⟩ := tap_tb_spec fuel k0 k1 k2 k3 _ _ hs
    rcases hc with ⟨hlt, _⟩ | ⟨_, k, n, _, hn, he⟩
    · rw [hT] at hlt; omega
    · rw [hk] at he
      refine ⟨?_, k, n, hn, he⟩
      rw [he]
      intro hcontra
      have hnil : key_taps k n = [] := by
        have := congrArg List.length hcontra
        simp only [List.length_append] at this
        exact List.eq_nil_of_length_eq_zero (by omega)
      exact key_taps_ne_nil k n hn hnil
  · intro _ hsafe hfuel
    obtain ⟨s, hs⟩ := tap_tb_terminates fuel hfuel k0 k1 k2 k3 (carret_custom_buffered o w r)
      (by rw [hT]; exact hsafe)
    rw [htask, hs]
    exact ⟨_, _, rfl⟩

/-- Witness of C10 (amended): Caret mode, empty buffers: with sample (9, 0),
below the threshold 10, nothing is emitted and the x buffer keeps 9; with
sample (10, 0), at the threshold, the invocation returns and has emitted. -/
theorem C10_firing_condition_amended_witness :
    pointing_device_task_charybdis defaultBuild 0 carret_world (sample 9 0)
      = some (carret_custom_buffered defaultBuild carret_world (sample 9 0),
          { sample 9 0 with x := 0, y := 0 })
    ∧ (carret_custom_buffered defaultBuild carret_world (sample 9 0)).move_buffer_x = 9
    ∧ ∃ w' r', pointing_device_task_charybdis defaultBuild 128 carret_world (sample 10 0)
          = some (w', r')
        ∧ w'.key_events ≠ carret_world.key_events := by
  refine ⟨((C10_firing_condition_amended defaultBuild 0 carret_world (sample 9 0) rfl rfl
      (Or.inl rfl)).2.1 (by decide)).1, by decide, ?_⟩
  obtain ⟨w', r', h⟩ :=
    (C10_firing_condition_amended defaultBuild 128 carret_world (sample 10 0) rfl rfl
      (Or.inl rfl)).2.2.2 (by decide) (by decide) (by decide)
  exact ⟨w', r', h,
    ((C10_firing_condition_amended defaultBuild 128 carret_world (sample 10 0) rfl rfl
      (Or.inl rfl)).2.2.1 (by decide) w' r' h).1⟩

/-! ### Sensitivity, DPI formula and persistence -/

theorem maybe_update_pointing_device_cpi_g (w : World) :
    (maybe_update_pointing_device_cpi w).g_charybdis_config = w.g_charybdis_config := by
  rw [maybe_update_pointing_device_cpi_eq]

theorem get_pointer_default_dpi_of_wf (c : charybdis_config_t) (h : c.wf) :
    get_pointer_default_dpi c = c.pointer_default_dpi * 200 + 400 := by
  obtain ⟨hd, _⟩ := h
  unfold get_pointer_default_dpi CHARYBDIS_DEFAULT_DPI_CONFIG_STEP CHARYBDIS_MINIMUM_DEFAULT_DPI
  omega

theorem get_pointer_sniping_dpi_of_wf (c : charybdis_config_t) (h : c.wf) :
    get_pointer_sniping_dpi c = c.pointer_sniping_dpi * 100 + 200 := by
  obtain ⟨_, hs⟩ := h
  unfold get_pointer_sniping_dpi CHARYBDIS_SNIPING_DPI_CONFIG_STEP CHARYBDIS_MINIMUM_SNIPING_DPI
  omega

/-- The sensitivity `maybe_update_pointing_device_cpi` applies, for step
fields that hold values of their width. -/
theorem maybe_update_pointing_device_cpi_of_wf (w : World) (h : w.g_charybdis_config.wf) :
    (maybe_update_pointing_device_cpi w).cpi
      = if w.g_charybdis_config.is_dragscroll_enabled then 100
        else if w.g_charybdis_config.is_sniping_enabled then
          200 + 100 * w.g_charybdis_config.pointer_sniping_dpi
        else 400 + 200 * w.g_charybdis_config.pointer_default_dpi := by
  rw [maybe_update_pointing_device_cpi_eq]
  simp only [get_pointer_default_dpi_of_wf _ h, get_pointer_sniping_dpi_of_wf _ h,
    CHARYBDIS_DRAGSCROLL_DPI]
  split
  · rfl
  · split <;> omega

/-- C17: for every config, `step_pointer_default_dpi` changes the default step
by exactly 1 modulo 256 (forward `(s + 1) mod 256`, backward `(s - 1) mod 256`)
and `step_pointer_sniping_dpi` changes the sniping step by exactly 1 modulo 2
(`(s + 1) mod 2`, `(s - 1) mod 2`); every other field of the config is
unchanged; a forward and a backward sniping step have the same effect. -/
theorem C17_dpi_step (w : World) :
    (step_pointer_default_dpi w true).g_charybdis_config
      = { w.g_charybdis_config with
          pointer_default_dpi := (w.g_charybdis_config.pointer_default_dpi + 1) % 256 }
    ∧ (step_pointer_default_dpi w false).g_charybdis_config
      = { w.g_charybdis_config with
          pointer_default_dpi :=
            (((w.g_charybdis_config.pointer_default_dpi : Int) - 1) % 256).toNat }
    ∧ (step_pointer_sniping_dpi w true).g_charybdis_config
      = { w.g_charybdis_config with
          pointer_sniping_dpi := (w.g_charybdis_config.pointer_sniping_dpi + 1) % 2 }
    ∧ (step_pointer_sniping_dpi w false).g_charybdis_config
      = { w.g_charybdis_config with
          pointer_sniping_dpi :=
            (((w.g_charybdis_config.pointer_sniping_dpi : Int) - 1) % 2).toNat }
    ∧ step_pointer_sniping_dpi w true = step_pointer_sniping_dpi w false := by
  have e1 : (((w.g_charybdis_config.pointer_default_dpi : Int) + 1) % 256).toNat
      = (w.g_charybdis_config.pointer_default_dpi + 1) % 256 := by omega
  have e2 : (((w.g_charybdis_config.pointer_default_dpi : Int) + -1) % 256).toNat
      = (((w.g_charybdis_config.pointer_default_dpi : Int) - 1) % 256).toNat := by omega
  have e3 : (((w.g_charybdis_config.pointer_sniping_dpi : Int) + 1) % 2).toNat
      = (w.g_charybdis_config.pointer_sniping_dpi + 1) % 2 := by omega
  have e4 : (((w.g_charybdis_config.pointer_sniping_dpi : Int) + -1) % 2).toNat
      = (((w.g_charybdis_config.pointer_sniping_dpi : Int) - 1) % 2).toNat := by omega
  have e5 : (((w.g_charybdis_config.pointer_sniping_dpi : Int) + 1) % 2).toNat
      = (((w.g_charybdis_config.pointer_sniping_dpi : Int) + -1) % 2).toNat := by omega
  refine ⟨?_, ?_, ?_, ?_, ?_⟩
  · unfold step_pointer_default_dpi
    rw [maybe_update_pointing_device_cpi_g]
    simp only [if_true, e1]
  · unfold step_pointer_default_dpi
    rw [maybe_update_pointing_device_cpi_g]
    simp only [Bool.false_eq_true, if_false, e2]
  · unfold step_pointer_sniping_dpi
    rw [maybe_update_pointing_device_cpi_g]
    simp only [if_true, e3]
  · unfold step_pointer_sniping_dpi
    rw [maybe_update_pointing_device_cpi_g]
    simp only [Bool.false_eq_true, if_false, e4]
  · unfold step_pointer_sniping_dpi
    simp only [if_true, Bool.false_eq_true, if_false, e5]

/-- C18: for step fields that hold values of their width,
`charybdis_get_pointer_default_dpi()` is `default_step * 200 + 400` and
`charybdis_get_pointer_sniping_dpi()` is `sniping_step * 100 + 200`, with no
wraparound of the 16-bit result (at most 51400 and 300); both are functions of
the config alone and write nothing. -/
theorem C18_effective_dpi_formula (w : World) (hwf : w.g_charybdis_config.wf) :
    charybdis_get_pointer_default_dpi w = w.g_charybdis_config.pointer_default_dpi * 200 + 400
    ∧ charybdis_get_pointer_sniping_dpi w
      = w.g_charybdis_config.pointer_sniping_dpi * 100 + 200
    ∧ w.g_charybdis_config.pointer_default_dpi * 200 + 400 ≤ 51400
    ∧ w.g_charybdis_config.pointer_sniping_dpi * 100 + 200 ≤ 300 := by
  refine ⟨get_pointer_default_dpi_of_wf _ hwf, get_pointer_sniping_dpi_of_wf _ hwf, ?_, ?_⟩
  · have := hwf.1; omega
  · have := hwf.2; omega

/-- Witness of C18: default step 255 and sniping step 1 give 51400 and 300. -/
theorem C18_effective_dpi_formula_witness :
    wrap_world.g_charybdis_config.wf
    ∧ charybdis_get_pointer_default_dpi wrap_world = 255 * 200 + 400
    ∧ charybdis_get_pointer_sniping_dpi wrap_world = 1 * 100 + 200 :=
  ⟨by decide, (C18_effective_dpi_formula wrap_world (by decide)).1,
    (C18_effective_dpi_formula wrap_world (by decide)).2.1⟩

theorem step_pointer_default_dpi_wf (w : World) (forward : Bool)
    (h : w.g_charybdis_config.wf) :
    (step_pointer_default_dpi w forward).g_charybdis_config.wf := by
  obtain ⟨_, hs⟩ := h
  unfold step_pointer_default_dpi
  rw [maybe_update_pointing_device_cpi_g]
  refine ⟨?_, hs⟩
  show (((w.g_charybdis_config.pointer_default_dpi : Int)
    + (if forward then 1 else -1)) % 256).toNat < 256
  split <;> omega

theorem step_pointer_sniping_dpi_wf (w : World) (forward : Bool)
    (h : w.g_charybdis_config.wf) :
    (step_pointer_sniping_dpi w forward).g_charybdis_config.wf := by
  obtain ⟨hd, _⟩ := h
  unfold step_pointer_sniping_dpi
  rw [maybe_update_pointing_device_cpi_g]
  refine ⟨hd, ?_⟩
  show (((w.g_charybdis_config.pointer_sniping_dpi : Int)
    + (if forward then 1 else -1)) % 2).toNat < 2
  split <;> omega

/-- C16: after a DPI step of either curve or any of the six mode setters, on a
config whose step fields hold values of their width, the sensitivity last
applied to the sensor is 100 when `is_dragscroll_enabled` is set (whatever the
steps and the sniping flag), otherwise `200 + 100 * sniping_step` when
`is_sniping_enabled` is set, otherwise `400 + 200 * default_step`, all read in
the config the operation leaves. -/
theorem C16_sensitivity_selection (w : World) (op : SensOp) (hwf : w.g_charybdis_config.wf) :
    (SensOp.apply w op).cpi
      = if (SensOp.apply w op).g_charybdis_config.is_dragscroll_enabled then 100
        else if (SensOp.apply w op).g_charybdis_config.is_sniping_enabled then
          200 + 100 * (SensOp.apply w op).g_charybdis_config.pointer_sniping_dpi
        else 400 + 200 * (SensOp.apply w op).g_charybdis_config.pointer_default_dpi := by
  have key : ∀ v : World, v.g_charybdis_config.wf →
      (maybe_update_pointing_device_cpi v).cpi
        = if (maybe_update_pointing_device_cpi v).g_charybdis_config.is_dragscroll_enabled
          then 100
          else if (maybe_update_pointing_device_cpi v).g_charybdis_config.is_sniping_enabled
          then 200 + 100
            * (maybe_update_pointing_device_cpi v).g_charybdis_config.pointer_sniping_dpi
          else 400 + 200
            * (maybe_update_pointing_device_cpi v).g_charybdis_config.pointer_default_dpi := by
    intro v hv
    rw [maybe_update_pointing_device_cpi_g]
    exact maybe_update_pointing_device_cpi_of_wf v hv
  cases op with
  | step_default forward =>
    have h2 := step_pointer_default_dpi_wf w forward hwf
    unfold step_pointer_default_dpi at h2
    rw [maybe_update_pointing_device_cpi_g] at h2
    exact key _ h2
  | step_sniping forward =>
    have h2 := step_pointer_sniping_dpi_wf w forward hwf
    unfold step_pointer_sniping_dpi at h2
    rw [maybe_update_pointing_device_cpi_g] at h2
    exact key _ h2
  | mode m =>
    cases m <;> exact key _ hwf

/-- Witness of C16: enabling DragScroll on a config with default step 255 and
sniping step 1 applies 100; enabling Sniping applies 300; a forward default
step (255 wraps to 0) applies 400. -/
theorem C16_sensitivity_selection_witness :
    wrap_world.g_charybdis_config.wf
    ∧ (SensOp.apply wrap_world (SensOp.mode (ModeOp.dragscroll true))).cpi = 100
    ∧ (SensOp.apply wrap_world (SensOp.mode (ModeOp.sniping true))).cpi = 300
    ∧ (SensOp.apply wrap_world (SensOp.step_default true)).cpi = 400 :=
  ⟨by decide,
   (C16_sensitivity_selection wrap_world (SensOp.mode (ModeOp.dragscroll true))
      (by decide)).trans (by decide),
   (C16_sensitivity_selection wrap_world (SensOp.mode (ModeOp.sniping true))
      (by decide)).trans (by decide),
   (C16_sensitivity_selection wrap_world (SensOp.step_default true)
      (by decide)).trans (by decide)⟩

/-- C19: for every config and direction, after
`charybdis_cycle_pointer_default_dpi(forward)` a reboot yields the same
default DPI step and the same `charybdis_get_pointer_default_dpi()` as the
in-memory config had right after the cycle; the `_noeeprom` variant leaves the
same in-memory config and does not write the store. -/
theorem C19_default_dpi_persisted (w : World) (forward : Bool) :
    (reboot (charybdis_cycle_pointer_default_dpi w forward)).g_charybdis_config.pointer_default_dpi
      = (charybdis_cycle_pointer_default_dpi w forward).g_charybdis_config.pointer_default_dpi
    ∧ charybdis_get_pointer_default_dpi (reboot (charybdis_cycle_pointer_default_dpi w forward))
      = charybdis_get_pointer_default_dpi (charybdis_cycle_pointer_default_dpi w forward)
    ∧ (charybdis_cycle_pointer_default_dpi_noeeprom w forward).g_charybdis_config
      = (charybdis_cycle_pointer_default_dpi w forward).g_charybdis_config
    ∧ (charybdis_cycle_pointer_default_dpi_noeeprom w forward).eeprom_kb = w.eeprom_kb := by
  have hwd : (step_pointer_default_dpi w forward).g_charybdis_config.pointer_default_dpi < 256 := by
    rw [step_pointer_default_dpi_field]
    split <;> omega
  have hmask : ∀ x : Nat, x < 256 → (x % 256 &&& 0xff) % 256 = x := by
    intro x hx
    have h := Nat.and_pow_two_sub_one_eq_mod (x % 256) 8
    have h8 : (2 : Nat) ^ 8 - 1 = 0xff := by decide
    rw [h8] at h
    rw [h]
    have h256 : (2 : Nat) ^ 8 = 256 := by decide
    rw [h256]
    omega
  have e1 : (reboot (charybdis_cycle_pointer_default_dpi w forward)).g_charybdis_config.pointer_default_dpi
      = (charybdis_cycle_pointer_default_dpi w forward).g_charybdis_config.pointer_default_dpi := by
    show ((step_pointer_default_dpi w forward).g_charybdis_config.pointer_default_dpi % 256
      &&& 0xff) % 256 = (step_pointer_default_dpi w forward).g_charybdis_config.pointer_default_dpi
    exact hmask _ hwd
  refine ⟨e1, ?_, rfl, ?_⟩
  · simp only [charybdis_get_pointer_default_dpi, get_pointer_default_dpi, e1]
  · unfold charybdis_cycle_pointer_default_dpi_noeeprom step_pointer_default_dpi
    rw [maybe_update_pointing_device_cpi_eq]

/-- C20 (evaluation at the failing input): from the zero config,
`charybdis_cycle_pointer_sniping_dpi(true)` leaves sniping step 1 (300 DPI) in
memory and writes 0 to the store, since `raw` covers only the default step; a
reboot then yields sniping step 0 (200 DPI). -/
theorem C20_sniping_dpi_lost_on_reboot :
    (charybdis_cycle_pointer_sniping_dpi World.init true).g_charybdis_config.pointer_sniping_dpi
      = 1
    ∧ charybdis_get_pointer_sniping_dpi (charybdis_cycle_pointer_sniping_dpi World.init true)
      = 300
    ∧ (charybdis_cycle_pointer_sniping_dpi World.init true).eeprom_kb = 0
    ∧ (reboot (charybdis_cycle_pointer_sniping_dpi World.init true)).g_charybdis_config.pointer_sniping_dpi
      = 0
    ∧ charybdis_get_pointer_sniping_dpi
        (reboot (charybdis_cycle_pointer_sniping_dpi World.init true)) = 200 := by
  decide

/-! ### Pointing with acceleration -/

/-- With acceleration enabled the macro computes the spec's formula: the C
quotient truncates towards zero, which on `-d * d` is minus the floor of
`d * d / 24`. -/
theorem DISPLACEMENT_WITH_ACCELERATION_eq (o : BuildOpts) (d : Int)
    (hacc : o.CHARYBDIS_POINTER_ACCELERATION_ENABLE = true) :
    DISPLACEMENT_WITH_ACCELERATION o d = spec_accelerated d := by
  have hsq : 0 ≤ d * d := mul_self_nonneg d
  have h24 : (0 : Int) ≤ 24 := by decide
  unfold DISPLACEMENT_WITH_ACCELERATION spec_accelerated CONSTRAIN_HID clamp
    CHARYBDIS_POINTER_ACCELERATION_FACTOR
  rw [if_pos hacc]
  by_cases hpos : d > 0
  · rw [if_pos hpos, Int.tdiv_eq_ediv hsq h24, Int.sign_eq_one_of_pos hpos]
    have e : d + 1 * (d * d / 24) = d * d / 24 + d := by omega
    rw [e]
  · rw [if_neg hpos]
    have hneg : -d * d = -(d * d) := Int.neg_mul d d
    rw [hneg, Int.neg_tdiv, Int.tdiv_eq_ediv hsq h24]
    by_cases hz : d = 0
    · subst hz
      decide
    · have hlt : d < 0 := by omega
      rw [Int.sign_eq_neg_one_of_neg hlt]
      have e : d + -1 * (d * d / 24) = -(d * d / 24) + d := by omega
      rw [e]

/-- C15: in Pointing mode (modemode, dragscroll, carret and custom all clear)
with acceleration enabled (factor 24), for every input displacement the
invocation returns for any fuel and the output on each axis is
`clamp(d + sign(d) * floor(d*d / 24), -127, 127)` when Sniping is off, and the
report is the input unchanged when Sniping is on. -/
theorem C15_pointing_output (o : BuildOpts) (fuel : Nat) (w : World) (r : report_mouse_t)
    (hacc : o.CHARYBDIS_POINTER_ACCELERATION_ENABLE = true)
    (hmm : w.g_charybdis_config.is_modemode_enabled = false)
    (hds : w.g_charybdis_config.is_dragscroll_enabled = false)
    (hcar : w.g_charybdis_config.is_carret_enabled = false)
    (hcus : w.g_charybdis_config.is_custom_enabled = false) :
    (w.g_charybdis_config.is_sniping_enabled = false →
      pointing_device_task_charybdis o fuel w r
        = some (load_local_mouse_report w r,
            { r with x := spec_accelerated r.x, y := spec_accelerated r.y }))
    ∧ (w.g_charybdis_config.is_sniping_enabled = true →
      pointing_device_task_charybdis o fuel w r = some (load_local_mouse_report w r, r)) := by
  rw [task_pointing o fuel w r hmm hds hcar hcus]
  constructor
  · intro hsn
    rw [hsn, DISPLACEMENT_WITH_ACCELERATION_eq o r.x hacc,
      DISPLACEMENT_WITH_ACCELERATION_eq o r.y hacc]
    rfl
  · intro hsn
    rw [hsn]
    rfl

/-- Witness of C15: with acceleration, sample (30, -30) gives (67, -67) and
sample (100, -128) is limited to (127, -127). -/
theorem C15_pointing_output_witness :
    pointing_device_task_charybdis accel_build 0 World.init (sample 30 (-30))
      = some (load_local_mouse_report World.init (sample 30 (-30)),
          { sample 30 (-30) with x := 67, y := -67 })
    ∧ pointing_device_task_charybdis accel_build 0 World.init (sample 100 (-128))
      = some (load_local_mouse_report World.init (sample 100 (-128)),
          { sample 100 (-128) with x := 127, y := -127 }) :=
  ⟨((C15_pointing_output accel_build 0 World.init (sample 30 (-30)) rfl rfl rfl rfl rfl).1
      rfl).trans (by decide),
   ((C15_pointing_output accel_build 0 World.init (sample 100 (-128)) rfl rfl rfl rfl rfl).1
      rfl).trans (by decide)⟩

/-! ### ModeSelect transitions -/

/-- What the mode setters called by `tap_modes` do to the config. -/
theorem mode_setters_g (w : World) (enable : Bool) :
    (charybdis_set_pointer_dragscroll_enabled w enable).g_charybdis_config
      = { w.g_charybdis_config with
          is_dragscroll_enabled := enable, is_carret_enabled := false,
          is_custom_enabled := false }
    ∧ (charybdis_set_pointer_carret_enabled w enable).g_charybdis_config
      = { w.g_charybdis_config with
          is_dragscroll_enabled := false, is_carret_enabled := enable,
          is_custom_enabled := false }
    ∧ (charybdis_set_pointer_integ_enabled w enable).g_charybdis_config
      = { w.g_charybdis_config with is_integ_enabled := enable }
    ∧ (charybdis_set_pointer_disable_nonstacking w).g_charybdis_config
      = { w.g_charybdis_config with
          is_dragscroll_enabled := false, is_carret_enabled := false,
          is_custom_enabled := false } := by
  simp only [charybdis_set_pointer_dragscroll_enabled, charybdis_set_pointer_carret_enabled,
    charybdis_set_pointer_integ_enabled, charybdis_set_pointer_disable_nonstacking,
    maybe_update_pointing_device_cpi_g, and_self]

/-- A loop entered with counter 0 and a non-negative bound runs its body at
least once: a property that holds after the first iteration and is kept by the
body holds of the state the loop returns. -/
theorem for_int8_first (bound : World → Int) (body : World → World) (P : World → Prop)
    (hbody : ∀ s, P s → P (body s)) (fuel : Nat) (w w' : World)
    (hpos : 0 ≤ bound w) (hP : P (body w))
    (h : for_int8 bound body fuel 0 w = some w') : P w' := by
  cases fuel with
  | zero => simp [for_int8] at h
  | succ m =>
    simp only [for_int8] at h
    rw [if_pos hpos] at h
    exact for_int8_inv bound body P hbody m _ (body w) w' hP h

/-- What a returning call of `tap_modes` has done to the config: nothing below
the threshold 40, the transition of the dominant direction from 40 on. -/
theorem tap_modes_spec (fuel : Nat) (w w' : World) (h : tap_modes fuel w = some w') :
    (magnitude w < CHARYBDIS_CARRET_BUFFER → w' = w)
    ∧ (CHARYBDIS_CARRET_BUFFER ≤ magnitude w →
      w'.g_charybdis_config = mode_transition w) := by
  have hpos : ∀ s : World,
      0 ≤ (abs s.move_buffer_x + abs s.move_buffer_y) / CHARYBDIS_CARRET_BUFFER := fun s =>
    Int.ediv_nonneg (magnitude_nonneg s) (by decide)
  unfold tap_modes at h
  dsimp only at h
  unfold magnitude
  split at h
  · rename_i hlt
    cases h
    exact ⟨fun _ => rfl, fun hge => by omega⟩
  · rename_i hge
    refine ⟨fun hlt => by omega, fun _ => ?_⟩
    split at h
    · rename_i c
      obtain ⟨s, hs, rfl⟩ := Option.map_eq_some'.mp h
      have ht : mode_transition w
          = { w.g_charybdis_config with
              is_dragscroll_enabled := true, is_carret_enabled := false,
              is_custom_enabled := false } := by
        unfold mode_transition
        rw [if_pos c.1, if_pos c.2]
      rw [ht]
      refine for_int8_first _ _
        (fun s => s.g_charybdis_config
          = { w.g_charybdis_config with
              is_dragscroll_enabled := true, is_carret_enabled := false,
              is_custom_enabled := false })
        ?_ fuel w s (hpos w) ?_ hs
      · intro s hs
        show (charybdis_set_pointer_dragscroll_enabled s true).g_charybdis_config = _
        rw [(mode_setters_g s true).1, hs]
      · show (charybdis_set_pointer_dragscroll_enabled w true).g_charybdis_config = _
        rw [(mode_setters_g w true).1]
    · split at h
      · rename_i c
        obtain ⟨s, hs, rfl⟩ := Option.map_eq_some'.mp h
        have ht : mode_transition w
            = { w.g_charybdis_config with
                is_dragscroll_enabled := false, is_carret_enabled := true,
                is_custom_enabled := false } := by
          unfold mode_transition
          rw [if_pos c.1, if_neg (by omega)]
        rw [ht]
        refine for_int8_first _ _
          (fun s => s.g_charybdis_config
            = { w.g_charybdis_config with
                is_dragscroll_enabled := false, is_carret_enabled := true,
                is_custom_enabled := false })
          ?_ fuel w s (hpos w) ?_ hs
        · intro s hs
          show (charybdis_set_pointer_carret_enabled s true).g_charybdis_config = _
          rw [(mode_setters_g s true).2.1, hs]
        · show (charybdis_set_pointer_carret_enabled w true).g_charybdis_config = _
          rw [(mode_setters_g w true).2.1]
      · split at h
        · rename_i c
          obtain ⟨s, hs, rfl⟩ := Option.map_eq_some'.mp h
          have ht : mode_transition w
              = { w.g_charybdis_config with
                  is_dragscroll_enabled := false, is_carret_enabled := false,
                  is_custom_enabled := false, is_integ_enabled := false } := by
            unfold mode_transition
            rw [if_neg (by omega), if_pos c.2]
          rw [ht]
          refine for_int8_first _ _
            (fun s => s.g_charybdis_config
              = { w.g_charybdis_config with
                  is_dragscroll_enabled := false, is_carret_enabled := false,
                  is_custom_enabled := false, is_integ_enabled := false })
            ?_ fuel w s (hpos w) ?_ hs
          · intro s hs
            show (charybdis_set_pointer_integ_enabled
              (charybdis_set_pointer_disable_nonstacking s) false).g_charybdis_config = _
            rw [(mode_setters_g _ false).2.2.1, (mode_setters_g s false).2.2.2, hs]
          · show (charybdis_set_pointer_integ_enabled
              (charybdis_set_pointer_disable_nonstacking w) false).g_charybdis_config = _
            rw [(mode_setters_g _ false).2.2.1, (mode_setters_g w false).2.2.2]
        · split at h
          · rename_i c
            obtain ⟨s, hs, rfl⟩ := Option.map_eq_some'.mp h
            have ht : mode_transition w
                = { w.g_charybdis_config with is_integ_enabled := true } := by
              unfold mode_transition
              rw [if_neg (by omega), if_neg (by omega)]
            rw [ht]
            refine for_int8_first _ _
              (fun s => s.g_charybdis_config
                = { w.g_charybdis_config with is_integ_enabled := true })
              ?_ fuel w s (hpos w) ?_ hs
            · intro s hs
              show (charybdis_set_pointer_integ_enabled s true).g_charybdis_config = _
              rw [(mode_setters_g s true).2.2.1, hs]
            · show (charybdis_set_pointer_integ_enabled w true).g_charybdis_config = _
              rw [(mode_setters_g w true).2.2.1]
          · rename_i c1 c2 c3 c4
            have hax := abs_int_nonneg w.move_buffer_x
            have hay := abs_int_nonneg w.move_buffer_y
            exfalso
            omega

theorem abs_neg_eq (v : Int) : abs (-v) = abs v := by
  unfold abs; split <;> split <;> omega

/-- ModeSelect accumulation from empty buffers: with Integration off, or with
the integrated sample still empty, an 8-bit sample (x, y) leaves (x, -y) in
the motion buffers. -/
theorem buffered_modeselect_empty (w : World) (r : report_mouse_t)
    (hbx : w.move_buffer_x = 0) (hby : w.move_buffer_y = 0)
    (hload : w.g_charybdis_config.is_integ_enabled = false
      ∨ (w.local_mouse_report_x = 0 ∧ w.local_mouse_report_y = 0))
    (hx0 : -128 ≤ r.x) (hx1 : r.x ≤ 127) (hy0 : -128 ≤ r.y) (hy1 : r.y ≤ 127) :
    (buffered false true w r).move_buffer_x = r.x
    ∧ (buffered false true w r).move_buffer_y = -r.y := by
  have ex : wrap16 r.x = r.x := wrap16_of_range _ (by omega) (by omega)
  have ey : wrap16 r.y = r.y := wrap16_of_range _ (by omega) (by omega)
  have ex0 : wrap16 (0 + r.x) = r.x := by rw [Int.zero_add]; exact ex
  have ey0 : wrap16 (0 + r.y) = r.y := by rw [Int.zero_add]; exact ey
  have eny : wrap16 (0 - r.y) = -r.y := by
    rw [Int.zero_sub]; exact wrap16_of_range _ (by omega) (by omega)
  unfold buffered add_sample load_local_mouse_report
  cases hint : w.g_charybdis_config.is_integ_enabled
  · simp only [Bool.false_eq_true, if_false, if_true, hbx, hby, ex, ey, ex0, eny, and_self]
  · rcases hload with h | ⟨hlx, hly⟩
    · rw [hint] at h; cases h
    · simp only [if_true, Bool.false_eq_true, if_false, hbx, hby, hlx, hly, ex0, ey0, eny,
        and_self]

/-- C13: in ModeSelect mode with empty buffers (and Integration off, or its
integrated sample still empty), one 8-bit sample (x, y) with
`|x| + |y| ≥ 40` returns for any fuel from 128 on, reports `x = y = 0`, and
performs the transition of its direction: dominant rightward motion
(`|x| > |y|`, `x > 0`) sets dragscroll and clears carret and custom; dominant
leftward motion (`|x| > |y|`, `x < 0`) sets carret and clears dragscroll and
custom; downward motion (`|x| ≤ |y|`, `y > 0`) sets integ; every other flag of
the config, `is_modemode_enabled` included, is left as it was. -/
theorem C13_modeselect_transitions (o : BuildOpts) (fuel : Nat) (w : World)
    (r : report_mouse_t) (hfuel : 128 ≤ fuel)
    (hmm : w.g_charybdis_config.is_modemode_enabled = true)
    (hbx : w.move_buffer_x = 0) (hby : w.move_buffer_y = 0)
    (hload : w.g_charybdis_config.is_integ_enabled = false
      ∨ (w.local_mouse_report_x = 0 ∧ w.local_mouse_report_y = 0))
    (hx0 : -128 ≤ r.x) (hx1 : r.x ≤ 127) (hy0 : -128 ≤ r.y) (hy1 : r.y ≤ 127)
    (hcross : CHARYBDIS_CARRET_BUFFER ≤ abs r.x + abs r.y) :
    ∃ w', pointing_device_task_charybdis o fuel w r = some (w', { r with x := 0, y := 0 })
      ∧ (abs r.x > abs r.y → r.x > 0 →
          w'.g_charybdis_config
            = { w.g_charybdis_config with
                is_dragscroll_enabled := true, is_carret_enabled := false,
                is_custom_enabled := false })
      ∧ (abs r.x > abs r.y → r.x < 0 →
          w'.g_charybdis_config
            = { w.g_charybdis_config with
                is_dragscroll_enabled := false, is_carret_enabled := true,
                is_custom_enabled := false })
      ∧ (abs r.x ≤ abs r.y → r.y > 0 →
          w'.g_charybdis_config = { w.g_charybdis_config with is_integ_enabled := true }
          ∧ w'.g_charybdis_config.is_modemode_enabled = true) := by
  obtain ⟨bx, by'⟩ := buffered_modeselect_empty w r hbx hby hload hx0 hx1 hy0 hy1
  have bg := (buffered_frame false true w r).1
  have hmag : magnitude (buffered false true w r) = abs r.x + abs r.y := by
    unfold magnitude
    rw [bx, by', abs_neg_eq]
  have hsmall : abs r.x + abs r.y ≤ 256 := by
    unfold abs; split <;> split <;> omega
  obtain ⟨s, hs⟩ := tap_modes_terminates fuel hfuel (buffered false true w r)
    (by rw [hmag]; simp only [CHARYBDIS_CARRET_BUFFER]; omega)
  have hg := (tap_modes_spec fuel _ s hs).2 (by rw [hmag]; exact hcross)
  refine ⟨s, by rw [task_modemode o fuel w r hmm, hs]; rfl, ?_, ?_, ?_⟩
  · intro hdom hpos
    rw [hg]
    unfold mode_transition
    rw [bx, by', abs_neg_eq, if_pos hdom, if_pos hpos, bg]
  · intro hdom hneg
    rw [hg]
    unfold mode_transition
    rw [bx, by', abs_neg_eq, if_pos hdom, if_neg (by omega), bg]
  · intro hdom hpos
    have e : s.g_charybdis_config = { w.g_charybdis_config with is_integ_enabled := true } := by
      rw [hg]
      unfold mode_transition
      rw [bx, by', abs_neg_eq, if_neg (by omega), if_neg (by omega), bg]
    exact ⟨e, by rw [e]; exact hmm⟩

/-- Witness of C13: ModeSelect from the initial state, sample (50, 0): the
invocation returns and DragScroll is enabled, ModeSelect still set. -/
theorem C13_modeselect_transitions_witness :
    ∃ w', pointing_device_task_charybdis defaultBuild 128 modemode_world (sample 50 0)
        = some (w', { sample 50 0 with x := 0, y := 0 })
      ∧ w'.g_charybdis_config
        = { modemode_world.g_charybdis_config with
            is_dragscroll_enabled := true, is_carret_enabled := false,
            is_custom_enabled := false } := by
  obtain ⟨w', h, hr, _, _⟩ := C13_modeselect_transitions defaultBuild 128 modemode_world
    (sample 50 0) (by decide) rfl rfl rfl (Or.inl rfl) (by decide) (by decide) (by decide)
    (by decide) (by decide)
  exact ⟨w', h, hr (by decide) (by decide)⟩

/-- C14 (evaluation at the failing input): in ModeSelect mode from the initial
state, the upward sample (0, -50) crosses the threshold and the invocation
leaves dragscroll, carret, custom and integ clear but `is_modemode_enabled`
still set; and `charybdis_set_pointer_disable_nonstacking()` on a config with
mode-mode set leaves mode-mode set. -/
theorem C14_modemode_survives_up_transition :
    (pointing_device_task_charybdis defaultBuild 128 modemode_world (sample 0 (-50))).map
        (fun p => p.1.g_charybdis_config)
      = some { charybdis_config_t.zero with is_modemode_enabled := true }
    ∧ (charybdis_set_pointer_disable_nonstacking
        modemode_world).g_charybdis_config.is_modemode_enabled = true := by
  decide

/-! ### Direction of `tap_tb` -/

theorem wrap16_range (v : Int) : -32768 ≤ wrap16 v ∧ wrap16 v ≤ 32767 := by
  unfold wrap16; omega

theorem step_max_range (x t : Int) (h0 : 0 ≤ x) (h1 : x ≤ 32767) (ht : 0 < t) :
    0 ≤ wrap16 (max (x - t) 0) ∧ wrap16 (max (x - t) 0) ≤ x
    ∧ (0 < x → wrap16 (max (x - t) 0) < x) := by
  have e : wrap16 (max (x - t) 0) = max (x - t) 0 := by
    apply wrap16_of_range <;> (unfold max; split <;> omega)
  rw [e]
  unfold max
  split <;> refine ⟨?_, ?_, ?_⟩ <;> omega

theorem step_min_range (x t : Int) (h0 : x ≤ 0) (h1 : -32768 ≤ x) (ht : 0 < t) :
    wrap16 (min (x + t) 0) ≤ 0 ∧ x ≤ wrap16 (min (x + t) 0)
    ∧ (x < 0 → x < wrap16 (min (x + t) 0)) := by
  have e : wrap16 (min (x + t) 0) = min (x + t) 0 := by
    apply wrap16_of_range <;> (unfold min; split <;> omega)
  rw [e]
  unfold min
  split <;> refine ⟨?_, ?_, ?_⟩ <;> omega

/-- A loop whose body taps keycode `k` returns after at least one tap of `k`,
with only taps of `k` sent, in a state that satisfies every property `Q` that
holds after the first iteration and is kept by the body. -/
theorem tap_loop_dir (bound : World → Int) (body : World → World) (k : Nat)
    (Q : World → Prop)
    (hev : ∀ s, (body s).key_events
      = s.key_events ++ [KeyEvent.press k, KeyEvent.release k])
    (fuel : Nat) (w w' : World)
    (hQ0 : Q (body w)) (hQ : ∀ s, Q s → Q (body s)) (hpos : 0 ≤ bound w)
    (h : for_int8 bound body fuel 0 w = some w') :
    (∃ n, 1 ≤ n ∧ w'.key_events = w.key_events ++ key_taps k n) ∧ Q w' := by
  refine for_int8_first bound body
    (fun s => (∃ n, 1 ≤ n ∧ s.key_events = w.key_events ++ key_taps k n) ∧ Q s)
    ?_ fuel w w' hpos ?_ h
  · rintro s ⟨⟨n, hn, hs⟩, hq⟩
    refine ⟨⟨n + 1, by omega, ?_⟩, hQ s hq⟩
    rw [hev, hs, List.append_assoc]; rfl
  · refine ⟨⟨1, Nat.le_refl _, ?_⟩, hQ0⟩
    rw [hev]; rfl

/-- From the threshold on, with 16-bit buffers, a returning call of `tap_tb`
has tapped only the keycode of the dominant axis and its sign, at least once;
it leaves the other buffer at 0 and the dominant buffer strictly nearer to 0,
on the same side of 0 or at 0. -/
theorem tap_tb_direction (fuel : Nat) (k0 k1 k2 k3 : Nat) (w w' : World)
    (h : tap_tb fuel k0 k1 k2 k3 w = some w')
    (hge : local_carret_dpi w ≤ magnitude w)
    (hx0 : -32768 ≤ w.move_buffer_x) (hx1 : w.move_buffer_x ≤ 32767)
    (hy0 : -32768 ≤ w.move_buffer_y) (hy1 : w.move_buffer_y ≤ 32767) :
    (∃ n, 1 ≤ n ∧ w'.key_events = w.key_events ++ key_taps (direction_keycode k0 k1 k2 k3 w) n)
    ∧ (abs w.move_buffer_x > abs w.move_buffer_y →
        w'.move_buffer_y = 0
        ∧ (w.move_buffer_x > 0 → 0 ≤ w'.move_buffer_x ∧ w'.move_buffer_x < w.move_buffer_x)
        ∧ (w.move_buffer_x ≤ 0 → w.move_buffer_x < w'.move_buffer_x ∧ w'.move_buffer_x ≤ 0))
    ∧ (abs w.move_buffer_x ≤ abs w.move_buffer_y →
        w'.move_buffer_x = 0
        ∧ (w.move_buffer_y > 0 → 0 ≤ w'.move_buffer_y ∧ w'.move_buffer_y < w.move_buffer_y)
        ∧ (w.move_buffer_y ≤ 0 → w.move_buffer_y < w'.move_buffer_y ∧ w'.move_buffer_y ≤ 0)) := by
  have hT := local_carret_dpi_ge w
  have ht : (0 : Int) < local_carret_dpi w := by omega
  have hpos : 0 ≤ (abs w.move_buffer_x + abs w.move_buffer_y) / local_carret_dpi w :=
    Int.ediv_nonneg (magnitude_nonneg w) (by omega)
  have hax := abs_int_nonneg w.move_buffer_x
  have hay := abs_int_nonneg w.move_buffer_y
  have haxd : abs w.move_buffer_x = w.move_buffer_x ∨ abs w.move_buffer_x = -w.move_buffer_x := by
    unfold abs; split <;> simp
  have hayd : abs w.move_buffer_y = w.move_buffer_y ∨ abs w.move_buffer_y = -w.move_buffer_y := by
    unfold abs; split <;> simp
  unfold magnitude at hge
  unfold tap_tb at h
  dsimp only at h
  rw [if_neg (by omega)] at h
  split at h
  · rename_i c
    obtain ⟨s, hs, rfl⟩ := Option.map_eq_some'.mp h
    have hk : direction_keycode k0 k1 k2 k3 w = k0 := by
      unfold direction_keycode
      rw [if_pos c.1, if_pos c.2]
    rw [hk]
    obtain ⟨hn, hq1, hq2, hq3⟩ := tap_loop_dir _ _ k0
      (fun s => s.move_buffer_y = w.move_buffer_y ∧ 0 ≤ s.move_buffer_x ∧ s.move_buffer_x < w.move_buffer_x)
      (fun s => by simp [tap_code_fast, register_code, unregister_code])
      fuel w s
      (by
        have h3 := step_max_range w.move_buffer_x (local_carret_dpi w) (by omega) (by omega) ht
        refine ⟨rfl, ?_, ?_⟩
        · show 0 ≤ wrap16 (max (w.move_buffer_x - local_carret_dpi w) 0)
          omega
        · show wrap16 (max (w.move_buffer_x - local_carret_dpi w) 0) < w.move_buffer_x
          omega)
      (fun s hq => by
        have h3 := step_max_range s.move_buffer_x (local_carret_dpi w) (by omega) (by omega) ht
        refine ⟨hq.1, ?_, ?_⟩
        · show 0 ≤ wrap16 (max (s.move_buffer_x - local_carret_dpi w) 0)
          omega
        · show wrap16 (max (s.move_buffer_x - local_carret_dpi w) 0) < w.move_buffer_x
          omega)
      hpos hs
    refine ⟨hn, ?_, ?_⟩
    · intro _
      exact ⟨rfl, fun _ => ⟨hq2, hq3⟩, fun hle => by omega⟩
    · intro hle
      omega
  · split at h
    · rename_i c
      obtain ⟨s, hs, rfl⟩ := Option.map_eq_some'.mp h
      have hk : direction_keycode k0 k1 k2 k3 w = k1 := by
        unfold direction_keycode
        rw [if_pos c.1, if_neg (by omega)]
      rw [hk]
      obtain ⟨hn, hq1, hq2, hq3⟩ := tap_loop_dir _ _ k1
        (fun s => s.move_buffer_y = w.move_buffer_y ∧ s.move_buffer_x ≤ 0 ∧ w.move_buffer_x < s.move_buffer_x)
        (fun s => by simp [tap_code_fast, register_code, unregister_code])
        fuel w s
        (by
          have h3 := step_min_range w.move_buffer_x (local_carret_dpi w) (by omega) (by omega) ht
          refine ⟨rfl, ?_, ?_⟩
          · show wrap16 (min (w.move_buffer_x + local_carret_dpi w) 0) ≤ 0
            omega
          · show w.move_buffer_x < wrap16 (min (w.move_buffer_x + local_carret_dpi w) 0)
            omega)
        (fun s hq => by
          have h3 := step_min_range s.move_buffer_x (local_carret_dpi w) (by omega) (by omega) ht
          refine ⟨hq.1, ?_, ?_⟩
          · show wrap16 (min (s.move_buffer_x + local_carret_dpi w) 0) ≤ 0
            omega
          · show w.move_buffer_x < wrap16 (min (s.move_buffer_x + local_carret_dpi w) 0)
            omega)
        hpos hs
      refine ⟨hn, ?_, ?_⟩
      · intro _
        exact ⟨rfl, fun hgt => by omega, fun _ => ⟨hq3, hq2⟩⟩
      · intro hle
        omega
    · split at h
      · rename_i c
        obtain ⟨s, hs, rfl⟩ := Option.map_eq_some'.mp h
        have hk : direction_keycode k0 k1 k2 k3 w = k2 := by
          unfold direction_keycode
          rw [if_neg (by omega), if_pos c.2]
        rw [hk]
        obtain ⟨hn, hq1, hq2, hq3⟩ := tap_loop_dir _ _ k2
          (fun s => s.move_buffer_x = w.move_buffer_x ∧ 0 ≤ s.move_buffer_y ∧ s.move_buffer_y < w.move_buffer_y)
          (fun s => by simp [tap_code_fast, register_code, unregister_code])
          fuel w s
          (by
            have h3 := step_max_range w.move_buffer_y (local_carret_dpi w) (by omega) (by omega) ht
            refine ⟨rfl, ?_, ?_⟩
            · show 0 ≤ wrap16 (max (w.move_buffer_y - local_carret_dpi w) 0)
              omega
            · show wrap16 (max (w.move_buffer_y - local_carret_dpi w) 0) < w.move_buffer_y
              omega)
          (fun s hq => by
            have h3 := step_max_range s.move_buffer_y (local_carret_dpi w) (by omega) (by omega) ht
            refine ⟨hq.1, ?_, ?_⟩
            · show 0 ≤ wrap16 (max (s.move_buffer_y - local_carret_dpi w) 0)
              omega
            · show wrap16 (max (s.move_buffer_y - local_carret_dpi w) 0) < w.move_buffer_y
              omega)
          hpos hs
        refine ⟨hn, ?_, ?_⟩
        · intro hgt
          omega
        · intro _
          exact ⟨rfl, fun _ => ⟨hq2, hq3⟩, fun hle => by omega⟩
      · split at h
        · rename_i c
          obtain ⟨s, hs, rfl⟩ := Option.map_eq_some'.mp h
          have hk : direction_keycode k0 k1 k2 k3 w = k3 := by
            unfold direction_keycode
            rw [if_neg (by omega), if_neg (by omega)]
          rw [hk]
          obtain ⟨hn, hq1, hq2, hq3⟩ := tap_loop_dir _ _ k3
            (fun s => s.move_buffer_x = w.move_buffer_x ∧ s.move_buffer_y ≤ 0 ∧ w.move_buffer_y < s.move_buffer_y)
            (fun s => by simp [tap_code_fast, register_code, unregister_code])
            fuel w s
            (by
              have h3 := step_min_range w.move_buffer_y (local_carret_dpi w) (by omega) (by omega) ht
              refine ⟨rfl, ?_, ?_⟩
              · show wrap16 (min (w.move_buffer_y + local_carret_dpi w) 0) ≤ 0
                omega
              · show w.move_buffer_y < wrap16 (min (w.move_buffer_y + local_carret_dpi w) 0)
                omega)
            (fun s hq => by
              have h3 := step_min_range s.move_buffer_y (local_carret_dpi w) (by omega) (by omega) ht
              refine ⟨hq.1, ?_, ?_⟩
              · show wrap16 (min (s.move_buffer_y + local_carret_dpi w) 0) ≤ 0
                omega
              · show w.move_buffer_y < wrap16 (min (s.move_buffer_y + local_carret_dpi w) 0)
                omega)
            hpos hs
          refine ⟨hn, ?_, ?_⟩
          · intro hgt
            omega
          · intro _
            exact ⟨rfl, fun hgt => by omega, fun _ => ⟨hq3, hq2⟩⟩
        · exfalso
          omega

theorem buffered_range (rx ry : Bool) (w : World) (r : report_mouse_t) :
    (-32768 ≤ (buffered rx ry w r).move_buffer_x ∧ (buffered rx ry w r).move_buffer_x ≤ 32767)
    ∧ (-32768 ≤ (buffered rx ry w r).move_buffer_y
      ∧ (buffered rx ry w r).move_buffer_y ≤ 32767) := by
  unfold buffered add_sample
  dsimp only
  constructor
  · split <;> exact wrap16_range _
  · split <;> exact wrap16_range _

/-- C12: whenever an invocation in Caret or Custom mode emits, all its taps
are taps of one keycode, at least one of them, selected by the dominant axis
of the buffers (with the sample added) and its sign: horizontal when
`|bx| > |by|` (right keycode if `bx > 0`, left otherwise), vertical when
`|bx| ≤ |by|` (up keycode if `by > 0`, down otherwise), among
`KC_RIGHT/KC_LEFT/KC_UP/KC_DOWN` in Caret and `CUSTOM_FN_RIGHT/LEFT/UP/DOWN` in
Custom; afterwards the non-dominant buffer is 0 and the dominant buffer is
strictly nearer to 0, on the same side of 0 or at 0. -/
theorem C12_direction (o : BuildOpts) (fuel : Nat) (w w' : World) (r r' : report_mouse_t)
    (hmm : w.g_charybdis_config.is_modemode_enabled = false)
    (hds : w.g_charybdis_config.is_dragscroll_enabled = false)
    (hmode : w.g_charybdis_config.is_carret_enabled = true
      ∨ w.g_charybdis_config.is_custom_enabled = true)
    (h : pointing_device_task_charybdis o fuel w r = some (w', r'))
    (hemit : w'.key_events ≠ w.key_events) :
    (∃ n, 1 ≤ n
      ∧ w'.key_events = w.key_events ++ key_taps (carret_custom_keycode o w r) n)
    ∧ (abs (carret_custom_buffered o w r).move_buffer_x
          > abs (carret_custom_buffered o w r).move_buffer_y →
        w'.move_buffer_y = 0
        ∧ ((carret_custom_buffered o w r).move_buffer_x > 0 →
            0 ≤ w'.move_buffer_x
            ∧ w'.move_buffer_x < (carret_custom_buffered o w r).move_buffer_x)
        ∧ ((carret_custom_buffered o w r).move_buffer_x ≤ 0 →
            (carret_custom_buffered o w r).move_buffer_x < w'.move_buffer_x
            ∧ w'.move_buffer_x ≤ 0))
    ∧ (abs (carret_custom_buffered o w r).move_buffer_x
          ≤ abs (carret_custom_buffered o w r).move_buffer_y →
        w'.move_buffer_x = 0
        ∧ ((carret_custom_buffered o w r).move_buffer_y > 0 →
            0 ≤ w'.move_buffer_y
            ∧ w'.move_buffer_y < (carret_custom_buffered o w r).move_buffer_y)
        ∧ ((carret_custom_buffered o w r).move_buffer_y ≤ 0 →
            (carret_custom_buffered o w r).move_buffer_y < w'.move_buffer_y
            ∧ w'.move_buffer_y ≤ 0)) := by
  have key : ∀ (k0 k1 k2 k3 : Nat) (rx ry : Bool),
      pointing_device_task_charybdis o fuel w r
        = (tap_tb fuel k0 k1 k2 k3 (buffered rx ry w r)).map
            (fun w3 => (w3, { r with x := 0, y := 0 })) →
      (∃ n, 1 ≤ n ∧ w'.key_events
        = w.key_events ++ key_taps (direction_keycode k0 k1 k2 k3 (buffered rx ry w r)) n)
      ∧ (abs (buffered rx ry w r).move_buffer_x > abs (buffered rx ry w r).move_buffer_y →
          w'.move_buffer_y = 0
          ∧ ((buffered rx ry w r).move_buffer_x > 0 →
              0 ≤ w'.move_buffer_x ∧ w'.move_buffer_x < (buffered rx ry w r).move_buffer_x)
          ∧ ((buffered rx ry w r).move_buffer_x ≤ 0 →
              (buffered rx ry w r).move_buffer_x < w'.move_buffer_x ∧ w'.move_buffer_x ≤ 0))
      ∧ (abs (buffered rx ry w r).move_buffer_x ≤ abs (buffered rx ry w r).move_buffer_y →
          w'.move_buffer_x = 0
          ∧ ((buffered rx ry w r).move_buffer_y > 0 →
              0 ≤ w'.move_buffer_y ∧ w'.move_buffer_y < (buffered rx ry w r).move_buffer_y)
          ∧ ((buffered rx ry w r).move_buffer_y ≤ 0 →
              (buffered rx ry w r).move_buffer_y < w'.move_buffer_y
              ∧ w'.move_buffer_y ≤ 0)) := by
    intro k0 k1 k2 k3 rx ry htask
    rw [htask] at h
    obtain ⟨s, hs, heq⟩ := Option.map_eq_some'.mp h
    cases heq
    obtain ⟨bg, bk⟩ := buffered_frame rx ry w r
    obtain ⟨⟨hx0, hx1⟩, hy0, hy1⟩ := buffered_range rx ry w r
    have hge : local_carret_dpi (buffered rx ry w r) ≤ magnitude (buffered rx ry w r) := by
      by_cases hlt : magnitude (buffered rx ry w r) < local_carret_dpi (buffered rx ry w r)
      · rw [tap_tb_below fuel k0 k1 k2 k3 _ hlt] at hs
        cases hs
        exact absurd bk hemit
      · omega
    have hdir := tap_tb_direction fuel k0 k1 k2 k3 _ _ hs hge hx0 hx1 hy0 hy1
    rw [bk] at hdir
    exact hdir
  cases hcar : w.g_charybdis_config.is_carret_enabled
  · rcases hmode with hc | hcus
    · rw [hcar] at hc; cases hc
    · have hb : carret_custom_buffered o w r = buffered false true w r := by
        unfold carret_custom_buffered; rw [hcar]; rfl
      have hk : carret_custom_keycode o w r
          = direction_keycode CUSTOM_FN_RIGHT CUSTOM_FN_LEFT CUSTOM_FN_UP CUSTOM_FN_DOWN
              (buffered false true w r) := by
        unfold carret_custom_keycode; rw [hcar, hb]; rfl
      rw [hb, hk]
      exact key _ _ _ _ _ _ (task_custom o fuel w r hmm hds hcar hcus)
  · have hb : carret_custom_buffered o w r
        = buffered o.CHARYBDIS_CARRET_REVERSE_X o.CHARYBDIS_CARRET_REVERSE_Y w r := by
      unfold carret_custom_buffered; rw [hcar]; rfl
    have hk : carret_custom_keycode o w r
        = direction_keycode KC_RIGHT KC_LEFT KC_UP KC_DOWN
            (buffered o.CHARYBDIS_CARRET_REVERSE_X o.CHARYBDIS_CARRET_REVERSE_Y w r) := by
      unfold carret_custom_keycode; rw [hcar, hb]; rfl
    rw [hb, hk]
    exact key _ _ _ _ _ _ (task_carret o fuel w r hmm hds hcar)

/-- Witness of C12: Caret mode from the initial state, sample (25, 3): two
taps of `KC_RIGHT`, the y buffer cleared and 5 left in the x buffer. -/
theorem C12_direction_witness :
    carret_custom_keycode defaultBuild carret_world (sample 25 3) = KC_RIGHT
    ∧ ∃ n, 1 ≤ n
      ∧ ({ carret_world with
            local_mouse_report_x := 25
            local_mouse_report_y := 3
            move_buffer_x := 5
            move_buffer_y := 0
            key_events := key_taps KC_RIGHT 2 } : World).key_events
          = carret_world.key_events
            ++ key_taps (carret_custom_keycode defaultBuild carret_world (sample 25 3)) n :=
  ⟨by decide,
   (C12_direction defaultBuild 128 carret_world
      { carret_world with
        local_mouse_report_x := 25
        local_mouse_report_y := 3
        move_buffer_x := 5
        move_buffer_y := 0
        key_events := key_taps KC_RIGHT 2 }
      (sample 25 3) { sample 25 3 with x := 0, y := 0 } rfl rfl (Or.inl rfl)
      (by decide) (by decide)).1⟩

/-! ### Exact iteration count of the 8-bit loop -/

/-- When the loop condition holds for the first `j` iterates of the body and
fails on the next, and the counter stays within 8 bits, the loop returns the
`j`-th iterate exactly when it has fuel for more than `j` tests. -/
theorem for_int8_exact (bound : World → Int) (body : World → World) :
    ∀ (j : Nat) (i : Int) (w : World) (fuel : Nat),
      -128 ≤ i → i + j ≤ 127 →
      (∀ k : Nat, k < j → i + k ≤ bound (body^[k] w)) →
      ¬ (i + j ≤ bound (body^[j] w)) →
      for_int8 bound body fuel i w = if j < fuel then some (body^[j] w) else none := by
  intro j
  induction j with
  | zero =>
    intro i w fuel _ _ _ hstop
    cases fuel with
    | zero => rfl
    | succ m =>
      simp only [Function.iterate_zero, id_eq, Nat.cast_zero, Int.add_zero] at hstop
      simp only [for_int8, if_neg hstop, Function.iterate_zero, id_eq]
      rw [if_pos (Nat.succ_pos m)]
  | succ j ih =>
    intro i w fuel hlo hhi hrun hstop
    cases fuel with
    | zero => rfl
    | succ m =>
      have h0 := hrun 0 (Nat.succ_pos j)
      simp only [Function.iterate_zero, id_eq, Nat.cast_zero, Int.add_zero] at h0
      have hw : wrap8 (i + 1) = i + 1 := wrap8_of_range _ (by omega) (by omega)
      simp only [for_int8, if_pos h0, hw]
      rw [ih (i + 1) (body w) m (by omega) (by omega)
        (fun k hk => by
          have := hrun (k + 1) (by omega)
          rw [Function.iterate_succ_apply] at this
          have e : (i + 1 : Int) + (k : Int) = i + ((k + 1 : Nat) : Int) := by
            push_cast; omega
          rw [e]; exact this)
        (by
          rw [Function.iterate_succ_apply] at hstop
          have e : (i + 1 : Int) + (j : Int) = i + ((j + 1 : Nat) : Int) := by
            push_cast; omega
          rw [e]; exact hstop)]
      rw [Function.iterate_succ_apply]
      by_cases hj : j < m
      · rw [if_pos hj, if_pos (by omega)]
      · rw [if_neg hj, if_neg (by omega)]

/-- The loop condition of `tap_tb` after `k` iterations, for dominant
magnitude `d`, other magnitude `n ≤ d` and threshold `T`: it holds exactly for
`k ≤ min(d / T, ((d + n) / T) / 2)`. -/
theorem tap_condition_iff (t d n k : Int)
    (ht : t = 10 ∨ t = 40 ∨ t = 200 ∨ t = 800)
    (hn : 0 ≤ n) (hnd : n ≤ d) (hk : 0 ≤ k) :
    k ≤ (max (d - k * t) 0 + n) / t ↔ k ≤ min (d / t) ((d + n) / t / 2) := by
  unfold max min
  rcases ht with rfl | rfl | rfl | rfl <;> (split <;> split <;> omega)

theorem abs_max_zero (v : Int) : abs (max v 0) = max v 0 := by
  unfold abs max; split <;> split <;> omega

theorem abs_min_zero (v : Int) : abs (min v 0) = max (-v) 0 := by
  unfold abs min max; split <;> split <;> split <;> omega

theorem key_taps_succ_append (l : List KeyEvent) (k : Nat) (n : Nat) :
    (l ++ key_taps k n) ++ [KeyEvent.press k, KeyEvent.release k]
      = l ++ key_taps k (n + 1) := by
  rw [List.append_assoc]; rfl

theorem max_step_closed (x t : Int) (k : Nat) (h0 : 0 ≤ x) (h1 : x ≤ 32767) (ht : 0 ≤ t) :
    wrap16 (max (max (x - (k : Int) * t) 0 - t) 0) = max (x - ((k + 1 : Nat) : Int) * t) 0 := by
  have e : ((k + 1 : Nat) : Int) * t = (k : Int) * t + t := by push_cast; ring
  have hk : 0 ≤ (k : Int) * t := Int.mul_nonneg (Int.ofNat_nonneg k) ht
  rw [e]
  rw [wrap16_of_range] <;> (unfold max; split <;> split <;> omega)

theorem min_step_closed (x t : Int) (k : Nat) (h0 : x ≤ 0) (h1 : -32768 ≤ x) (ht : 0 ≤ t) :
    wrap16 (min (min (x + (k : Int) * t) 0 + t) 0) = min (x + ((k + 1 : Nat) : Int) * t) 0 := by
  have e : ((k + 1 : Nat) : Int) * t = (k : Int) * t + t := by push_cast; ring
  have hk : 0 ≤ (k : Int) * t := Int.mul_nonneg (Int.ofNat_nonneg k) ht
  rw [e]
  rw [wrap16_of_range] <;> (unfold min; split <;> split <;> omega)

/-- The state after `k` iterations of a loop body of `tap_tb` that taps `c`
and moves a non-negative `move_buffer_x` down by the threshold. -/
theorem iterate_x_max (body : World → World) (c : Nat) (t : Int) (ht : 0 ≤ t)
    (hbody : ∀ s : World, body s = { s with
      key_events := s.key_events ++ [KeyEvent.press c, KeyEvent.release c]
      move_buffer_x := wrap16 (max (s.move_buffer_x - t) 0) })
    (w : World) (h0 : 0 ≤ w.move_buffer_x) (h1 : w.move_buffer_x ≤ 32767) (k : Nat) :
    body^[k] w = { w with
      key_events := w.key_events ++ key_taps c k
      move_buffer_x := max (w.move_buffer_x - (k : Int) * t) 0 } := by
  induction k with
  | zero =>
    have e1 : w.key_events ++ key_taps c 0 = w.key_events := List.append_nil _
    have e2 : max (w.move_buffer_x - ((0 : Nat) : Int) * t) 0 = w.move_buffer_x := by
      simp only [Nat.cast_zero, Int.zero_mul, Int.sub_zero]
      unfold max; split <;> omega
    rw [e1, e2]
    rfl
  | succ k ih =>
    rw [Function.iterate_succ_apply', ih, hbody]
    show ({ w with
      key_events := (w.key_events ++ key_taps c k) ++ [KeyEvent.press c, KeyEvent.release c]
      move_buffer_x := wrap16 (max (max (w.move_buffer_x - (k : Int) * t) 0 - t) 0) } : World) = _
    rw [key_taps_succ_append, max_step_closed _ _ _ h0 h1 ht]

/-- The state after `k` iterations of a loop body of `tap_tb` that taps `c`
and moves a non-positive `move_buffer_x` up by the threshold. -/
theorem iterate_x_min (body : World → World) (c : Nat) (t : Int) (ht : 0 ≤ t)
    (hbody : ∀ s : World, body s = { s with
      key_events := s.key_events ++ [KeyEvent.press c, KeyEvent.release c]
      move_buffer_x := wrap16 (min (s.move_buffer_x + t) 0) })
    (w : World) (h0 : w.move_buffer_x ≤ 0) (h1 : -32768 ≤ w.move_buffer_x) (k : Nat) :
    body^[k] w = { w with
      key_events := w.key_events ++ key_taps c k
      move_buffer_x := min (w.move_buffer_x + (k : Int) * t) 0 } := by
  induction k with
  | zero =>
    have e1 : w.key_events ++ key_taps c 0 = w.key_events := List.append_nil _
    have e2 : min (w.move_buffer_x + ((0 : Nat) : Int) * t) 0 = w.move_buffer_x := by
      simp only [Nat.cast_zero, Int.zero_mul, Int.add_zero]
      unfold min; split <;> omega
    rw [e1, e2]
    rfl
  | succ k ih =>
    rw [Function.iterate_succ_apply', ih, hbody]
    show ({ w with
      key_events := (w.key_events ++ key_taps c k) ++ [KeyEvent.press c, KeyEvent.release c]
      move_buffer_x := wrap16 (min (min (w.move_buffer_x + (k : Int) * t) 0 + t) 0) } : World) = _
    rw [key_taps_succ_append, min_step_closed _ _ _ h0 h1 ht]

/-- The state after `k` iterations of a loop body of `tap_tb` that taps `c`
and moves a non-negative `move_buffer_y` down by the threshold. -/
theorem iterate_y_max (body : World → World) (c : Nat) (t : Int) (ht : 0 ≤ t)
    (hbody : ∀ s : World, body s = { s with
      key_events := s.key_events ++ [KeyEvent.press c, KeyEvent.release c]
      move_buffer_y := wrap16 (max (s.move_buffer_y - t) 0) })
    (w : World) (h0 : 0 ≤ w.move_buffer_y) (h1 : w.move_buffer_y ≤ 32767) (k : Nat) :
    body^[k] w = { w with
      key_events := w.key_events ++ key_taps c k
      move_buffer_y := max (w.move_buffer_y - (k : Int) * t) 0 } := by
  induction k with
  | zero =>
    have e1 : w.key_events ++ key_taps c 0 = w.key_events := List.append_nil _
    have e2 : max (w.move_buffer_y - ((0 : Nat) : Int) * t) 0 = w.move_buffer_y := by
      simp only [Nat.cast_zero, Int.zero_mul, Int.sub_zero]
      unfold max; split <;> omega
    rw [e1, e2]
    rfl
  | succ k ih =>
    rw [Function.iterate_succ_apply', ih, hbody]
    show ({ w with
      key_events := (w.key_events ++ key_taps c k) ++ [KeyEvent.press c, KeyEvent.release c]
      move_buffer_y := wrap16 (max (max (w.move_buffer_y - (k : Int) * t) 0 - t) 0) } : World) = _
    rw [key_taps_succ_append, max_step_closed _ _ _ h0 h1 ht]

/-- The state after `k` iterations of a loop body of `tap_tb` that taps `c`
and moves a non-positive `move_buffer_y` up by the threshold. -/
theorem iterate_y_min (body : World → World) (c : Nat) (t : Int) (ht : 0 ≤ t)
    (hbody : ∀ s : World, body s = { s with
      key_events := s.key_events ++ [KeyEvent.press c, KeyEvent.release c]
      move_buffer_y := wrap16 (min (s.move_buffer_y + t) 0) })
    (w : World) (h0 : w.move_buffer_y ≤ 0) (h1 : -32768 ≤ w.move_buffer_y) (k : Nat) :
    body^[k] w = { w with
      key_events := w.key_events ++ key_taps c k
      move_buffer_y := min (w.move_buffer_y + (k : Int) * t) 0 } := by
  induction k with
  | zero =>
    have e1 : w.key_events ++ key_taps c 0 = w.key_events := List.append_nil _
    have e2 : min (w.move_buffer_y + ((0 : Nat) : Int) * t) 0 = w.move_buffer_y := by
      simp only [Nat.cast_zero, Int.zero_mul, Int.add_zero]
      unfold min; split <;> omega
    rw [e1, e2]
    rfl
  | succ k ih =>
    rw [Function.iterate_succ_apply', ih, hbody]
    show ({ w with
      key_events := (w.key_events ++ key_taps c k) ++ [KeyEvent.press c, KeyEvent.release c]
      move_buffer_y := wrap16 (min (min (w.move_buffer_y + (k : Int) * t) 0 + t) 0) } : World) = _
    rw [key_taps_succ_append, min_step_closed _ _ _ h0 h1 ht]

theorem tap_count_nonneg (t d n : Int) (ht : t = 10 ∨ t = 40 ∨ t = 200 ∨ t = 800)
    (hd : 0 ≤ d) (hn : 0 ≤ n) : 0 ≤ min (d / t) ((d + n) / t / 2) := by
  unfold min
  rcases ht with rfl | rfl | rfl | rfl <;> (split <;> omega)

/-- The loop of the right branch of `tap_tb`: it runs `1 + m` times for
`m = min(d / T, ((d + n) / T) / 2)` when `m ≤ 126`. -/
theorem tap_branch_x_max (body : World → World) (c : Nat) (t : Int)
    (ht : t = 10 ∨ t = 40 ∨ t = 200 ∨ t = 800)
    (hbody : ∀ s : World, body s = { s with
      key_events := s.key_events ++ [KeyEvent.press c, KeyEvent.release c]
      move_buffer_x := wrap16 (max (s.move_buffer_x - t) 0) })
    (w : World) (h0 : 0 < w.move_buffer_x) (h1 : w.move_buffer_x ≤ 32767)
    (hn : abs w.move_buffer_y ≤ abs w.move_buffer_x) (m : Int)
    (hm : m = min (abs w.move_buffer_x / t)
      ((abs w.move_buffer_x + abs w.move_buffer_y) / t / 2))
    (hsafe : m ≤ 126) (fuel : Nat) :
    for_int8 (fun s => (abs s.move_buffer_x + abs s.move_buffer_y) / t) body fuel 0 w
      = if (1 + m).toNat < fuel then
          some { w with
            key_events := w.key_events ++ key_taps c (1 + m).toNat
            move_buffer_x := max (w.move_buffer_x - ((1 + m).toNat : Int) * t) 0 }
        else none := by
  have ht0 : 0 ≤ t := by omega
  have habs : abs w.move_buffer_x = w.move_buffer_x := by
    unfold abs; split <;> omega
  rw [habs] at hm hn
  have hm0 : 0 ≤ m := by
    rw [hm]; exact tap_count_nonneg t _ _ ht (by omega) (abs_int_nonneg _)
  have hj : ((1 + m).toNat : Int) = 1 + m := Int.toNat_of_nonneg (by omega)
  have hcond : ∀ k : Nat,
      (0 : Int) + (k : Int)
        ≤ (fun s : World => (abs s.move_buffer_x + abs s.move_buffer_y) / t) (body^[k] w)
      ↔ (k : Int) ≤ m := by
    intro k
    rw [iterate_x_max body c t ht0 hbody w (by omega) h1 k]
    show (0 : Int) + (k : Int)
      ≤ (abs (max (w.move_buffer_x - (k : Int) * t) 0) + abs w.move_buffer_y) / t ↔ _
    rw [abs_max_zero, Int.zero_add, hm]
    exact tap_condition_iff t w.move_buffer_x (abs w.move_buffer_y) k ht
      (abs_int_nonneg _) hn (Int.ofNat_nonneg k)
  rw [for_int8_exact _ body (1 + m).toNat 0 w fuel (by omega) (by omega)
    (fun k hk => (hcond k).mpr (by omega))
    (fun h => by have := (hcond _).mp h; omega)]
  rw [iterate_x_max body c t ht0 hbody w (by omega) h1]

/-- The loop of the left branch of `tap_tb`: it runs `1 + m` times for
`m = min(d / T, ((d + n) / T) / 2)` when `m ≤ 126`. -/
theorem tap_branch_x_min (body : World → World) (c : Nat) (t : Int)
    (ht : t = 10 ∨ t = 40 ∨ t = 200 ∨ t = 800)
    (hbody : ∀ s : World, body s = { s with
      key_events := s.key_events ++ [KeyEvent.press c, KeyEvent.release c]
      move_buffer_x := wrap16 (min (s.move_buffer_x + t) 0) })
    (w : World) (h0 : w.move_buffer_x ≤ 0) (h1 : -32768 ≤ w.move_buffer_x)
    (hn : abs w.move_buffer_y ≤ abs w.move_buffer_x) (m : Int)
    (hm : m = min (abs w.move_buffer_x / t)
      ((abs w.move_buffer_x + abs w.move_buffer_y) / t / 2))
    (hsafe : m ≤ 126) (fuel : Nat) :
    for_int8 (fun s => (abs s.move_buffer_x + abs s.move_buffer_y) / t) body fuel 0 w
      = if (1 + m).toNat < fuel then
          some { w with
            key_events := w.key_events ++ key_taps c (1 + m).toNat
            move_buffer_x := min (w.move_buffer_x + ((1 + m).toNat : Int) * t) 0 }
        else none := by
  have ht0 : 0 ≤ t := by omega
  have habs : abs w.move_buffer_x = -w.move_buffer_x := by
    unfold abs; split <;> omega
  rw [habs] at hm hn
  have hm0 : 0 ≤ m := by
    rw [hm]; exact tap_count_nonneg t _ _ ht (by omega) (abs_int_nonneg _)
  have hj : ((1 + m).toNat : Int) = 1 + m := Int.toNat_of_nonneg (by omega)
  have hcond : ∀ k : Nat,
      (0 : Int) + (k : Int)
        ≤ (fun s : World => (abs s.move_buffer_x + abs s.move_buffer_y) / t) (body^[k] w)
      ↔ (k : Int) ≤ m := by
    intro k
    rw [iterate_x_min body c t ht0 hbody w h0 h1 k]
    show (0 : Int) + (k : Int)
      ≤ (abs (min (w.move_buffer_x + (k : Int) * t) 0) + abs w.move_buffer_y) / t ↔ _
    have e : -(w.move_buffer_x + (k : Int) * t) = -w.move_buffer_x - (k : Int) * t := by omega
    rw [abs_min_zero, e, Int.zero_add, hm]
    exact tap_condition_iff t (-w.move_buffer_x) (abs w.move_buffer_y) k ht
      (abs_int_nonneg _) hn (Int.ofNat_nonneg k)
  rw [for_int8_exact _ body (1 + m).toNat 0 w fuel (by omega) (by omega)
    (fun k hk => (hcond k).mpr (by omega))
    (fun h => by have := (hcond _).mp h; omega)]
  rw [iterate_x_min body c t ht0 hbody w h0 h1]

/-- The loop of the up branch of `tap_tb`: it runs `1 + m` times for
`m = min(d / T, ((d + n) / T) / 2)` when `m ≤ 126`. -/
theorem tap_branch_y_max (body : World → World) (c : Nat) (t : Int)
    (ht : t = 10 ∨ t = 40 ∨ t = 200 ∨ t = 800)
    (hbody : ∀ s : World, body s = { s with
      key_events := s.key_events ++ [KeyEvent.press c, KeyEvent.release c]
      move_buffer_y := wrap16 (max (s.move_buffer_y - t) 0) })
    (w : World) (h0 : 0 < w.move_buffer_y) (h1 : w.move_buffer_y ≤ 32767)
    (hn : abs w.move_buffer_x ≤ abs w.move_buffer_y) (m : Int)
    (hm : m = min (abs w.move_buffer_y / t)
      ((abs w.move_buffer_y + abs w.move_buffer_x) / t / 2))
    (hsafe : m ≤ 126) (fuel : Nat) :
    for_int8 (fun s => (abs s.move_buffer_x + abs s.move_buffer_y) / t) body fuel 0 w
      = if (1 + m).toNat < fuel then
          some { w with
            key_events := w.key_events ++ key_taps c (1 + m).toNat
            move_buffer_y := max (w.move_buffer_y - ((1 + m).toNat : Int) * t) 0 }
        else none := by
  have ht0 : 0 ≤ t := by omega
  have habs : abs w.move_buffer_y = w.move_buffer_y := by
    unfold abs; split <;> omega
  rw [habs] at hm hn
  have hm0 : 0 ≤ m := by
    rw [hm]; exact tap_count_nonneg t _ _ ht (by omega) (abs_int_nonneg _)
  have hj : ((1 + m).toNat : Int) = 1 + m := Int.toNat_of_nonneg (by omega)
  have hcond : ∀ k : Nat,
      (0 : Int) + (k : Int)
        ≤ (fun s : World => (abs s.move_buffer_x + abs s.move_buffer_y) / t) (body^[k] w)
      ↔ (k : Int) ≤ m := by
    intro k
    rw [iterate_y_max body c t ht0 hbody w (by omega) h1 k]
    show (0 : Int) + (k : Int)
      ≤ (abs w.move_buffer_x + abs (max (w.move_buffer_y - (k : Int) * t) 0)) / t ↔ _
    rw [abs_max_zero, Int.zero_add, hm, Int.add_comm (abs w.move_buffer_x) _]
    exact tap_condition_iff t w.move_buffer_y (abs w.move_buffer_x) k ht
      (abs_int_nonneg _) hn (Int.ofNat_nonneg k)
  rw [for_int8_exact _ body (1 + m).toNat 0 w fuel (by omega) (by omega)
    (fun k hk => (hcond k).mpr (by omega))
    (fun h => by have := (hcond _).mp h; omega)]
  rw [iterate_y_max body c t ht0 hbody w (by omega) h1]

/-- The loop of the down branch of `tap_tb`: it runs `1 + m` times for
`m = min(d / T, ((d + n) / T) / 2)` when `m ≤ 126`. -/
theorem tap_branch_y_min (body : World → World) (c : Nat) (t : Int)
    (ht : t = 10 ∨ t = 40 ∨ t = 200 ∨ t = 800)
    (hbody : ∀ s : World, body s = { s with
      key_events := s.key_events ++ [KeyEvent.press c, KeyEvent.release c]
      move_buffer_y := wrap16 (min (s.move_buffer_y + t) 0) })
    (w : World) (h0 : w.move_buffer_y ≤ 0) (h1 : -32768 ≤ w.move_buffer_y)
    (hn : abs w.move_buffer_x ≤ abs w.move_buffer_y) (m : Int)
    (hm : m = min (abs w.move_buffer_y / t)
      ((abs w.move_buffer_y + abs w.move_buffer_x) / t / 2))
    (hsafe : m ≤ 126) (fuel : Nat) :
    for_int8 (fun s => (abs s.move_buffer_x + abs s.move_buffer_y) / t) body fuel 0 w
      = if (1 + m).toNat < fuel then
          some { w with
            key_events := w.key_events ++ key_taps c (1 + m).toNat
            move_buffer_y := min (w.move_buffer_y + ((1 + m).toNat : Int) * t) 0 }
        else none := by
  have ht0 : 0 ≤ t := by omega
  have habs : abs w.move_buffer_y = -w.move_buffer_y := by
    unfold abs; split <;> omega
  rw [habs] at hm hn
  have hm0 : 0 ≤ m := by
    rw [hm]; exact tap_count_nonneg t _ _ ht (by omega) (abs_int_nonneg _)
  have hj : ((1 + m).toNat : Int) = 1 + m := Int.toNat_of_nonneg (by omega)
  have hcond : ∀ k : Nat,
      (0 : Int) + (k : Int)
        ≤ (fun s : World => (abs s.move_buffer_x + abs s.move_buffer_y) / t) (body^[k] w)
      ↔ (k : Int) ≤ m := by
    intro k
    rw [iterate_y_min body c t ht0 hbody w h0 h1 k]
    show (0 : Int) + (k : Int)
      ≤ (abs w.move_buffer_x + abs (min (w.move_buffer_y + (k : Int) * t) 0)) / t ↔ _
    have e : -(w.move_buffer_y + (k : Int) * t) = -w.move_buffer_y - (k : Int) * t := by omega
    rw [abs_min_zero, e, Int.zero_add, hm, Int.add_comm (abs w.move_buffer_x) _]
    exact tap_condition_iff t (-w.move_buffer_y) (abs w.move_buffer_x) k ht
      (abs_int_nonneg _) hn (Int.ofNat_nonneg k)
  rw [for_int8_exact _ body (1 + m).toNat 0 w fuel (by omega) (by omega)
    (fun k hk => (hcond k).mpr (by omega))
    (fun h => by have := (hcond _).mp h; omega)]
  rw [iterate_y_min body c t ht0 hbody w h0 h1]

theorem local_carret_dpi_cases (w : World) :
    local_carret_dpi w = 10 ∨ local_carret_dpi w = 40
      ∨ local_carret_dpi w = 200 ∨ local_carret_dpi w = 800 := by
  rw [local_carret_dpi_eq]
  split <;> split <;> simp

/-- From the threshold on, with 16-bit buffers and a counter that does not
wrap, `tap_tb` returns exactly when its fuel exceeds `tap_count`, and it
returns `tap_tb_closed`. -/
theorem tap_tb_exact (fuel : Nat) (k0 k1 k2 k3 : Nat) (w : World)
    (hge : local_carret_dpi w ≤ magnitude w)
    (hx0 : -32768 ≤ w.move_buffer_x) (hx1 : w.move_buffer_x ≤ 32767)
    (hy0 : -32768 ≤ w.move_buffer_y) (hy1 : w.move_buffer_y ≤ 32767)
    (hsafe : min (dominant w / local_carret_dpi w)
      ((dominant w + nondominant w) / local_carret_dpi w / 2) ≤ 126) :
    tap_tb fuel k0 k1 k2 k3 w
      = if tap_count w < fuel then some (tap_tb_closed k0 k1 k2 k3 w) else none := by
  have ht := local_carret_dpi_cases w
  have hax := abs_int_nonneg w.move_buffer_x
  have hay := abs_int_nonneg w.move_buffer_y
  unfold magnitude at hge
  unfold tap_tb
  dsimp only
  rw [if_neg (by omega)]
  by_cases c1 : abs w.move_buffer_x > abs w.move_buffer_y
  · have hd : dominant w = abs w.move_buffer_x := if_pos c1
    have hnd : nondominant w = abs w.move_buffer_y := if_pos c1
    rw [hd, hnd] at hsafe
    by_cases c2 : w.move_buffer_x > 0
    · rw [if_pos ⟨c1, c2⟩]
      refine (congrArg (Option.map _) (tap_branch_x_max
        (fun s => { tap_code_fast s k0 with
          move_buffer_x := wrap16 (max ((tap_code_fast s k0).move_buffer_x - local_carret_dpi w) 0) })
        k0 (local_carret_dpi w) ht
        (fun s => by simp [tap_code_fast, register_code, unregister_code]) w c2 hx1 (by omega) _ rfl hsafe fuel)).trans ?_
      simp only [tap_tb_closed, tap_count, direction_keycode, hd, hnd, if_pos c1, if_pos c2]
      by_cases hf : (1 + min (abs w.move_buffer_x / local_carret_dpi w)
          ((abs w.move_buffer_x + abs w.move_buffer_y) / local_carret_dpi w / 2)).toNat < fuel
      · rw [if_pos hf, if_pos hf]; rfl
      · rw [if_neg hf, if_neg hf]; rfl
    · rw [if_neg (fun h => c2 h.2), if_pos ⟨c1, by omega⟩]
      refine (congrArg (Option.map _) (tap_branch_x_min
        (fun s => { tap_code_fast s k1 with
          move_buffer_x := wrap16 (min ((tap_code_fast s k1).move_buffer_x + local_carret_dpi w) 0) })
        k1 (local_carret_dpi w) ht
        (fun s => by simp [tap_code_fast, register_code, unregister_code]) w (by omega) hx0 (by omega) _ rfl hsafe fuel)).trans ?_
      simp only [tap_tb_closed, tap_count, direction_keycode, hd, hnd, if_pos c1, if_neg c2]
      by_cases hf : (1 + min (abs w.move_buffer_x / local_carret_dpi w)
          ((abs w.move_buffer_x + abs w.move_buffer_y) / local_carret_dpi w / 2)).toNat < fuel
      · rw [if_pos hf, if_pos hf]; rfl
      · rw [if_neg hf, if_neg hf]; rfl
  · have hd : dominant w = abs w.move_buffer_y := if_neg c1
    have hnd : nondominant w = abs w.move_buffer_x := if_neg c1
    rw [hd, hnd] at hsafe
    rw [if_neg (fun h => c1 h.1), if_neg (fun h => c1 h.1)]
    by_cases c2 : w.move_buffer_y > 0
    · rw [if_pos ⟨by omega, c2⟩]
      refine (congrArg (Option.map _) (tap_branch_y_max
        (fun s => { tap_code_fast s k2 with
          move_buffer_y := wrap16 (max ((tap_code_fast s k2).move_buffer_y - local_carret_dpi w) 0) })
        k2 (local_carret_dpi w) ht
        (fun s => by simp [tap_code_fast, register_code, unregister_code]) w c2 hy1 (by omega) _ rfl hsafe fuel)).trans ?_
      simp only [tap_tb_closed, tap_count, direction_keycode, hd, hnd, if_neg c1, if_pos c2]
      by_cases hf : (1 + min (abs w.move_buffer_y / local_carret_dpi w)
          ((abs w.move_buffer_y + abs w.move_buffer_x) / local_carret_dpi w / 2)).toNat < fuel
      · rw [if_pos hf, if_pos hf]; rfl
      · rw [if_neg hf, if_neg hf]; rfl
    · rw [if_neg (fun h => c2 h.2), if_pos ⟨by omega, by omega⟩]
      refine (congrArg (Option.map _) (tap_branch_y_min
        (fun s => { tap_code_fast s k3 with
          move_buffer_y := wrap16 (min ((tap_code_fast s k3).move_buffer_y + local_carret_dpi w) 0) })
        k3 (local_carret_dpi w) ht
        (fun s => by simp [tap_code_fast, register_code, unregister_code]) w (by omega) hy0 (by omega) _ rfl hsafe fuel)).trans ?_
      simp only [tap_tb_closed, tap_count, direction_keycode, hd, hnd, if_neg c1, if_neg c2]
      by_cases hf : (1 + min (abs w.move_buffer_y / local_carret_dpi w)
          ((abs w.move_buffer_y + abs w.move_buffer_x) / local_carret_dpi w / 2)).toNat < fuel
      · rw [if_pos hf, if_pos hf]; rfl
      · rw [if_neg hf, if_neg hf]; rfl

theorem tap_tb_closed_key_events (k0 k1 k2 k3 : Nat) (w : World) :
    (tap_tb_closed k0 k1 k2 k3 w).key_events
      = w.key_events ++ key_taps (direction_keycode k0 k1 k2 k3 w) (tap_count w) := by
  unfold tap_tb_closed
  split <;> rfl

/-- With motion on one axis only, the dominant magnitude is the whole
magnitude and `tap_count` is `1 + (m / T) / 2`. -/
theorem tap_count_single_axis (w : World)
    (haxis : w.move_buffer_x = 0 ∨ w.move_buffer_y = 0) :
    min (dominant w / local_carret_dpi w)
        ((dominant w + nondominant w) / local_carret_dpi w / 2)
      = magnitude w / local_carret_dpi w / 2 := by
  have hz : abs 0 = 0 := rfl
  have hax := abs_int_nonneg w.move_buffer_x
  have hay := abs_int_nonneg w.move_buffer_y
  have key : dominant w = magnitude w ∧ nondominant w = 0 := by
    unfold dominant nondominant magnitude
    by_cases c : abs w.move_buffer_x > abs w.move_buffer_y
    · simp only [if_pos c]
      rcases haxis with h | h
      · rw [h, hz] at c; omega
      · rw [h, hz]; omega
    · simp only [if_neg c]
      rcases haxis with h | h
      · rw [h, hz]; omega
      · rw [h, hz] at c ⊢; omega
  rw [key.1, key.2]
  have hm := magnitude_nonneg w
  unfold min
  rcases local_carret_dpi_cases w with e | e | e | e <;> rw [e] <;> (split <;> omega)

/-- C11 (counterexample): Caret mode with Sniping and Integration off
(threshold 10), 30 buffered on the x axis and nothing on the y axis: no amount
of fuel makes `tap_tb` return with floor(30 / 10) = 3 taps of `KC_RIGHT` (it
returns with 2). -/
theorem C11_tap_count_counterexample :
    ¬ ∃ (fuel : Nat) (w' : World),
        tap_tb fuel KC_RIGHT KC_LEFT KC_UP KC_DOWN carret_buffer_30 = some w'
        ∧ w'.key_events
            = carret_buffer_30.key_events
              ++ key_taps KC_RIGHT
                  (magnitude carret_buffer_30 / local_carret_dpi carret_buffer_30).toNat := by
  rintro ⟨fuel, w', h, hk⟩
  rw [tap_tb_exact fuel KC_RIGHT KC_LEFT KC_UP KC_DOWN carret_buffer_30 (by decide) (by decide)
    (by decide) (by decide) (by decide) (by decide)] at h
  split at h
  · have e := Option.some.inj h
    rw [← e, tap_tb_closed_key_events] at hk
    exact absurd hk (by decide)
  · cases h

/-- C11 (amended): for every state with motion on one axis only (the other
buffer 0), 16-bit buffers, threshold T = `local_carret_dpi` and magnitude
m ≥ T with floor(floor(m / T) / 2) ≤ 126 (the 8-bit counter does not wrap), one
call of `tap_tb` returns exactly when its fuel exceeds
1 + floor(floor(m / T) / 2), and every returning call has emitted exactly
1 + floor(floor(m / T) / 2) taps, all of the keycode of the direction. -/
theorem C11_tap_count_amended (fuel : Nat) (k0 k1 k2 k3 : Nat) (w : World)
    (haxis : w.move_buffer_x = 0 ∨ w.move_buffer_y = 0)
    (hge : local_carret_dpi w ≤ magnitude w)
    (hx0 : -32768 ≤ w.move_buffer_x) (hx1 : w.move_buffer_x ≤ 32767)
    (hy0 : -32768 ≤ w.move_buffer_y) (hy1 : w.move_buffer_y ≤ 32767)
    (hsafe : magnitude w / local_carret_dpi w / 2 ≤ 126) :
    ((tap_tb fuel k0 k1 k2 k3 w).isSome
        ↔ (1 + magnitude w / local_carret_dpi w / 2).toNat < fuel)
    ∧ ∀ w', tap_tb fuel k0 k1 k2 k3 w = some w' →
        w'.key_events
          = w.key_events
            ++ key_taps (direction_keycode k0 k1 k2 k3 w)
                (1 + magnitude w / local_carret_dpi w / 2).toNat := by
  have hmin := tap_count_single_axis w haxis
  have hex := tap_tb_exact fuel k0 k1 k2 k3 w hge hx0 hx1 hy0 hy1 (by rw [hmin]; exact hsafe)
  have hcount : tap_count w = (1 + magnitude w / local_carret_dpi w / 2).toNat := by
    unfold tap_count; rw [hmin]
  rw [hcount] at hex
  constructor
  · rw [hex]
    by_cases hf : (1 + magnitude w / local_carret_dpi w / 2).toNat < fuel
    · rw [if_pos hf]; exact ⟨fun _ => hf, fun _ => rfl⟩
    · rw [if_neg hf]; exact ⟨fun h => (by cases h), fun h => absurd h hf⟩
  · intro w' h
    rw [hex] at h
    split at h
    · have e := Option.some.inj h
      rw [← e, tap_tb_closed_key_events, hcount]
    · cases h

/-- Witness of C11 (amended): Caret mode, threshold 10, 30 buffered on the x
axis: `tap_tb` returns with fuel 128 and has emitted 1 + floor(3 / 2) = 2 taps
of `KC_RIGHT`. -/
theorem C11_tap_count_amended_witness :
    (tap_tb 128 KC_RIGHT KC_LEFT KC_UP KC_DOWN carret_buffer_30).isSome
    ∧ ∀ w', tap_tb 128 KC_RIGHT KC_LEFT KC_UP KC_DOWN carret_buffer_30 = some w' →
        w'.key_events = key_taps KC_RIGHT 2 := by
  have H := C11_tap_count_amended 128 KC_RIGHT KC_LEFT KC_UP KC_DOWN carret_buffer_30
    (Or.inr rfl) (by decide) (by decide) (by decide) (by decide) (by decide) (by decide)
  exact ⟨H.1.mpr (by decide), fun w' h => (H.2 w' h).trans (by decide)⟩

/-! ### Reset, key dispatch, sync -/

/-- C21 (what the code does, and the failing input): `eeconfig_init_kb()`
writes 0 to the store and zeroes the default DPI step, the one field that
`raw` overlays, and leaves the sniping step and the six flags as they were;
from the config with default step 5, sniping step 1 and the six flags set it
leaves sniping step 1 and the six flags set. -/
theorem C21_eeconfig_init_kb_zeroes_only_raw (w : World) :
    (eeconfig_init_kb w).g_charybdis_config
      = { w.g_charybdis_config with pointer_default_dpi := 0 }
    ∧ (eeconfig_init_kb w).eeprom_kb = 0
    ∧ (eeconfig_init_kb full_world).g_charybdis_config
      = { pointer_default_dpi := 0
          pointer_sniping_dpi := 1
          is_dragscroll_enabled := true
          is_sniping_enabled := true
          is_carret_enabled := true
          is_custom_enabled := true
          is_modemode_enabled := true
          is_integ_enabled := true } := by
  refine ⟨?_, ?_, by decide⟩
  · unfold eeconfig_init_kb
    rw [maybe_update_pointing_device_cpi_g]
    rfl
  · unfold eeconfig_init_kb
    rw [maybe_update_pointing_device_cpi_eq]
    rfl

/-- C22 (what the code does, and the failing input): `process_record_kb`
handles `DRAGSCROLL_MODE_TOGGLE` exactly as it handles `CARRET_MODE_TOGGLE`;
from the initial state a press leaves `is_dragscroll_enabled` false, not its
negation, and sets `is_carret_enabled`; a release changes nothing. -/
theorem C22_dragscroll_toggle_toggles_carret (w : World) (env : RecordEnv) :
    process_record_kb w charybdis_keycodes.DRAGSCROLL_MODE_TOGGLE env
      = process_record_kb w charybdis_keycodes.CARRET_MODE_TOGGLE env
    ∧ (process_record_kb World.init charybdis_keycodes.DRAGSCROLL_MODE_TOGGLE
        press_event).1.g_charybdis_config.is_dragscroll_enabled = false
    ∧ (process_record_kb World.init charybdis_keycodes.DRAGSCROLL_MODE_TOGGLE
        press_event).1.g_charybdis_config.is_carret_enabled = true
    ∧ process_record_kb World.init charybdis_keycodes.DRAGSCROLL_MODE_TOGGLE release_event
      = (World.init, true) := by
  refine ⟨rfl, by decide, by decide, by decide⟩

/-- What a tick of the primary half leaves when it has to send and the send
fails: the snapshot already holds the config, the attempt is recorded, the
time of the last successful send is as before. -/
theorem housekeeping_failed (w : World) (env : TickEnv)
    (hm : env.is_keyboard_master = true)
    (hneeds : w.g_charybdis_config ≠ w.last_charybdis_config
      ∨ timer_elapsed32 env.time_check w.last_sync > 500)
    (hfail : env.send_ok = false) :
    housekeeping_task_kb w env
      = { w with
          last_charybdis_config := w.g_charybdis_config
          rpc_attempts := w.rpc_attempts ++ [w.g_charybdis_config] } := by
  unfold housekeeping_task_kb
  by_cases hc : w.g_charybdis_config = w.last_charybdis_config
  · have he : timer_elapsed32 env.time_check w.last_sync > 500 := by
      rcases hneeds with h | h
      · exact absurd hc h
      · exact h
    cases w
    simp_all
  · simp [hm, hc, hfail]

/-- A tick of the primary half that finds the config equal to the snapshot and
more than 500 ms elapsed attempts one transmission. -/
theorem housekeeping_timeout (w : World) (env : TickEnv)
    (hm : env.is_keyboard_master = true)
    (hsame : w.g_charybdis_config = w.last_charybdis_config)
    (hout : timer_elapsed32 env.time_check w.last_sync > 500) :
    (housekeeping_task_kb w env).rpc_attempts = w.rpc_attempts ++ [w.g_charybdis_config] := by
  unfold housekeeping_task_kb
  cases hs : env.send_ok <;> simp [hm, hsame, hout]

/-- C27 (counterexample): the config changes (drag-scroll set) and a tick at
100 ms attempts the transmission, which fails: the snapshot has been updated
to the new config all the same, and the next tick, at 200 ms with the config
unchanged, changes nothing and attempts no transmission. -/
theorem C27_sync_retry_counterexample :
    (housekeeping_task_kb changed_world (failed_tick 100)).rpc_attempts
      = [changed_world.g_charybdis_config]
    ∧ (housekeeping_task_kb changed_world (failed_tick 100)).last_charybdis_config
      ≠ changed_world.last_charybdis_config
    ∧ housekeeping_task_kb (housekeeping_task_kb changed_world (failed_tick 100))
        (failed_tick 200)
      = housekeeping_task_kb changed_world (failed_tick 100) := by
  decide

/-- C27 (amended): on the primary half, when a tick has to send (the config
differs from the snapshot, or more than 500 ms elapsed since the last
successful send) and the send fails, the time of the last successful send is
not updated but the snapshot already holds the config; the next tick, with
the config unchanged, attempts the transmission again exactly when more than
500 ms have elapsed since the last successful send, and otherwise changes
nothing. -/
theorem C27_sync_retry_amended (w : World) (e1 e2 : TickEnv)
    (hm1 : e1.is_keyboard_master = true) (hm2 : e2.is_keyboard_master = true)
    (hneeds : w.g_charybdis_config ≠ w.last_charybdis_config
      ∨ timer_elapsed32 e1.time_check w.last_sync > 500)
    (hfail : e1.send_ok = false) :
    (housekeeping_task_kb w e1).last_sync = w.last_sync
    ∧ (housekeeping_task_kb w e1).last_charybdis_config = w.g_charybdis_config
    ∧ (housekeeping_task_kb w e1).rpc_attempts = w.rpc_attempts ++ [w.g_charybdis_config]
    ∧ (timer_elapsed32 e2.time_check w.last_sync > 500 →
        (housekeeping_task_kb (housekeeping_task_kb w e1) e2).rpc_attempts
          = w.rpc_attempts ++ [w.g_charybdis_config, w.g_charybdis_config])
    ∧ (timer_elapsed32 e2.time_check w.last_sync ≤ 500 →
        housekeeping_task_kb (housekeeping_task_kb w e1) e2 = housekeeping_task_kb w e1) := by
  rw [housekeeping_failed w e1 hm1 hneeds hfail]
  refine ⟨rfl, rfl, rfl, ?_, ?_⟩
  · intro hout
    have h := housekeeping_timeout
      { w with
        last_charybdis_config := w.g_charybdis_config
        rpc_attempts := w.rpc_attempts ++ [w.g_charybdis_config] } e2 hm2 rfl hout
    rw [List.append_assoc] at h
    exact h
  · intro hin
    exact housekeeping_idle
      { w with
        last_charybdis_config := w.g_charybdis_config
        rpc_attempts := w.rpc_attempts ++ [w.g_charybdis_config] } e2 rfl hin

/-- Witness of C27 (amended): after the failed tick at 100 ms, a tick at
200 ms attempts nothing and a tick at 501 ms attempts the transmission
again. -/
theorem C27_sync_retry_amended_witness :
    (housekeeping_task_kb (housekeeping_task_kb changed_world (failed_tick 100))
        (failed_tick 200)).rpc_attempts
      = [changed_world.g_charybdis_config]
    ∧ (housekeeping_task_kb (housekeeping_task_kb changed_world (failed_tick 100))
        (failed_tick 501)).rpc_attempts
      = [changed_world.g_charybdis_config, changed_world.g_charybdis_config] := by
  constructor
  · rw [(C27_sync_retry_amended changed_world (failed_tick 100) (failed_tick 200) rfl rfl
      (Or.inl (by decide)) rfl).2.2.2.2 (by decide)]
    decide
  · exact (C27_sync_retry_amended changed_world (failed_tick 100) (failed_tick 501) rfl rfl
      (Or.inl (by decide)) rfl).2.2.2.1 (by decide)

/-! ### Sync receive handler -/

theorem decide_toNat_eq_one (f : Bool) : decide (f.toNat = 1) = f := by
  cases f <;> rfl

/-- The bits of a byte assembled from seven bits. -/
theorem bits_of_sum (s a1 a2 a3 a4 a5 a6 : Nat) (hs : s < 2) (h1 : a1 ≤ 1) (h2 : a2 ≤ 1)
    (h3 : a3 ≤ 1) (h4 : a4 ≤ 1) (h5 : a5 ≤ 1) (h6 : a6 ≤ 1) :
    (s % 2 + 2 * a1 + 4 * a2 + 8 * a3 + 16 * a4 + 32 * a5 + 64 * a6) % 2 = s
    ∧ (s % 2 + 2 * a1 + 4 * a2 + 8 * a3 + 16 * a4 + 32 * a5 + 64 * a6) / 2 % 2 = a1
    ∧ (s % 2 + 2 * a1 + 4 * a2 + 8 * a3 + 16 * a4 + 32 * a5 + 64 * a6) / 4 % 2 = a2
    ∧ (s % 2 + 2 * a1 + 4 * a2 + 8 * a3 + 16 * a4 + 32 * a5 + 64 * a6) / 8 % 2 = a3
    ∧ (s % 2 + 2 * a1 + 4 * a2 + 8 * a3 + 16 * a4 + 32 * a5 + 64 * a6) / 16 % 2 = a4
    ∧ (s % 2 + 2 * a1 + 4 * a2 + 8 * a3 + 16 * a4 + 32 * a5 + 64 * a6) / 32 % 2 = a5
    ∧ (s % 2 + 2 * a1 + 4 * a2 + 8 * a3 + 16 * a4 + 32 * a5 + 64 * a6) / 64 % 2 = a6 := by
  generalize hB : s % 2 + 2 * a1 + 4 * a2 + 8 * a3 + 16 * a4 + 32 * a5 + 64 * a6 = B
  have d4 : B / 4 = B / 2 / 2 := by omega
  have d8 : B / 8 = B / 2 / 2 / 2 := by omega
  have d16 : B / 16 = B / 2 / 2 / 2 / 2 := by omega
  have d32 : B / 32 = B / 2 / 2 / 2 / 2 / 2 := by omega
  have d64 : B / 64 = B / 2 / 2 / 2 / 2 / 2 / 2 := by omega
  have q1 : B / 2 = a1 + 2 * a2 + 4 * a3 + 8 * a4 + 16 * a5 + 32 * a6 := by omega
  have q2 : B / 2 / 2 = a2 + 2 * a3 + 4 * a4 + 8 * a5 + 16 * a6 := by rw [q1]; omega
  have q3 : B / 2 / 2 / 2 = a3 + 2 * a4 + 4 * a5 + 8 * a6 := by rw [q2]; omega
  have q4 : B / 2 / 2 / 2 / 2 = a4 + 2 * a5 + 4 * a6 := by rw [q3]; omega
  have q5 : B / 2 / 2 / 2 / 2 / 2 = a5 + 2 * a6 := by rw [q4]; omega
  have q6 : B / 2 / 2 / 2 / 2 / 2 / 2 = a6 := by rw [q5]; omega
  rw [d4, d8, d16, d32, d64, q6, q5, q4, q3, q2, q1]
  refine ⟨?_, ?_, ?_, ?_, ?_, ?_, ?_⟩ <;> omega

/-- Reading a config back from its own bytes gives the config. -/
theorem of_bytes_to_bytes (c : charybdis_config_t) (h : c.wf) :
    charybdis_config_t.of_bytes c.to_bytes = c := by
  obtain ⟨d, s, f1, f2, f3, f4, f5, f6⟩ := c
  obtain ⟨hd, hs⟩ := h
  have hd1 : d < 256 := hd
  have e0 : d % 256 % 256 = d := by omega
  obtain ⟨es, e1, e2, e3, e4, e5, e6⟩ := bits_of_sum s f1.toNat f2.toNat f3.toNat f4.toNat
    f5.toNat f6.toNat hs (Bool.toNat_le f1) (Bool.toNat_le f2) (Bool.toNat_le f3)
    (Bool.toNat_le f4) (Bool.toNat_le f5) (Bool.toNat_le f6)
  simp only [charybdis_config_t.of_bytes, charybdis_config_t.to_bytes,
    charybdis_config_t.byte1, List.getD_cons_zero, List.getD_cons_succ, e0, es, e1, e2, e3, e4,
    e5, e6, decide_toNat_eq_one]

theorem toNat_decide_mod_two (x : Nat) : (decide (x % 2 = 1)).toNat = x % 2 := by
  rcases Nat.mod_two_eq_zero_or_one x with h | h <;> simp [h]

/-- A byte below 128 is the sum of its seven low bits. -/
theorem bits_of_byte (b : Nat) (h : b < 128) :
    b % 2 % 2 + 2 * (b / 2 % 2) + 4 * (b / 4 % 2) + 8 * (b / 8 % 2)
      + 16 * (b / 16 % 2) + 32 * (b / 32 % 2) + 64 * (b / 64 % 2) = b := by
  have h1 : b = b % 2 + 2 * (b / 2) := by omega
  have h2 : b / 2 = b / 2 % 2 + 2 * (b / 4) := by omega
  have h3 : b / 4 = b / 4 % 2 + 2 * (b / 8) := by omega
  have h4 : b / 8 = b / 8 % 2 + 2 * (b / 16) := by omega
  have h5 : b / 16 = b / 16 % 2 + 2 * (b / 32) := by omega
  have h6 : b / 32 = b / 32 % 2 + 2 * (b / 64) := by omega
  have h7 : b / 64 % 2 = b / 64 := by omega
  have h0 : b % 2 % 2 = b % 2 := by omega
  rw [h0, h7]
  generalize b / 64 = q6 at *
  generalize b / 32 % 2 = r5 at *
  generalize b / 32 = q5 at *
  generalize b / 16 % 2 = r4 at *
  generalize b / 16 = q4 at *
  generalize b / 8 % 2 = r3 at *
  generalize b / 8 = q3 at *
  generalize b / 4 % 2 = r2 at *
  generalize b / 4 = q2 at *
  generalize b / 2 % 2 = r1 at *
  generalize b / 2 = q1 at *
  generalize b % 2 = r0 at *
  omega

/-- The bytes of the config read from two bytes are those bytes, the padding
bit apart. -/
theorem to_bytes_of_bytes (b0 b1 : Nat) (h0 : b0 < 256) (h1 : b1 < 128) :
    (charybdis_config_t.of_bytes [b0, b1]).to_bytes = [b0, b1] := by
  have e0 : b0 % 256 % 256 = b0 := by omega
  have e1 := bits_of_byte b1 h1
  simp only [charybdis_config_t.of_bytes, charybdis_config_t.to_bytes, charybdis_config_t.byte1,
    List.getD_cons_zero, List.getD_cons_succ, toNat_decide_mod_two, e0, e1]

/-- C28: for every state and every received payload,
`charybdis_config_sync_handler` leaves the state unchanged when the payload
size differs from the size of the config object, and otherwise replaces the
config by the one whose object holds the payload bytes and changes nothing
else; the reply buffer is returned as it was. A payload that is the bytes of
a config gives back that config, and the bytes of the new config are the
payload bytes (bit 7 of the second byte is padding). -/
theorem C28_sync_receive_handler (w : World) (size : Nat) (payload : List Nat)
    (reply_size : Nat) (reply : List Nat) :
    (size ≠ sizeof_charybdis_config_t →
      charybdis_config_sync_handler w size payload reply_size reply = (w, reply))
    ∧ (size = sizeof_charybdis_config_t →
      charybdis_config_sync_handler w size payload reply_size reply
        = ({ w with g_charybdis_config := charybdis_config_t.of_bytes payload }, reply))
    ∧ (∀ c : charybdis_config_t, c.wf → size = sizeof_charybdis_config_t →
      (charybdis_config_sync_handler w size c.to_bytes reply_size reply).1.g_charybdis_config
        = c)
    ∧ (∀ b0 b1 : Nat, b0 < 256 → b1 < 128 → size = sizeof_charybdis_config_t →
      (charybdis_config_sync_handler w size [b0, b1] reply_size
        reply).1.g_charybdis_config.to_bytes = [b0, b1]) := by
  refine ⟨?_, ?_, ?_, ?_⟩
  · intro h
    unfold charybdis_config_sync_handler
    rw [if_neg h]
  · intro h
    unfold charybdis_config_sync_handler
    rw [if_pos h]
  · intro c hc h
    unfold charybdis_config_sync_handler
    rw [if_pos h]
    exact of_bytes_to_bytes c hc
  · intro b0 b1 h0 h1 h
    unfold charybdis_config_sync_handler
    rw [if_pos h]
    exact to_bytes_of_bytes b0 b1 h0 h1

/-- Witness of C28: the secondary half in its initial state receives the two
bytes of the config with default step 5, sniping step 1 and the six flags
set, and holds that config afterwards; a payload of one byte changes
nothing. -/
theorem C28_sync_receive_handler_witness :
    (charybdis_config_sync_handler World.init 2 full_world.g_charybdis_config.to_bytes 0
        []).1.g_charybdis_config = full_world.g_charybdis_config
    ∧ charybdis_config_sync_handler World.init 1 [5] 0 [] = (World.init, []) :=
  ⟨(C28_sync_receive_handler World.init 2 full_world.g_charybdis_config.to_bytes 0 []).2.2.1
      full_world.g_charybdis_config (by decide) rfl,
   (C28_sync_receive_handler World.init 1 [5] 0 []).1 (by decide)⟩

/-! ### DragScroll, one invocation -/

/-- The two threshold tests of the DragScroll branch, axis by axis. -/
theorem dragscroll_emit_axes (t : Int) (b : World) (r : report_mouse_t) :
    (abs b.move_buffer_x > t →
      (dragscroll_emit t b r).2.h = (if b.move_buffer_x > 0 then 1 else -1)
      ∧ (dragscroll_emit t b r).1.move_buffer_x = 0)
    ∧ (¬ abs b.move_buffer_x > t →
      (dragscroll_emit t b r).2.h = r.h
      ∧ (dragscroll_emit t b r).1.move_buffer_x = b.move_buffer_x)
    ∧ (abs b.move_buffer_y > t →
      (dragscroll_emit t b r).2.v = (if b.move_buffer_y > 0 then 1 else -1)
      ∧ (dragscroll_emit t b r).1.move_buffer_y = 0)
    ∧ (¬ abs b.move_buffer_y > t →
      (dragscroll_emit t b r).2.v = r.v
      ∧ (dragscroll_emit t b r).1.move_buffer_y = b.move_buffer_y) := by
  unfold dragscroll_emit
  by_cases h1 : abs b.move_buffer_x > t <;> by_cases h2 : abs b.move_buffer_y > t <;>
    simp [h1, h2]

/-- C29: in DragScroll mode (dragscroll set, modemode clear), for every state
and sample the invocation returns for any fuel, and with the buffers taken
after the sample is added and the threshold 6 (1800 with Integration) each
axis is handled on its own: when `|buffer| > threshold` the scroll field of
the axis (`h` for x, `v` for y) is 1 or -1 by the sign of the buffer and the
buffer is reset to 0; otherwise the scroll field is the input's and the buffer
keeps the accumulated value. -/
theorem C29_dragscroll_rule (o : BuildOpts) (fuel : Nat) (w : World) (r : report_mouse_t)
    (hmm : w.g_charybdis_config.is_modemode_enabled = false)
    (hds : w.g_charybdis_config.is_dragscroll_enabled = true) :
    local_dragscroll_buffer_size w
      = (if w.g_charybdis_config.is_integ_enabled then 1800 else 6)
    ∧ ∃ w' r', pointing_device_task_charybdis o fuel w r = some (w', r')
      ∧ (abs (buffered o.CHARYBDIS_DRAGSCROLL_REVERSE_X o.CHARYBDIS_DRAGSCROLL_REVERSE_Y
            w r).move_buffer_x > local_dragscroll_buffer_size w →
          r'.h = (if (buffered o.CHARYBDIS_DRAGSCROLL_REVERSE_X
              o.CHARYBDIS_DRAGSCROLL_REVERSE_Y w r).move_buffer_x > 0 then 1 else -1)
          ∧ w'.move_buffer_x = 0)
      ∧ (¬ abs (buffered o.CHARYBDIS_DRAGSCROLL_REVERSE_X o.CHARYBDIS_DRAGSCROLL_REVERSE_Y
            w r).move_buffer_x > local_dragscroll_buffer_size w →
          r'.h = r.h
          ∧ w'.move_buffer_x = (buffered o.CHARYBDIS_DRAGSCROLL_REVERSE_X
              o.CHARYBDIS_DRAGSCROLL_REVERSE_Y w r).move_buffer_x)
      ∧ (abs (buffered o.CHARYBDIS_DRAGSCROLL_REVERSE_X o.CHARYBDIS_DRAGSCROLL_REVERSE_Y
            w r).move_buffer_y > local_dragscroll_buffer_size w →
          r'.v = (if (buffered o.CHARYBDIS_DRAGSCROLL_REVERSE_X
              o.CHARYBDIS_DRAGSCROLL_REVERSE_Y w r).move_buffer_y > 0 then 1 else -1)
          ∧ w'.move_buffer_y = 0)
      ∧ (¬ abs (buffered o.CHARYBDIS_DRAGSCROLL_REVERSE_X o.CHARYBDIS_DRAGSCROLL_REVERSE_Y
            w r).move_buffer_y > local_dragscroll_buffer_size w →
          r'.v = r.v
          ∧ w'.move_buffer_y = (buffered o.CHARYBDIS_DRAGSCROLL_REVERSE_X
              o.CHARYBDIS_DRAGSCROLL_REVERSE_Y w r).move_buffer_y) := by
  constructor
  · unfold local_dragscroll_buffer_size CHARYBDIS_DRAGSCROLL_BUFFER_SIZE
    split <;> rfl
  · rw [task_dragscroll o fuel w r hmm hds]
    exact ⟨(dragscroll_emit (local_dragscroll_buffer_size w)
        (buffered o.CHARYBDIS_DRAGSCROLL_REVERSE_X o.CHARYBDIS_DRAGSCROLL_REVERSE_Y w r)
        { r with x := 0, y := 0 }).1,
      (dragscroll_emit (local_dragscroll_buffer_size w)
        (buffered o.CHARYBDIS_DRAGSCROLL_REVERSE_X o.CHARYBDIS_DRAGSCROLL_REVERSE_Y w r)
        { r with x := 0, y := 0 }).2, rfl,
      dragscroll_emit_axes (local_dragscroll_buffer_size w)
        (buffered o.CHARYBDIS_DRAGSCROLL_REVERSE_X o.CHARYBDIS_DRAGSCROLL_REVERSE_Y w r)
        { r with x := 0, y := 0 }⟩

/-- Witness of C29: DragScroll from the initial state with sample (7, -6):
the x axis is above the threshold 6 and fires `h = 1` with its buffer reset;
the y axis is at the threshold, `v` stays 0 and the buffer keeps -6. -/
theorem C29_dragscroll_rule_witness :
    ∃ w' r', pointing_device_task_charybdis defaultBuild 0 dragscroll_world (sample 7 (-6))
        = some (w', r')
      ∧ r'.h = 1 ∧ w'.move_buffer_x = 0 ∧ r'.v = 0 ∧ w'.move_buffer_y = -6 := by
  obtain ⟨w', r', h, hx, _, _, hy⟩ :=
    (C29_dragscroll_rule defaultBuild 0 dragscroll_world (sample 7 (-6)) rfl rfl).2
  exact ⟨w', r', h, (hx (by decide)).1.trans (by decide), (hx (by decide)).2,
    (hy (by decide)).1.trans (by decide), (hy (by decide)).2.trans (by decide)⟩

/-! ### Closed form of `activate_stkeys` -/

/-- The bits of the four modifier masks. -/
theorem testBit_masks :
    Nat.testBit 1 0 = true
    ∧ Nat.testBit 1 1 = false
    ∧ Nat.testBit 1 2 = false
    ∧ Nat.testBit 1 3 = false
    ∧ Nat.testBit 2 0 = false
    ∧ Nat.testBit 2 1 = true
    ∧ Nat.testBit 2 2 = false
    ∧ Nat.testBit 2 3 = false
    ∧ Nat.testBit 4 0 = false
    ∧ Nat.testBit 4 1 = false
    ∧ Nat.testBit 4 2 = true
    ∧ Nat.testBit 4 3 = false
    ∧ Nat.testBit 8 0 = false
    ∧ Nat.testBit 8 1 = false
    ∧ Nat.testBit 8 2 = false
    ∧ Nat.testBit 8 3 = true := by
  decide

/-- The bit positions of the four left modifiers in the modifier mask. -/
theorem mod_bit_positions :
    KC_LCTL &&& 7 = 0 ∧ KC_LSFT &&& 7 = 1 ∧ KC_LALT &&& 7 = 2 ∧ KC_LGUI &&& 7 = 3 := by
  decide

/-- What `activate_stkeys` leaves, field by field: the six pending flags are
false, each `is_*_active` flag is set when its role was pending and kept
otherwise, and so are its modifier bit or layer bit; the sniping flag is set
when the lower role was pending and kept otherwise; the dance result, the
sticky flag and timer and the key events are kept. -/
theorem activate_stkeys_fields (w : World) :
    ((activate_stkeys w).activate_alt = false
      ∧ (activate_stkeys w).activate_sft = false
      ∧ (activate_stkeys w).activate_ctl = false
      ∧ (activate_stkeys w).activate_gui = false
      ∧ (activate_stkeys w).activate_rai = false
      ∧ (activate_stkeys w).activate_low = false)
    ∧ ((activate_stkeys w).is_alt_active = (w.activate_alt || w.is_alt_active)
      ∧ (activate_stkeys w).is_sft_active = (w.activate_sft || w.is_sft_active)
      ∧ (activate_stkeys w).is_ctl_active = (w.activate_ctl || w.is_ctl_active)
      ∧ (activate_stkeys w).is_gui_active = (w.activate_gui || w.is_gui_active)
      ∧ (activate_stkeys w).is_rai_active = (w.activate_rai || w.is_rai_active)
      ∧ (activate_stkeys w).is_low_active = (w.activate_low || w.is_low_active))
    ∧ (mod_registered (activate_stkeys w) KC_LALT = (w.activate_alt || mod_registered w KC_LALT)
      ∧ mod_registered (activate_stkeys w) KC_LSFT = (w.activate_sft || mod_registered w KC_LSFT)
      ∧ mod_registered (activate_stkeys w) KC_LCTL = (w.activate_ctl || mod_registered w KC_LCTL)
      ∧ mod_registered (activate_stkeys w) KC_LGUI
        = (w.activate_gui || mod_registered w KC_LGUI))
    ∧ (layer_state_is (activate_stkeys w) _RAISE = (w.activate_rai || layer_state_is w _RAISE)
      ∧ layer_state_is (activate_stkeys w) _LOWER = (w.activate_low || layer_state_is w _LOWER))
    ∧ (activate_stkeys w).g_charybdis_config
      = { w.g_charybdis_config with
          is_sniping_enabled := (w.activate_low || w.g_charybdis_config.is_sniping_enabled) }
    ∧ ((activate_stkeys w).td_state = w.td_state
      ∧ (activate_stkeys w).sticky_key = w.sticky_key
      ∧ (activate_stkeys w).sticky_timer = w.sticky_timer
      ∧ (activate_stkeys w).key_events = w.key_events) := by
  obtain ⟨g, ee, cpi, bx, by', lx, ly, ke, rm, ls, ia, is', ic, ig, il, ir, aa, as', ac, ag, al,
    ar, sk, st, td, lc, lsy, rpc⟩ := w
  cases aa <;> cases as' <;> cases ac <;> cases ag <;> cases al <;> cases ar <;>
    simp [activate_stkeys, activate_stkeys_alt, activate_stkeys_sft, activate_stkeys_ctl,
      activate_stkeys_gui, activate_stkeys_rai, activate_stkeys_low, register_mods, layer_on,
      charybdis_set_pointer_sniping_enabled, maybe_update_pointing_device_cpi_eq,
      mod_registered, layer_state_is, Nat.testBit_or, mod_bit_positions, testBit_masks,
      MOD_BIT_KC_LALT, MOD_BIT_KC_LSFT, MOD_BIT_KC_LCTL, MOD_BIT_KC_LGUI, _RAISE, _LOWER]

/-- C23: for every state, after `activate_stkeys()` the six pending flags are
false; each role's `is_*_active` flag, and its left modifier bit (alt, shift,
ctrl, gui) or its layer (raise, lower), is set when the role was pending and
is as before when it was not; the sniping flag is set when the lower role was
pending and is as before when it was not. -/
theorem C23_activate_stkeys_postcondition (w : World) :
    ((activate_stkeys w).activate_alt = false
      ∧ (activate_stkeys w).activate_sft = false
      ∧ (activate_stkeys w).activate_ctl = false
      ∧ (activate_stkeys w).activate_gui = false
      ∧ (activate_stkeys w).activate_rai = false
      ∧ (activate_stkeys w).activate_low = false)
    ∧ ((activate_stkeys w).is_alt_active = (w.activate_alt || w.is_alt_active)
      ∧ (activate_stkeys w).is_sft_active = (w.activate_sft || w.is_sft_active)
      ∧ (activate_stkeys w).is_ctl_active = (w.activate_ctl || w.is_ctl_active)
      ∧ (activate_stkeys w).is_gui_active = (w.activate_gui || w.is_gui_active)
      ∧ (activate_stkeys w).is_rai_active = (w.activate_rai || w.is_rai_active)
      ∧ (activate_stkeys w).is_low_active = (w.activate_low || w.is_low_active))
    ∧ (mod_registered (activate_stkeys w) KC_LALT = (w.activate_alt || mod_registered w KC_LALT)
      ∧ mod_registered (activate_stkeys w) KC_LSFT = (w.activate_sft || mod_registered w KC_LSFT)
      ∧ mod_registered (activate_stkeys w) KC_LCTL = (w.activate_ctl || mod_registered w KC_LCTL)
      ∧ mod_registered (activate_stkeys w) KC_LGUI
        = (w.activate_gui || mod_registered w KC_LGUI))
    ∧ (layer_state_is (activate_stkeys w) _RAISE = (w.activate_rai || layer_state_is w _RAISE)
      ∧ layer_state_is (activate_stkeys w) _LOWER = (w.activate_low || layer_state_is w _LOWER))
    ∧ (activate_stkeys w).g_charybdis_config.is_sniping_enabled
      = (w.activate_low || w.g_charybdis_config.is_sniping_enabled) := by
  obtain ⟨h1, h2, h3, h4, h5, _⟩ := activate_stkeys_fields w
  refine ⟨h1, h2, h3, h4, ?_⟩
  rw [h5]

/-! ### The tap-dance callbacks -/

theorem cur_dance_cases (state : qk_tap_dance_state_t) :
    cur_dance state = SINGLE_TAP ∨ cur_dance state = SINGLE_HOLD ∨ cur_dance state = 2 := by
  unfold cur_dance
  split
  · split
    · exact Or.inl rfl
    · exact Or.inr (Or.inl rfl)
  · exact Or.inr (Or.inr rfl)

/-- The two setters and the key tap used by the tap branches of the callbacks
keep the dance result. -/
theorem tap_branch_td_state (w : World) (enable : Bool) (code : Nat) :
    (charybdis_set_pointer_dragscroll_enabled w enable).td_state = w.td_state
    ∧ (charybdis_set_pointer_sniping_enabled w enable).td_state = w.td_state
    ∧ (tap_code w code).td_state = w.td_state := by
  simp only [charybdis_set_pointer_dragscroll_enabled, charybdis_set_pointer_sniping_enabled,
    charybdis_set_pointer_disable_nonstacking, maybe_update_pointing_device_cpi_eq, tap_code,
    register_code, unregister_code, and_self]

/-- Every `finished` callback leaves in `td_state` the classification of its
own dance, whatever the state, the clock and the role. -/
theorem tap_dance_finished_td_state (w : World) (state : qk_tap_dance_state_t) (time : Nat)
    (k : td_keycodes) :
    (tap_dance_finished w state time k).td_state = cur_dance state := by
  have ha := fun v : World => (activate_stkeys_fields v).2.2.2.2.2.1
  cases k
  · show (alttm_finished w state time).td_state = cur_dance state
    unfold alttm_finished
    dsimp only
    split
    · rw [(tap_branch_td_state _ true 0).1]
    · split
      · exact ha _
      · rfl
  · show (sfttm_finished w state time).td_state = cur_dance state
    unfold sfttm_finished
    dsimp only
    split
    · rfl
    · split
      · exact ha _
      · rfl
  · show (ctltm_finished w state time).td_state = cur_dance state
    unfold ctltm_finished
    dsimp only
    split
    · rw [(tap_branch_td_state _ false 0).1, (tap_branch_td_state _ false 0).2.1]
    · split
      · exact ha _
      · rfl
  · show (guitm_finished w state time).td_state = cur_dance state
    unfold guitm_finished
    dsimp only
    split
    · rfl
    · split
      · exact ha _
      · rfl
  · show (raitm_finished w state time).td_state = cur_dance state
    unfold raitm_finished
    dsimp only
    split
    · rfl
    · split
      · exact ha _
      · rfl
  · show (lowtm_finished w state time).td_state = cur_dance state
    unfold lowtm_finished
    dsimp only
    split
    · rfl
    · split
      · exact ha _
      · rfl
  · show (esctm_finished w state time).td_state = cur_dance state
    unfold esctm_finished
    dsimp only
    split
    · rw [(tap_branch_td_state _ KC_ESC KC_ESC).2.2, (tap_branch_td_state _ false 0).1,
        (tap_branch_td_state _ false 0).2.1]
    · split <;> rfl

/-- Every `reset` callback reads the shared `td_state`: it calls
`unstick_keys()` when `td_state` is SINGLE_HOLD and does nothing otherwise. -/
theorem tap_dance_reset_eq (w : World) (state : qk_tap_dance_state_t) (k : td_keycodes) :
    tap_dance_reset w state k = if w.td_state = SINGLE_HOLD then unstick_keys w else w := by
  have key : (if w.td_state = SINGLE_TAP then w
      else if w.td_state = SINGLE_HOLD then unstick_keys w else w)
      = if w.td_state = SINGLE_HOLD then unstick_keys w else w := by
    by_cases h : w.td_state = SINGLE_TAP
    · rw [if_pos h, if_neg (by rw [h]; decide)]
    · rw [if_neg h]
  cases k <;> exact key

/-- C30: for every tap-dance state, `cur_dance` returns SINGLE_TAP exactly
when `count = 1` and the key is not pressed, SINGLE_HOLD exactly when
`count = 1` and the key is pressed, and 2, which is neither, exactly when
`count` is not 1; the result does not depend on `interrupted`, and the
classification a `finished` callback stores is the same for every state
(whatever `sticky_timer`), every clock and every role. -/
theorem C30_cur_dance_classification (state : qk_tap_dance_state_t) :
    (cur_dance state = SINGLE_TAP ↔ state.count = 1 ∧ state.pressed = false)
    ∧ (cur_dance state = SINGLE_HOLD ↔ state.count = 1 ∧ state.pressed = true)
    ∧ (cur_dance state = 2 ↔ state.count ≠ 1)
    ∧ (2 : Int) ≠ SINGLE_TAP ∧ (2 : Int) ≠ SINGLE_HOLD
    ∧ (∀ interrupted : Bool,
        cur_dance { state with interrupted := interrupted } = cur_dance state)
    ∧ (∀ (w : World) (time : Nat) (k : td_keycodes),
        (tap_dance_finished w state time k).td_state = cur_dance state) := by
  refine ⟨?_, ?_, ?_, by decide, by decide, fun _ => rfl,
    fun w time k => tap_dance_finished_td_state w state time k⟩
  · obtain ⟨c, i, p⟩ := state
    by_cases hc : c = 1 <;> cases p <;> simp [cur_dance, hc, SINGLE_TAP, SINGLE_HOLD]
  · obtain ⟨c, i, p⟩ := state
    by_cases hc : c = 1 <;> cases p <;> simp [cur_dance, hc, SINGLE_TAP, SINGLE_HOLD]
  · obtain ⟨c, i, p⟩ := state
    by_cases hc : c = 1 <;> cases p <;> simp [cur_dance, hc, SINGLE_TAP, SINGLE_HOLD]

/-- The bits 1 and 2 of the masks that clear bits 0 to 3 of the modifiers and
bit 1 or bit 2 of the layer state. -/
theorem testBit_clear_masks :
    Nat.testBit 240 0 = false
    ∧ Nat.testBit 240 1 = false
    ∧ Nat.testBit 240 2 = false
    ∧ Nat.testBit 240 3 = false
    ∧ Nat.testBit 4294967291 2 = false
    ∧ Nat.testBit 4294967291 1 = true
    ∧ Nat.testBit 4294967293 1 = false
    ∧ Nat.testBit 4294967293 2 = true := by
  decide

/-- After `unstick_keys` none of the four left modifiers is registered, and a
layer is on exactly when it was on and its role was not active. -/
theorem unstick_keys_released (w : World) :
    (mod_registered (unstick_keys w) KC_LALT = false
      ∧ mod_registered (unstick_keys w) KC_LSFT = false
      ∧ mod_registered (unstick_keys w) KC_LCTL = false
      ∧ mod_registered (unstick_keys w) KC_LGUI = false)
    ∧ layer_state_is (unstick_keys w) _RAISE = (layer_state_is w _RAISE && !w.is_rai_active)
    ∧ layer_state_is (unstick_keys w) _LOWER = (layer_state_is w _LOWER && !w.is_low_active) := by
  have hm := (unstick_keys_fields w).1
  constructor
  · simp only [mod_registered, hm, Nat.testBit_and, mod_bit_positions, testBit_clear_masks,
      Bool.and_false, and_self]
  · obtain ⟨g, ee, cpi, bx, by', lx, ly, ke, rm, ls, ia, is', ic, ig, il, ir, aa, as', ac, ag,
      al, ar, sk, st, td, lc, lsy, rpc⟩ := w
    cases il <;> cases ir <;>
      simp [unstick_keys, unstick_alt_eq, unstick_sft_eq, unstick_ctl_eq, unstick_gui_eq,
        unstick_rai, unstick_low, layer_off, charybdis_set_pointer_sniping_enabled,
        maybe_update_pointing_device_cpi_eq, layer_state_is, Nat.testBit_and,
        testBit_clear_masks, _RAISE, _LOWER]

/-- C24 (counterexample): the shift role resolves as SINGLE_HOLD (shift is
registered), then the gui role resolves as SINGLE_TAP before the reset of the
shift role; the reset callback of the shift role then changes nothing:
`is_sft_active` is still true and left shift is still registered. -/
theorem C24_reset_after_hold_counterexample :
    cur_dance hold_dance = SINGLE_HOLD
    ∧ sfttm_reset (guitm_finished (sfttm_finished World.init hold_dance 0) tap_dance 0)
        hold_dance
      = guitm_finished (sfttm_finished World.init hold_dance 0) tap_dance 0
    ∧ (sfttm_reset (guitm_finished (sfttm_finished World.init hold_dance 0) tap_dance 0)
        hold_dance).is_sft_active = true
    ∧ mod_registered
        (sfttm_reset (guitm_finished (sfttm_finished World.init hold_dance 0) tap_dance 0)
          hold_dance) KC_LSFT = true := by
  decide

/-- C24 (amended): the reset callback of every role acts on the shared
`td_state`, which holds the classification of the dance of the most recent
`finished` callback, of whatever role: from any state, after a `finished`
callback of role `k'` on a dance `state`, the reset callback of any role `k`
calls `unstick_keys()` when `state` resolved as SINGLE_HOLD, and then no
`is_*_active` flag is true, none of the four left modifiers is registered and
a layer whose role was active is off; when `state` resolved otherwise
(SINGLE_TAP or a higher count) the reset callback changes nothing. -/
theorem C24_reset_follows_latest_dance (w : World) (state state' : qk_tap_dance_state_t)
    (time : Nat) (k k' : td_keycodes) :
    (cur_dance state = SINGLE_HOLD →
      tap_dance_reset (tap_dance_finished w state time k') state' k
        = unstick_keys (tap_dance_finished w state time k')
      ∧ (tap_dance_reset (tap_dance_finished w state time k') state' k).is_alt_active = false
      ∧ (tap_dance_reset (tap_dance_finished w state time k') state' k).is_sft_active = false
      ∧ (tap_dance_reset (tap_dance_finished w state time k') state' k).is_ctl_active = false
      ∧ (tap_dance_reset (tap_dance_finished w state time k') state' k).is_gui_active = false
      ∧ (tap_dance_reset (tap_dance_finished w state time k') state' k).is_rai_active = false
      ∧ (tap_dance_reset (tap_dance_finished w state time k') state' k).is_low_active = false
      ∧ mod_registered (tap_dance_reset (tap_dance_finished w state time k') state' k)
          KC_LALT = false
      ∧ mod_registered (tap_dance_reset (tap_dance_finished w state time k') state' k)
          KC_LSFT = false
      ∧ mod_registered (tap_dance_reset (tap_dance_finished w state time k') state' k)
          KC_LCTL = false
      ∧ mod_registered (tap_dance_reset (tap_dance_finished w state time k') state' k)
          KC_LGUI = false
      ∧ ((tap_dance_finished w state time k').is_rai_active = true →
          layer_state_is (tap_dance_reset (tap_dance_finished w state time k') state' k)
            _RAISE = false)
      ∧ ((tap_dance_finished w state time k').is_low_active = true →
          layer_state_is (tap_dance_reset (tap_dance_finished w state time k') state' k)
            _LOWER = false))
    ∧ (cur_dance state ≠ SINGLE_HOLD →
      tap_dance_reset (tap_dance_finished w state time k') state' k
        = tap_dance_finished w state time k') := by
  have htd := tap_dance_finished_td_state w state time k'
  rw [tap_dance_reset_eq, htd]
  constructor
  · intro h
    rw [if_pos h]
    obtain ⟨_, f1, f2, f3, f4, f5, f6⟩ := unstick_keys_fields (tap_dance_finished w state time k')
    obtain ⟨⟨m1, m2, m3, m4⟩, l1, l2⟩ :=
      unstick_keys_released (tap_dance_finished w state time k')
    refine ⟨rfl, f1, f2, f3, f4, f5, f6, m1, m2, m3, m4, ?_, ?_⟩
    · intro hr
      rw [l1, hr]
      simp
    · intro hl
      rw [l2, hl]
      simp
  · intro h
    rw [if_neg h]

/-- Witness of C24 (amended): the shift role resolves as SINGLE_HOLD, then the
gui role resolves as SINGLE_HOLD too, and the reset of the shift role
releases left shift; had the gui role resolved as SINGLE_TAP, the reset of
the shift role would change nothing. -/
theorem C24_reset_follows_latest_dance_witness :
    mod_registered
      (tap_dance_reset
        (tap_dance_finished (sfttm_finished World.init hold_dance 0) hold_dance 0
          td_keycodes.GUI_TM)
        hold_dance td_keycodes.SFT_TM) KC_LSFT = false
    ∧ tap_dance_reset
        (tap_dance_finished (sfttm_finished World.init hold_dance 0) tap_dance 0
          td_keycodes.GUI_TM)
        hold_dance td_keycodes.SFT_TM
      = tap_dance_finished (sfttm_finished World.init hold_dance 0) tap_dance 0
          td_keycodes.GUI_TM :=
  ⟨((C24_reset_follows_latest_dance (sfttm_finished World.init hold_dance 0) hold_dance
      hold_dance 0 td_keycodes.SFT_TM td_keycodes.GUI_TM).1 (by decide)).2.2.2.2.2.2.2.2.1,
   (C24_reset_follows_latest_dance (sfttm_finished World.init hold_dance 0) tap_dance
      hold_dance 0 td_keycodes.SFT_TM td_keycodes.GUI_TM).2 (by decide)⟩

/-- C25 (counterexample): from the initial state, `sfttm_finished` resolving
as SINGLE_TAP sets the pending flag `activate_sft`; a SINGLE_HOLD of the gui
role that follows registers left shift as well as left gui. -/
theorem C25_single_tap_counterexample :
    cur_dance tap_dance = SINGLE_TAP
    ∧ (sfttm_finished World.init tap_dance 0).activate_sft ≠ World.init.activate_sft
    ∧ mod_registered (guitm_finished (sfttm_finished World.init tap_dance 0) hold_dance 0)
        KC_LSFT = true
    ∧ mod_registered (guitm_finished (sfttm_finished World.init tap_dance 0) hold_dance 0)
        KC_LGUI = true := by
  decide

/-- C25 (amended): for every state, `sfttm_finished` (and `guitm_finished`)
resolving as SINGLE_TAP registers no modifier, changes no layer and leaves
the `is_*_active` flags and the other roles' pending flags unchanged, but it
sets the role's own pending flag (`activate_sft`, `activate_gui`), the sticky
flag, the sticky timer and `td_state`; a SINGLE_HOLD of the gui role that
follows a SINGLE_TAP of the shift role registers left shift and left gui and
sets `is_sft_active` and `is_gui_active`. -/
theorem C25_single_tap_marks_pending (w : World) (state state' : qk_tap_dance_state_t)
    (time time' : Nat) (htap : cur_dance state = SINGLE_TAP)
    (hhold : cur_dance state' = SINGLE_HOLD) :
    sfttm_finished w state time
      = { w with
          td_state := SINGLE_TAP
          sticky_timer := timer_read32 time
          activate_sft := true
          sticky_key := true }
    ∧ guitm_finished w state time
      = { w with
          td_state := SINGLE_TAP
          sticky_timer := timer_read32 time
          activate_gui := true
          sticky_key := true }
    ∧ mod_registered (guitm_finished (sfttm_finished w state time) state' time') KC_LSFT = true
    ∧ mod_registered (guitm_finished (sfttm_finished w state time) state' time') KC_LGUI = true
    ∧ (guitm_finished (sfttm_finished w state time) state' time').is_sft_active = true
    ∧ (guitm_finished (sfttm_finished w state time) state' time').is_gui_active = true := by
  have e1 : sfttm_finished w state time
      = { w with
          td_state := SINGLE_TAP
          sticky_timer := timer_read32 time
          activate_sft := true
          sticky_key := true } := by
    unfold sfttm_finished
    simp only [htap, if_true]
  have e2 : guitm_finished w state time
      = { w with
          td_state := SINGLE_TAP
          sticky_timer := timer_read32 time
          activate_gui := true
          sticky_key := true } := by
    unfold guitm_finished
    simp only [htap, if_true]
  have hne : ¬ (SINGLE_HOLD = SINGLE_TAP) := by decide
  have e3 : ∀ v : World, guitm_finished v state' time'
      = { activate_stkeys
            { v with
              td_state := SINGLE_HOLD
              sticky_timer := timer_read32 time'
              activate_gui := true
              sticky_key := true } with sticky_key := false } := by
    intro v
    unfold guitm_finished
    simp only [hhold, hne, if_true, if_false]
  refine ⟨e1, e2, ?_⟩
  rw [e3, e1]
  obtain ⟨_, ⟨_, a2, _, a4, _, _⟩, ⟨_, m2, _, m4⟩, _⟩ := activate_stkeys_fields
    { ({ w with
          td_state := SINGLE_TAP
          sticky_timer := timer_read32 time
          activate_sft := true
          sticky_key := true } : World) with
      td_state := SINGLE_HOLD
      sticky_timer := timer_read32 time'
      activate_gui := true
      sticky_key := true }
  exact ⟨m2, m4, a2, a4⟩

/-- Witness of C25 (amended): from the initial state a tap of the shift role
leaves `activate_sft` set and no modifier registered, and a hold of the gui
role that follows registers left shift. -/
theorem C25_single_tap_marks_pending_witness :
    (sfttm_finished World.init tap_dance 0).activate_sft = true
    ∧ (sfttm_finished World.init tap_dance 0).real_mods = 0
    ∧ mod_registered (guitm_finished (sfttm_finished World.init tap_dance 0) hold_dance 0)
        KC_LSFT = true := by
  have H := C25_single_tap_marks_pending World.init tap_dance hold_dance 0 0 (by decide)
    (by decide)
  refine ⟨?_, ?_, H.2.2.1⟩
  · rw [H.1]
  · rw [H.1]; rfl

/-- C26: for every state and every dance outcome (SINGLE_TAP, SINGLE_HOLD or
a higher tap count), after `raitm_finished` the raise layer is on and
`is_rai_active` is true, and after `lowtm_finished` the lower layer is on and
`is_low_active` is true. -/
theorem C26_immediate_layer_activation (w : World) (state : qk_tap_dance_state_t)
    (time : Nat) :
    layer_state_is (raitm_finished w state time) _RAISE = true
    ∧ (raitm_finished w state time).is_rai_active = true
    ∧ layer_state_is (lowtm_finished w state time) _LOWER = true
    ∧ (lowtm_finished w state time).is_low_active = true := by
  have hr : ∀ v : World, layer_state_is (layer_on v _RAISE) _RAISE = true := by
    intro v
    simp [layer_state_is, layer_on, Nat.testBit_or, _RAISE, testBit_masks]
  have hl : ∀ v : World, layer_state_is (layer_on v _LOWER) _LOWER = true := by
    intro v
    simp [layer_state_is, layer_on, Nat.testBit_or, _LOWER, testBit_masks]
  have hA := fun v : World => (activate_stkeys_fields v).2.1
  have hL := fun v : World => (activate_stkeys_fields v).2.2.2.1
  refine ⟨?_, ?_, ?_, ?_⟩
  · unfold raitm_finished
    dsimp only
    split
    · exact hr _
    · split
      · show layer_state_is (activate_stkeys _) _RAISE = true
        rw [(hL _).1]
        rfl
      · exact hr _
  · unfold raitm_finished
    dsimp only
    split
    · rfl
    · split
      · show (activate_stkeys _).is_rai_active = true
        rw [(hA _).2.2.2.2.1]
        rfl
      · rfl
  · unfold lowtm_finished
    dsimp only
    split
    · exact hl _
    · split
      · show layer_state_is (activate_stkeys _) _LOWER = true
        rw [(hL _).2]
        rfl
      · exact hl _
  · unfold lowtm_finished
    dsimp only
    split
    · rfl
    · split
      · show (activate_stkeys _).is_low_active = true
        rw [(hA _).2.2.2.2.2]
        rfl
      · rfl

/-! ### The three non-stacking flags -/

/-- The config left by the setters of custom, sniping and modemode. -/
theorem mode_setters_g_more (w : World) (enable : Bool) :
    (charybdis_set_pointer_custom_enabled w enable).g_charybdis_config
      = { w.g_charybdis_config with
          is_dragscroll_enabled := false, is_carret_enabled := false,
          is_custom_enabled := enable }
    ∧ (charybdis_set_pointer_sniping_enabled w enable).g_charybdis_config
      = { w.g_charybdis_config with is_sniping_enabled := enable }
    ∧ (charybdis_set_pointer_modemode_enabled w enable).g_charybdis_config
      = { w.g_charybdis_config with is_modemode_enabled := enable } := by
  simp only [charybdis_set_pointer_custom_enabled, charybdis_set_pointer_sniping_enabled,
    charybdis_set_pointer_modemode_enabled, charybdis_set_pointer_disable_nonstacking,
    maybe_update_pointing_device_cpi_g, and_self]

/-- Exclusivity depends on the three flags only. -/
theorem three_mode_exclusive_congr (c c' : charybdis_config_t)
    (h1 : c'.is_dragscroll_enabled = c.is_dragscroll_enabled)
    (h2 : c'.is_carret_enabled = c.is_carret_enabled)
    (h3 : c'.is_custom_enabled = c.is_custom_enabled) (h : three_mode_exclusive c) :
    three_mode_exclusive c' := by
  unfold three_mode_exclusive three_mode_count at h ⊢
  rw [h1, h2, h3]
  exact h

/-- The three setters of the non-stacking modes leave at most one of the
three flags set, from any state. -/
theorem three_setters_exclusive (w : World) (enable : Bool) :
    three_mode_exclusive (charybdis_set_pointer_dragscroll_enabled w enable).g_charybdis_config
    ∧ three_mode_exclusive (charybdis_set_pointer_carret_enabled w enable).g_charybdis_config
    ∧ three_mode_exclusive
        (charybdis_set_pointer_custom_enabled w enable).g_charybdis_config := by
  rw [(mode_setters_g w enable).1, (mode_setters_g w enable).2.1,
    (mode_setters_g_more w enable).1]
  unfold three_mode_exclusive three_mode_count
  cases enable <;> simp

/-- The other setters and the DPI operations keep the three flags. -/
theorem other_setters_exclusive (w : World) (b : Bool)
    (h : three_mode_exclusive w.g_charybdis_config) :
    three_mode_exclusive (charybdis_set_pointer_sniping_enabled w b).g_charybdis_config
    ∧ three_mode_exclusive (charybdis_set_pointer_modemode_enabled w b).g_charybdis_config
    ∧ three_mode_exclusive (charybdis_set_pointer_integ_enabled w b).g_charybdis_config
    ∧ three_mode_exclusive (charybdis_set_pointer_disable_nonstacking w).g_charybdis_config
    ∧ three_mode_exclusive (charybdis_cycle_pointer_default_dpi w b).g_charybdis_config
    ∧ three_mode_exclusive (charybdis_cycle_pointer_default_dpi_noeeprom w b).g_charybdis_config
    ∧ three_mode_exclusive (charybdis_cycle_pointer_sniping_dpi w b).g_charybdis_config
    ∧ three_mode_exclusive (charybdis_cycle_pointer_sniping_dpi_noeeprom w b).g_charybdis_config
    ∧ three_mode_exclusive (pointing_device_init_kb w).g_charybdis_config := by
  refine ⟨?_, ?_, ?_, ?_, ?_, ?_, ?_, ?_, ?_⟩
  · rw [(mode_setters_g_more w b).2.1]
    exact three_mode_exclusive_congr _ _ rfl rfl rfl h
  · rw [(mode_setters_g_more w b).2.2]
    exact three_mode_exclusive_congr _ _ rfl rfl rfl h
  · rw [(mode_setters_g w b).2.2.1]
    exact three_mode_exclusive_congr _ _ rfl rfl rfl h
  · rw [(mode_setters_g w b).2.2.2]
    unfold three_mode_exclusive three_mode_count
    simp
  · show three_mode_exclusive
      (write_charybdis_config_to_eeprom (step_pointer_default_dpi w b)).g_charybdis_config
    unfold write_charybdis_config_to_eeprom step_pointer_default_dpi
    dsimp only
    rw [maybe_update_pointing_device_cpi_g]
    exact three_mode_exclusive_congr _ _ rfl rfl rfl h
  · unfold charybdis_cycle_pointer_default_dpi_noeeprom step_pointer_default_dpi
    rw [maybe_update_pointing_device_cpi_g]
    exact three_mode_exclusive_congr _ _ rfl rfl rfl h
  · show three_mode_exclusive
      (write_charybdis_config_to_eeprom (step_pointer_sniping_dpi w b)).g_charybdis_config
    unfold write_charybdis_config_to_eeprom step_pointer_sniping_dpi
    dsimp only
    rw [maybe_update_pointing_device_cpi_g]
    exact three_mode_exclusive_congr _ _ rfl rfl rfl h
  · unfold charybdis_cycle_pointer_sniping_dpi_noeeprom step_pointer_sniping_dpi
    rw [maybe_update_pointing_device_cpi_g]
    exact three_mode_exclusive_congr _ _ rfl rfl rfl h
  · unfold pointing_device_init_kb
    rw [maybe_update_pointing_device_cpi_g]
    exact h

/-- Every keycode event handled by `process_record_kb` keeps exclusivity. -/
theorem process_record_kb_exclusive (w : World) (keycode : charybdis_keycodes)
    (env : RecordEnv) (h : three_mode_exclusive w.g_charybdis_config) :
    three_mode_exclusive (process_record_kb w keycode env).1.g_charybdis_config := by
  have hs := fun b => three_setters_exclusive w b
  have ho := fun b => other_setters_exclusive w b h
  unfold process_record_kb
  split
  · exact h
  · cases keycode <;> dsimp only
    · split
      · exact (ho _).2.2.2.2.1
      · exact h
    · split
      · exact (ho _).2.2.2.2.1
      · exact h
    · split
      · exact (ho _).2.2.2.2.2.2.1
      · exact h
    · split
      · exact (ho _).2.2.2.2.2.2.1
      · exact h
    · exact (ho _).1
    · split
      · exact (ho _).1
      · exact h
    · exact (hs _).1
    · split
      · exact (hs _).2.1
      · exact h
    · exact (hs _).2.1
    · split
      · exact (hs _).2.1
      · exact h
    · exact (hs _).2.2
    · split
      · exact (hs _).2.2
      · exact h
    · exact (ho _).2.1
    · split
      · exact (ho _).2.1
      · exact h
    · exact (ho _).2.2.1
    · split
      · exact (ho _).2.2.1
      · exact h
    · exact h

/-- A ModeSelect transition keeps exclusivity. -/
theorem mode_transition_exclusive (v : World)
    (h : three_mode_exclusive v.g_charybdis_config) :
    three_mode_exclusive (mode_transition v) := by
  unfold mode_transition
  split
  · split <;> (unfold three_mode_exclusive three_mode_count; simp)
  · split
    · unfold three_mode_exclusive three_mode_count; simp
    · exact three_mode_exclusive_congr _ _ rfl rfl rfl h

/-- The config a returning invocation of the engine leaves: the old one, or
in ModeSelect possibly the transition of the buffered motion. -/
theorem task_config (o : BuildOpts) (fuel : Nat) (w w' : World) (r r' : report_mouse_t)
    (h : pointing_device_task_charybdis o fuel w r = some (w', r')) :
    w'.g_charybdis_config = w.g_charybdis_config
    ∨ (w.g_charybdis_config.is_modemode_enabled = true
      ∧ w'.g_charybdis_config = mode_transition (buffered false true w r)) := by
  cases hmm : w.g_charybdis_config.is_modemode_enabled
  · left
    cases hds : w.g_charybdis_config.is_dragscroll_enabled
    · cases hcar : w.g_charybdis_config.is_carret_enabled
      · cases hcus : w.g_charybdis_config.is_custom_enabled
        · rw [task_pointing o fuel w r hmm hds hcar hcus] at h
          cases h
          exact (load_local_mouse_report_frame w r).1
        · rw [task_custom o fuel w r hmm hds hcar hcus] at h
          obtain ⟨s, hs, heq⟩ := Option.map_eq_some'.mp h
          cases heq
          exact (tap_tb_keys fuel _ _ _ _ _ _ hs).1.trans (buffered_frame false true w r).1
      · rw [task_carret o fuel w r hmm hds hcar] at h
        obtain ⟨s, hs, heq⟩ := Option.map_eq_some'.mp h
        cases heq
        exact (tap_tb_keys fuel _ _ _ _ _ _ hs).1.trans (buffered_frame _ _ w r).1
    · rw [task_dragscroll o fuel w r hmm hds] at h
      have h' := Option.some.inj h
      have hw := congrArg Prod.fst h'
      dsimp only at hw
      rw [← hw]
      exact (task_dragscroll_frame o w r).2.2.2
  · rw [task_modemode o fuel w r hmm] at h
    obtain ⟨s, hs, heq⟩ := Option.map_eq_some'.mp h
    cases heq
    obtain ⟨hlt, hge⟩ := tap_modes_spec fuel _ _ hs
    by_cases hm : magnitude (buffered false true w r) < CHARYBDIS_CARRET_BUFFER
    · left
      rw [hlt hm]
      exact (buffered_frame false true w r).1
    · right
      exact ⟨rfl, hge (by omega)⟩

/-- With a safe counter and fuel from 128 on, every invocation of the engine
returns. -/
theorem task_terminates (o : BuildOpts) (fuel : Nat) (w : World) (r : report_mouse_t)
    (hsafe : counter_safe w r) (hfuel : 128 ≤ fuel) :
    ∃ w' r', pointing_device_task_charybdis o fuel w r = some (w', r') := by
  unfold counter_safe at hsafe
  cases hmm : w.g_charybdis_config.is_modemode_enabled
  · cases hds : w.g_charybdis_config.is_dragscroll_enabled
    · cases hcar : w.g_charybdis_config.is_carret_enabled
      · cases hcus : w.g_charybdis_config.is_custom_enabled
        · exact ⟨_, _, task_pointing o fuel w r hmm hds hcar hcus⟩
        · have hb := buffered_magnitude_le false true w r
          have hT := local_carret_dpi_ge (buffered false true w r)
          obtain ⟨s, hs⟩ := tap_tb_terminates fuel hfuel CUSTOM_FN_RIGHT CUSTOM_FN_LEFT
            CUSTOM_FN_UP CUSTOM_FN_DOWN (buffered false true w r) (by omega)
          rw [task_custom o fuel w r hmm hds hcar hcus, hs]
          exact ⟨_, _, rfl⟩
      · have hb := buffered_magnitude_le o.CHARYBDIS_CARRET_REVERSE_X
          o.CHARYBDIS_CARRET_REVERSE_Y w r
        have hT := local_carret_dpi_ge
          (buffered o.CHARYBDIS_CARRET_REVERSE_X o.CHARYBDIS_CARRET_REVERSE_Y w r)
        obtain ⟨s, hs⟩ := tap_tb_terminates fuel hfuel KC_RIGHT KC_LEFT KC_UP KC_DOWN
          (buffered o.CHARYBDIS_CARRET_REVERSE_X o.CHARYBDIS_CARRET_REVERSE_Y w r) (by omega)
        rw [task_carret o fuel w r hmm hds hcar, hs]
        exact ⟨_, _, rfl⟩
    · exact ⟨_, _, task_dragscroll o fuel w r hmm hds⟩
  · have hb := buffered_magnitude_le false true w r
    obtain ⟨s, hs⟩ := tap_modes_terminates fuel hfuel (buffered false true w r)
      (by simp only [CHARYBDIS_CARRET_BUFFER]; omega)
    rw [task_modemode o fuel w r hmm, hs]
    exact ⟨_, _, rfl⟩

/-- C32: from any state whatsoever the setters of dragscroll, carret and
custom leave at most one of the three flags set; and from a state with at
most one of them set, so do the setters of sniping, modemode and integ,
`charybdis_set_pointer_disable_nonstacking`, the four DPI cycle functions,
`pointing_device_init_kb`, every keycode event of `process_record_kb`, and
every returning invocation of the motion engine, ModeSelect transitions
included; the engine returns for fuel from 128 on when the counter is safe. -/
theorem C32_three_mode_exclusivity (w : World) :
    (∀ enable : Bool,
      three_mode_exclusive
        (charybdis_set_pointer_dragscroll_enabled w enable).g_charybdis_config
      ∧ three_mode_exclusive (charybdis_set_pointer_carret_enabled w enable).g_charybdis_config
      ∧ three_mode_exclusive
        (charybdis_set_pointer_custom_enabled w enable).g_charybdis_config)
    ∧ (three_mode_exclusive w.g_charybdis_config →
      (∀ b : Bool,
        three_mode_exclusive (charybdis_set_pointer_sniping_enabled w b).g_charybdis_config
        ∧ three_mode_exclusive (charybdis_set_pointer_modemode_enabled w b).g_charybdis_config
        ∧ three_mode_exclusive (charybdis_set_pointer_integ_enabled w b).g_charybdis_config
        ∧ three_mode_exclusive
          (charybdis_set_pointer_disable_nonstacking w).g_charybdis_config
        ∧ three_mode_exclusive (charybdis_cycle_pointer_default_dpi w b).g_charybdis_config
        ∧ three_mode_exclusive
          (charybdis_cycle_pointer_default_dpi_noeeprom w b).g_charybdis_config
        ∧ three_mode_exclusive (charybdis_cycle_pointer_sniping_dpi w b).g_charybdis_config
        ∧ three_mode_exclusive
          (charybdis_cycle_pointer_sniping_dpi_noeeprom w b).g_charybdis_config
        ∧ three_mode_exclusive (pointing_device_init_kb w).g_charybdis_config)
      ∧ (∀ (keycode : charybdis_keycodes) (env : RecordEnv),
        three_mode_exclusive (process_record_kb w keycode env).1.g_charybdis_config)
      ∧ (∀ (o : BuildOpts) (fuel : Nat) (r : report_mouse_t) (w' : World)
          (r' : report_mouse_t),
        pointing_device_task_charybdis o fuel w r = some (w', r') →
        three_mode_exclusive w'.g_charybdis_config)
      ∧ (∀ (o : BuildOpts) (fuel : Nat) (r : report_mouse_t),
        counter_safe w r → 128 ≤ fuel →
        ∃ w' r', pointing_device_task_charybdis o fuel w r = some (w', r')
          ∧ three_mode_exclusive w'.g_charybdis_config)) := by
  have hengine : three_mode_exclusive w.g_charybdis_config →
      ∀ (o : BuildOpts) (fuel : Nat) (r : report_mouse_t) (w' : World) (r' : report_mouse_t),
      pointing_device_task_charybdis o fuel w r = some (w', r') →
      three_mode_exclusive w'.g_charybdis_config := by
    intro h o fuel r w' r' hrun
    rcases task_config o fuel w w' r r' hrun with hg | ⟨_, hg⟩
    · rw [hg]; exact h
    · rw [hg]
      apply mode_transition_exclusive
      rw [(buffered_frame false true w r).1]
      exact h
  refine ⟨fun enable => three_setters_exclusive w enable, fun h => ⟨fun b =>
    other_setters_exclusive w b h, fun keycode env => process_record_kb_exclusive w keycode env h,
    hengine h, ?_⟩⟩
  intro o fuel r hsafe hfuel
  obtain ⟨w', r', hrun⟩ := task_terminates o fuel w r hsafe hfuel
  exact ⟨w', r', hrun, hengine h o fuel r w' r' hrun⟩

/-- Witness of C32: ModeSelect from the initial state (no flag of the three
set), sample (50, 0): the invocation returns, the transition sets dragscroll
and at most one of the three flags is set afterwards; and a press of
`CUSTOM_MODE` keeps exclusivity. -/
theorem C32_three_mode_exclusivity_witness :
    three_mode_exclusive modemode_world.g_charybdis_config
    ∧ (∃ w' r', pointing_device_task_charybdis defaultBuild 128 modemode_world (sample 50 0)
          = some (w', r')
        ∧ three_mode_exclusive w'.g_charybdis_config)
    ∧ three_mode_exclusive
        (process_record_kb modemode_world charybdis_keycodes.CUSTOM_MODE
          press_event).1.g_charybdis_config :=
  ⟨by decide,
   ((C32_three_mode_exclusivity modemode_world).2 (by decide)).2.2.2 defaultBuild 128
      (sample 50 0) (by decide) (by decide),
   ((C32_three_mode_exclusivity modemode_world).2 (by decide)).2.1
      charybdis_keycodes.CUSTOM_MODE press_event⟩

/-- C33: for every state, `charybdis_set_pointer_dragscroll_enabled(false)`,
`charybdis_set_pointer_carret_enabled(false)` and
`charybdis_set_pointer_custom_enabled(false)` each leave dragscroll, carret
and custom all false; so the release event of `DRAGSCROLL_MODE`, of
`CARRET_MODE` or of `CUSTOM_MODE`, when `process_record_user` lets it through,
leaves all three false, whatever was toggled on before. -/
theorem C33_disable_one_disables_all (w : World) (env : RecordEnv)
    (huser : env.user_result = true) (hrelease : env.pressed = false) :
    three_modes_off (charybdis_set_pointer_dragscroll_enabled w false).g_charybdis_config
    ∧ three_modes_off (charybdis_set_pointer_carret_enabled w false).g_charybdis_config
    ∧ three_modes_off (charybdis_set_pointer_custom_enabled w false).g_charybdis_config
    ∧ three_modes_off
        (process_record_kb w charybdis_keycodes.DRAGSCROLL_MODE env).1.g_charybdis_config
    ∧ three_modes_off
        (process_record_kb w charybdis_keycodes.CARRET_MODE env).1.g_charybdis_config
    ∧ three_modes_off
        (process_record_kb w charybdis_keycodes.CUSTOM_MODE env).1.g_charybdis_config := by
  have h1 : three_modes_off
      (charybdis_set_pointer_dragscroll_enabled w false).g_charybdis_config := by
    rw [(mode_setters_g w false).1]
    exact ⟨rfl, rfl, rfl⟩
  have h2 : three_modes_off
      (charybdis_set_pointer_carret_enabled w false).g_charybdis_config := by
    rw [(mode_setters_g w false).2.1]
    exact ⟨rfl, rfl, rfl⟩
  have h3 : three_modes_off
      (charybdis_set_pointer_custom_enabled w false).g_charybdis_config := by
    rw [(mode_setters_g_more w false).1]
    exact ⟨rfl, rfl, rfl⟩
  refine ⟨h1, h2, h3, ?_, ?_, ?_⟩
  · unfold process_record_kb
    simp only [huser, hrelease, Bool.not_true, Bool.false_eq_true, if_false]
    exact h1
  · unfold process_record_kb
    simp only [huser, hrelease, Bool.not_true, Bool.false_eq_true, if_false]
    exact h2
  · unfold process_record_kb
    simp only [huser, hrelease, Bool.not_true, Bool.false_eq_true, if_false]
    exact h3

/-- Witness of C33: Caret is toggled on from the initial state, then the
momentary `DRAGSCROLL_MODE` key is pressed and released: the release leaves
dragscroll, carret and custom false. -/
theorem C33_disable_one_disables_all_witness :
    (process_record_kb World.init charybdis_keycodes.CARRET_MODE_TOGGLE
        press_event).1.g_charybdis_config.is_carret_enabled = true
    ∧ three_modes_off
        (process_record_kb
          (process_record_kb World.init charybdis_keycodes.CARRET_MODE_TOGGLE press_event).1
          charybdis_keycodes.DRAGSCROLL_MODE release_event).1.g_charybdis_config :=
  ⟨by decide,
   (C33_disable_one_disables_all
      (process_record_kb World.init charybdis_keycodes.CARRET_MODE_TOGGLE press_event).1
      release_event rfl rfl).2.2.2.1⟩

/-! ### The sticky-state invariant -/

theorem or_imp_or (a i b : Bool) (h : i = true → b = true) :
    (a || i) = true → (a || b) = true := by
  cases a <;> simp_all

/-- Function `activate_stkeys` keeps the sticky-state invariant. -/
theorem activate_stkeys_invariant (w : World) (h : sticky_invariant w) :
    sticky_invariant (activate_stkeys w) := by
  obtain ⟨_, ⟨a1, a2, a3, a4, a5, a6⟩, ⟨m1, m2, m3, m4⟩, ⟨l1, l2⟩, _⟩ := activate_stkeys_fields w
  obtain ⟨h1, h2, h3, h4, h5, h6⟩ := h
  unfold sticky_invariant
  rw [a1, a2, a3, a4, a5, a6, m1, m2, m3, m4, l1, l2]
  exact ⟨or_imp_or _ _ _ h1, or_imp_or _ _ _ h2, or_imp_or _ _ _ h3, or_imp_or _ _ _ h4,
    or_imp_or _ _ _ h5, or_imp_or _ _ _ h6⟩

/-- Function `unstick_keys` leaves the sticky-state invariant true, from any
state. -/
theorem unstick_keys_invariant (w : World) : sticky_invariant (unstick_keys w) := by
  obtain ⟨_, f1, f2, f3, f4, f5, f6⟩ := unstick_keys_fields w
  unfold sticky_invariant
  rw [f1, f2, f3, f4, f5, f6]
  simp

/-- The setters and the key tap of the tap branches write none of the fields
the invariant reads. -/
theorem tap_branch_invariant (w : World) (enable : Bool) (code : Nat) :
    (sticky_invariant (charybdis_set_pointer_dragscroll_enabled w enable) ↔ sticky_invariant w)
    ∧ (sticky_invariant (charybdis_set_pointer_sniping_enabled w enable) ↔ sticky_invariant w)
    ∧ (sticky_invariant (tap_code w code) ↔ sticky_invariant w) := by
  refine ⟨?_, ?_, ?_⟩ <;>
    simp only [sticky_invariant, mod_registered, layer_state_is,
      charybdis_set_pointer_dragscroll_enabled, charybdis_set_pointer_sniping_enabled,
      charybdis_set_pointer_disable_nonstacking, maybe_update_pointing_device_cpi_eq, tap_code,
      register_code, unregister_code]

/-- Turning a layer on sets its bit and keeps the bit of the other layer. -/
theorem layer_on_bits (v : World) :
    layer_state_is (layer_on v _RAISE) _RAISE = true
    ∧ layer_state_is (layer_on v _RAISE) _LOWER = layer_state_is v _LOWER
    ∧ layer_state_is (layer_on v _LOWER) _LOWER = true
    ∧ layer_state_is (layer_on v _LOWER) _RAISE = layer_state_is v _RAISE := by
  simp [layer_state_is, layer_on, Nat.testBit_or, _RAISE, _LOWER, testBit_masks]

/-- Every `finished` callback keeps the sticky-state invariant. -/
theorem tap_dance_finished_invariant (w : World) (state : qk_tap_dance_state_t) (time : Nat)
    (k : td_keycodes) (h : sticky_invariant w) :
    sticky_invariant (tap_dance_finished w state time k) := by
  cases k
  · show sticky_invariant (alttm_finished w state time)
    unfold alttm_finished
    dsimp only
    split
    · rw [(tap_branch_invariant _ true 0).1]
      exact h
    · split
      · exact activate_stkeys_invariant _ h
      · exact h
  · show sticky_invariant (sfttm_finished w state time)
    unfold sfttm_finished
    dsimp only
    split
    · exact h
    · split
      · exact activate_stkeys_invariant _ h
      · exact h
  · show sticky_invariant (ctltm_finished w state time)
    unfold ctltm_finished
    dsimp only
    split
    · rw [(tap_branch_invariant _ false 0).1, (tap_branch_invariant _ false 0).2.1]
      exact h
    · split
      · exact activate_stkeys_invariant _ h
      · exact h
  · show sticky_invariant (guitm_finished w state time)
    unfold guitm_finished
    dsimp only
    split
    · exact h
    · split
      · exact activate_stkeys_invariant _ h
      · exact h
  · have hw : sticky_invariant
        (layer_on
          { w with
            td_state := cur_dance state
            sticky_timer := timer_read32 time
            activate_rai := true
            is_rai_active := true
            sticky_key := true } _RAISE) := by
      obtain ⟨h1, h2, h3, h4, _, h6⟩ := h
      refine ⟨h1, h2, h3, h4, fun _ => (layer_on_bits _).1, fun hl => ?_⟩
      rw [(layer_on_bits _).2.1]
      exact h6 hl
    show sticky_invariant (raitm_finished w state time)
    unfold raitm_finished
    dsimp only
    split
    · exact hw
    · split
      · exact activate_stkeys_invariant _ hw
      · exact hw
  · have hw : sticky_invariant
        (layer_on
          { w with
            td_state := cur_dance state
            sticky_timer := timer_read32 time
            activate_low := true
            is_low_active := true
            sticky_key := true } _LOWER) := by
      obtain ⟨h1, h2, h3, h4, h5, _⟩ := h
      refine ⟨h1, h2, h3, h4, fun hr => ?_, fun _ => (layer_on_bits _).2.2.1⟩
      rw [(layer_on_bits _).2.2.2]
      exact h5 hr
    show sticky_invariant (lowtm_finished w state time)
    unfold lowtm_finished
    dsimp only
    split
    · exact hw
    · split
      · exact activate_stkeys_invariant _ hw
      · exact hw
  · show sticky_invariant (esctm_finished w state time)
    unfold esctm_finished
    dsimp only
    split
    · rw [(tap_branch_invariant _ false KC_ESC).2.2, (tap_branch_invariant _ false 0).1,
        (tap_branch_invariant _ false 0).2.1]
      exact h
    · split <;> exact h

/-- Every operation of the arbiter keeps the sticky-state invariant. -/
theorem sticky_op_invariant (w : World) (op : StickyOp) (h : sticky_invariant w) :
    sticky_invariant (StickyOp.apply w op) := by
  cases op with
  | finished k state time => exact tap_dance_finished_invariant w state time k h
  | reset k state =>
    show sticky_invariant (tap_dance_reset w state k)
    rw [tap_dance_reset_eq]
    split
    · exact unstick_keys_invariant w
    · exact h
  | activate => exact activate_stkeys_invariant w h
  | unstick => exact unstick_keys_invariant w

/-- Every sequence of operations keeps the sticky-state invariant. -/
theorem run_sticky_ops_invariant (ops : List StickyOp) :
    ∀ w : World, sticky_invariant w → sticky_invariant (run_sticky_ops w ops) := by
  induction ops with
  | nil => intro w h; exact h
  | cons op ops ih =>
    intro w h
    exact ih (StickyOp.apply w op) (sticky_op_invariant w op h)

/-- C31: in every state reached from the initial state by any sequence of the
seven `finished` callbacks, the seven `reset` callbacks, `activate_stkeys()`
and `unstick_keys()`, with any dance states and clocks, each `is_*_active` flag
that is true has its effect applied: `is_alt/sft/ctl/gui_active` implies the
left modifier bit is registered, `is_rai_active` implies the raise layer is on
and `is_low_active` implies the lower layer is on. -/
theorem C31_sticky_state_invariant (ops : List StickyOp) :
    ((run_sticky_ops World.init ops).is_alt_active = true →
      mod_registered (run_sticky_ops World.init ops) KC_LALT = true)
    ∧ ((run_sticky_ops World.init ops).is_sft_active = true →
      mod_registered (run_sticky_ops World.init ops) KC_LSFT = true)
    ∧ ((run_sticky_ops World.init ops).is_ctl_active = true →
      mod_registered (run_sticky_ops World.init ops) KC_LCTL = true)
    ∧ ((run_sticky_ops World.init ops).is_gui_active = true →
      mod_registered (run_sticky_ops World.init ops) KC_LGUI = true)
    ∧ ((run_sticky_ops World.init ops).is_rai_active = true →
      layer_state_is (run_sticky_ops World.init ops) _RAISE = true)
    ∧ ((run_sticky_ops World.init ops).is_low_active = true →
      layer_state_is (run_sticky_ops World.init ops) _LOWER = true) :=
  run_sticky_ops_invariant ops World.init (by decide)

/-- Witness of C31: a hold of the shift role, a tap of the raise role and a
hold of the alt role from the initial state leave `is_sft_active`,
`is_rai_active` and `is_alt_active` set, with left shift and left alt
registered and the raise layer on. -/
theorem C31_sticky_state_invariant_witness :
    (run_sticky_ops World.init
      [StickyOp.finished td_keycodes.SFT_TM hold_dance 0,
       StickyOp.finished td_keycodes.RAI_TM tap_dance 10,
       StickyOp.finished td_keycodes.ALT_TM hold_dance 20]).is_sft_active = true
    ∧ mod_registered
        (run_sticky_ops World.init
          [StickyOp.finished td_keycodes.SFT_TM hold_dance 0,
           StickyOp.finished td_keycodes.RAI_TM tap_dance 10,
           StickyOp.finished td_keycodes.ALT_TM hold_dance 20]) KC_LSFT = true
    ∧ layer_state_is
        (run_sticky_ops World.init
          [StickyOp.finished td_keycodes.SFT_TM hold_dance 0,
           StickyOp.finished td_keycodes.RAI_TM tap_dance 10,
           StickyOp.finished td_keycodes.ALT_TM hold_dance 20]) _RAISE = true :=
  ⟨by decide,
   (C31_sticky_state_invariant
      [StickyOp.finished td_keycodes.SFT_TM hold_dance 0,
       StickyOp.finished td_keycodes.RAI_TM tap_dance 10,
       StickyOp.finished td_keycodes.ALT_TM hold_dance 20]).2.1 (by decide),
   (C31_sticky_state_invariant
      [StickyOp.finished td_keycodes.SFT_TM hold_dance 0,
       StickyOp.finished td_keycodes.RAI_TM tap_dance 10,
       StickyOp.finished td_keycodes.ALT_TM hold_dance 20]).2.2.2.2.1 (by decide)⟩

/-! ### Exact tap count of `tap_tb` -/

theorem dominant_add_nondominant (w : World) : dominant w + nondominant w = magnitude w := by
  unfold dominant nondominant magnitude
  split <;> omega

theorem dominant_nonneg (w : World) : 0 ≤ nondominant w ∧ nondominant w ≤ dominant w := by
  have hx := abs_int_nonneg w.move_buffer_x
  have hy := abs_int_nonneg w.move_buffer_y
  unfold dominant nondominant
  split <;> constructor <;> omega

/-- The buffers of `tap_tb_closed`: the other buffer is 0 and the dominant
buffer has magnitude `max (d - taps * T) 0`. -/
theorem tap_tb_closed_buffers (k0 k1 k2 k3 : Nat) (w : World) :
    (abs w.move_buffer_x > abs w.move_buffer_y →
      abs (tap_tb_closed k0 k1 k2 k3 w).move_buffer_x
        = max (dominant w - (tap_count w : Int) * local_carret_dpi w) 0
      ∧ (tap_tb_closed k0 k1 k2 k3 w).move_buffer_y = 0)
    ∧ (abs w.move_buffer_x ≤ abs w.move_buffer_y →
      abs (tap_tb_closed k0 k1 k2 k3 w).move_buffer_y
        = max (dominant w - (tap_count w : Int) * local_carret_dpi w) 0
      ∧ (tap_tb_closed k0 k1 k2 k3 w).move_buffer_x = 0) := by
  constructor
  · intro c
    have hd : dominant w = abs w.move_buffer_x := if_pos c
    unfold tap_tb_closed
    rw [if_pos c, hd]
    refine ⟨?_, rfl⟩
    show abs (if w.move_buffer_x > 0 then
        max (w.move_buffer_x - (tap_count w : Int) * local_carret_dpi w) 0
      else min (w.move_buffer_x + (tap_count w : Int) * local_carret_dpi w) 0) = _
    by_cases hp : w.move_buffer_x > 0
    · have ha : abs w.move_buffer_x = w.move_buffer_x := by unfold abs; split <;> omega
      rw [if_pos hp, abs_max_zero, ha]
    · have ha : abs w.move_buffer_x = -w.move_buffer_x := by unfold abs; split <;> omega
      have e : -(w.move_buffer_x + (tap_count w : Int) * local_carret_dpi w)
          = -w.move_buffer_x - (tap_count w : Int) * local_carret_dpi w := by omega
      rw [if_neg hp, abs_min_zero, ha, e]
  · intro c
    have c' : ¬ abs w.move_buffer_x > abs w.move_buffer_y := by omega
    have hd : dominant w = abs w.move_buffer_y := if_neg c'
    unfold tap_tb_closed
    rw [if_neg c', hd]
    refine ⟨?_, rfl⟩
    show abs (if w.move_buffer_y > 0 then
        max (w.move_buffer_y - (tap_count w : Int) * local_carret_dpi w) 0
      else min (w.move_buffer_y + (tap_count w : Int) * local_carret_dpi w) 0) = _
    by_cases hp : w.move_buffer_y > 0
    · have ha : abs w.move_buffer_y = w.move_buffer_y := by unfold abs; split <;> omega
      rw [if_pos hp, abs_max_zero, ha]
    · have ha : abs w.move_buffer_y = -w.move_buffer_y := by unfold abs; split <;> omega
      have e : -(w.move_buffer_y + (tap_count w : Int) * local_carret_dpi w)
          = -w.move_buffer_y - (tap_count w : Int) * local_carret_dpi w := by omega
      rw [if_neg hp, abs_min_zero, ha, e]

/-- Below 250 thresholds the tap count stays within the 8-bit counter and
never exceeds `floor((d + n) / T)`. -/
theorem tap_count_bounds (t d n : Int) (ht : t = 10 ∨ t = 40 ∨ t = 200 ∨ t = 800)
    (hn : 0 ≤ n) (hnd : n ≤ d) (hge : t ≤ d + n) (hsafe : d + n < 250 * t) :
    0 ≤ min (d / t) ((d + n) / t / 2)
    ∧ min (d / t) ((d + n) / t / 2) ≤ 126
    ∧ 1 + min (d / t) ((d + n) / t / 2) ≤ (d + n) / t := by
  unfold min
  rcases ht with rfl | rfl | rfl | rfl <;> (split <;> refine ⟨?_, ?_, ?_⟩ <;> omega)

/-- C34: for every state with 16-bit buffers, threshold T = `local_carret_dpi`
(one of 10, 40, 200, 800), dominant magnitude d and other magnitude n with
T ≤ d + n < 250 T, one call of `tap_tb` returns exactly when its fuel exceeds
taps = 1 + min(floor(d / T), floor(floor((d + n) / T) / 2)) (so the loop
terminates), and every returning call has emitted exactly that many taps of
the keycode of the direction, left the dominant buffer with magnitude
max(d - taps * T, 0) and the other buffer at 0; the tap count never exceeds
floor((d + n) / T). -/
theorem C34_exact_tap_count (fuel : Nat) (k0 k1 k2 k3 : Nat) (w : World)
    (hx0 : -32768 ≤ w.move_buffer_x) (hx1 : w.move_buffer_x ≤ 32767)
    (hy0 : -32768 ≤ w.move_buffer_y) (hy1 : w.move_buffer_y ≤ 32767)
    (hge : local_carret_dpi w ≤ dominant w + nondominant w)
    (hsafe : dominant w + nondominant w < 250 * local_carret_dpi w) :
    (local_carret_dpi w = 10 ∨ local_carret_dpi w = 40
      ∨ local_carret_dpi w = 200 ∨ local_carret_dpi w = 800)
    ∧ tap_count w
      = (1 + min (dominant w / local_carret_dpi w)
          ((dominant w + nondominant w) / local_carret_dpi w / 2)).toNat
    ∧ ((tap_tb fuel k0 k1 k2 k3 w).isSome ↔ tap_count w < fuel)
    ∧ (∀ w', tap_tb fuel k0 k1 k2 k3 w = some w' →
        w'.key_events
          = w.key_events ++ key_taps (direction_keycode k0 k1 k2 k3 w) (tap_count w)
        ∧ (abs w.move_buffer_x > abs w.move_buffer_y →
            abs w'.move_buffer_x
              = max (dominant w - (tap_count w : Int) * local_carret_dpi w) 0
            ∧ w'.move_buffer_y = 0)
        ∧ (abs w.move_buffer_x ≤ abs w.move_buffer_y →
            abs w'.move_buffer_y
              = max (dominant w - (tap_count w : Int) * local_carret_dpi w) 0
            ∧ w'.move_buffer_x = 0))
    ∧ (tap_count w : Int) ≤ (dominant w + nondominant w) / local_carret_dpi w := by
  have ht := local_carret_dpi_cases w
  obtain ⟨hn0, hnd⟩ := dominant_nonneg w
  obtain ⟨b0, b1, b2⟩ := tap_count_bounds (local_carret_dpi w) (dominant w) (nondominant w) ht
    hn0 hnd hge hsafe
  have hex := tap_tb_exact fuel k0 k1 k2 k3 w (by rw [← dominant_add_nondominant]; exact hge)
    hx0 hx1 hy0 hy1 b1
  have hcast : (tap_count w : Int)
      = 1 + min (dominant w / local_carret_dpi w)
          ((dominant w + nondominant w) / local_carret_dpi w / 2) :=
    Int.toNat_of_nonneg (by omega)
  refine ⟨ht, rfl, ?_, ?_, ?_⟩
  · rw [hex]
    by_cases hf : tap_count w < fuel
    · rw [if_pos hf]; exact ⟨fun _ => hf, fun _ => rfl⟩
    · rw [if_neg hf]; exact ⟨fun h => (by cases h), fun h => absurd h hf⟩
  · intro w' h
    rw [hex] at h
    split at h
    · have e := Option.some.inj h
      rw [← e]
      exact ⟨tap_tb_closed_key_events k0 k1 k2 k3 w, tap_tb_closed_buffers k0 k1 k2 k3 w⟩
    · cases h
  · rw [hcast]
    exact b2

/-- Witness of C34: Caret mode, threshold 10, 50 buffered on the x axis
(d = 50, n = 0): `tap_tb` returns with fuel 128, has emitted
1 + min(5, 2) = 3 taps of `KC_RIGHT` and leaves 20 in the x buffer, still
two thresholds. -/
theorem C34_exact_tap_count_witness :
    (tap_tb 128 KC_RIGHT KC_LEFT KC_UP KC_DOWN carret_buffer_50).isSome
    ∧ ∀ w', tap_tb 128 KC_RIGHT KC_LEFT KC_UP KC_DOWN carret_buffer_50 = some w' →
        w'.key_events = key_taps KC_RIGHT 3 ∧ abs w'.move_buffer_x = 20 := by
  have H := C34_exact_tap_count 128 KC_RIGHT KC_LEFT KC_UP KC_DOWN carret_buffer_50
    (by decide) (by decide) (by decide) (by decide) (by decide) (by decide)
  refine ⟨H.2.2.1.mpr (by decide), fun w' h => ?_⟩
  obtain ⟨hk, hx, _⟩ := H.2.2.2.1 w' h
  exact ⟨hk.trans (by decide), (hx (by decide)).1.trans (by decide)⟩

/-! ### Sign conventions of Caret and Custom -/

/-- Caret accumulation in the default build from empty buffers: with
Integration off, or with the integrated sample still empty, an 8-bit sample
(x, y) leaves (x, y) in the motion buffers. -/
theorem buffered_caret_empty (w : World) (r : report_mouse_t)
    (hbx : w.move_buffer_x = 0) (hby : w.move_buffer_y = 0)
    (hload : w.g_charybdis_config.is_integ_enabled = false
      ∨ (w.local_mouse_report_x = 0 ∧ w.local_mouse_report_y = 0))
    (hx0 : -128 ≤ r.x) (hx1 : r.x ≤ 127) (hy0 : -128 ≤ r.y) (hy1 : r.y ≤ 127) :
    (buffered false false w r).move_buffer_x = r.x
    ∧ (buffered false false w r).move_buffer_y = r.y := by
  have ex : wrap16 r.x = r.x := wrap16_of_range _ (by omega) (by omega)
  have ey : wrap16 r.y = r.y := wrap16_of_range _ (by omega) (by omega)
  have ex0 : wrap16 (0 + r.x) = r.x := by rw [Int.zero_add]; exact ex
  have ey0 : wrap16 (0 + r.y) = r.y := by rw [Int.zero_add]; exact ey
  unfold buffered add_sample load_local_mouse_report
  cases hint : w.g_charybdis_config.is_integ_enabled
  · simp only [Bool.false_eq_true, if_false, hbx, hby, ex, ey, ex0, ey0, and_self]
  · rcases hload with h | ⟨hlx, hly⟩
    · rw [hint] at h; cases h
    · simp only [if_true, Bool.false_eq_true, if_false, hbx, hby, hlx, hly, ex0, ey0,
        and_self]

/-- From the threshold on, with 16-bit buffers and a magnitude below 127
thresholds, `tap_tb` returns for fuel from 128 on and has emitted at least
one tap, all of the keycode of the direction. -/
theorem tap_tb_emits (fuel : Nat) (hfuel : 128 ≤ fuel) (k0 k1 k2 k3 : Nat) (b : World)
    (hge : local_carret_dpi b ≤ magnitude b) (hsafe : magnitude b < 127 * local_carret_dpi b)
    (hx0 : -32768 ≤ b.move_buffer_x) (hx1 : b.move_buffer_x ≤ 32767)
    (hy0 : -32768 ≤ b.move_buffer_y) (hy1 : b.move_buffer_y ≤ 32767) :
    ∃ w' n, 1 ≤ n ∧ tap_tb fuel k0 k1 k2 k3 b = some w'
      ∧ w'.key_events = b.key_events ++ key_taps (direction_keycode k0 k1 k2 k3 b) n := by
  obtain ⟨w', h⟩ := tap_tb_terminates fuel hfuel k0 k1 k2 k3 b hsafe
  obtain ⟨⟨n, hn, hk⟩, _⟩ := tap_tb_direction fuel k0 k1 k2 k3 b w' h hge hx0 hx1 hy0 hy1
  exact ⟨w', n, hn, h, hk⟩

theorem abs_le_of_range (v : Int) (h0 : -128 ≤ v) (h1 : v ≤ 127) : abs v ≤ 128 := by
  unfold abs; split <;> omega

theorem abs_int_zero : abs 0 = 0 := rfl

/-- C35: in the default build, from empty buffers (Integration off, or its
integrated sample still empty) and with the same flags, an 8-bit sample that
crosses the threshold `local_carret_dpi` makes the invocation return for fuel
from 128 on with at least one tap, all of one keycode: for a purely vertical
sample (0, dy), `KC_UP` in Caret and `CUSTOM_FN_DOWN` in Custom when dy > 0,
`KC_DOWN` in Caret and `CUSTOM_FN_UP` in Custom when dy < 0; for a purely
horizontal sample (dx, 0), right in both modes when dx > 0 and left in both
when dx < 0. -/
theorem C35_opposite_vertical_sign (fuel : Nat) (w : World) (r : report_mouse_t)
    (hfuel : 128 ≤ fuel)
    (hmm : w.g_charybdis_config.is_modemode_enabled = false)
    (hds : w.g_charybdis_config.is_dragscroll_enabled = false)
    (hbx : w.move_buffer_x = 0) (hby : w.move_buffer_y = 0)
    (hload : w.g_charybdis_config.is_integ_enabled = false
      ∨ (w.local_mouse_report_x = 0 ∧ w.local_mouse_report_y = 0))
    (hx0 : -128 ≤ r.x) (hx1 : r.x ≤ 127) (hy0 : -128 ≤ r.y) (hy1 : r.y ≤ 127)
    (hcross : local_carret_dpi w ≤ abs r.x + abs r.y) :
    (r.x = 0 →
      (w.g_charybdis_config.is_carret_enabled = true →
        ∃ w' n, 1 ≤ n
          ∧ pointing_device_task_charybdis defaultBuild fuel w r
            = some (w', { r with x := 0, y := 0 })
          ∧ w'.key_events
            = w.key_events ++ key_taps (if r.y > 0 then KC_UP else KC_DOWN) n)
      ∧ (w.g_charybdis_config.is_carret_enabled = false →
        w.g_charybdis_config.is_custom_enabled = true →
        ∃ w' n, 1 ≤ n
          ∧ pointing_device_task_charybdis defaultBuild fuel w r
            = some (w', { r with x := 0, y := 0 })
          ∧ w'.key_events
            = w.key_events ++ key_taps (if r.y > 0 then CUSTOM_FN_DOWN else CUSTOM_FN_UP) n))
    ∧ (r.y = 0 →
      (w.g_charybdis_config.is_carret_enabled = true →
        ∃ w' n, 1 ≤ n
          ∧ pointing_device_task_charybdis defaultBuild fuel w r
            = some (w', { r with x := 0, y := 0 })
          ∧ w'.key_events
            = w.key_events ++ key_taps (if r.x > 0 then KC_RIGHT else KC_LEFT) n)
      ∧ (w.g_charybdis_config.is_carret_enabled = false →
        w.g_charybdis_config.is_custom_enabled = true →
        ∃ w' n, 1 ≤ n
          ∧ pointing_device_task_charybdis defaultBuild fuel w r
            = some (w', { r with x := 0, y := 0 })
          ∧ w'.key_events
            = w.key_events
              ++ key_taps (if r.x > 0 then CUSTOM_FN_RIGHT else CUSTOM_FN_LEFT) n)) := by
  have hT := local_carret_dpi_ge w
  have hax := abs_le_of_range r.x hx0 hx1
  have hay := abs_le_of_range r.y hy0 hy1
  have hax0 := abs_int_nonneg r.x
  have hay0 := abs_int_nonneg r.y
  obtain ⟨cx, cy⟩ := buffered_caret_empty w r hbx hby hload hx0 hx1 hy0 hy1
  obtain ⟨ux, uy⟩ := buffered_modeselect_empty w r hbx hby hload hx0 hx1 hy0 hy1
  have cT : local_carret_dpi (buffered false false w r) = local_carret_dpi w :=
    local_carret_dpi_congr _ _ (buffered_frame false false w r).1
  have uT : local_carret_dpi (buffered false true w r) = local_carret_dpi w :=
    local_carret_dpi_congr _ _ (buffered_frame false true w r).1
  have cm : magnitude (buffered false false w r) = abs r.x + abs r.y := by
    unfold magnitude; rw [cx, cy]
  have um : magnitude (buffered false true w r) = abs r.x + abs r.y := by
    unfold magnitude; rw [ux, uy, abs_neg_eq]
  have caret : w.g_charybdis_config.is_carret_enabled = true →
      ∃ w' n, 1 ≤ n
        ∧ pointing_device_task_charybdis defaultBuild fuel w r
          = some (w', { r with x := 0, y := 0 })
        ∧ w'.key_events
          = w.key_events
            ++ key_taps (direction_keycode KC_RIGHT KC_LEFT KC_UP KC_DOWN
                (buffered false false w r)) n := by
    intro hcar
    have ht : pointing_device_task_charybdis defaultBuild fuel w r
        = (tap_tb fuel KC_RIGHT KC_LEFT KC_UP KC_DOWN (buffered false false w r)).map
            (fun w3 => (w3, { r with x := 0, y := 0 })) :=
      task_carret defaultBuild fuel w r hmm hds hcar
    obtain ⟨w', n, hn, hrun, hk⟩ := tap_tb_emits fuel hfuel KC_RIGHT KC_LEFT KC_UP KC_DOWN
      (buffered false false w r) (by rw [cT, cm]; exact hcross) (by rw [cT, cm]; omega)
      (by rw [cx]; omega) (by rw [cx]; omega) (by rw [cy]; omega) (by rw [cy]; omega)
    refine ⟨w', n, hn, ?_, ?_⟩
    · rw [ht, hrun]; rfl
    · rw [hk, (buffered_frame false false w r).2]
  have custom : w.g_charybdis_config.is_carret_enabled = false →
      w.g_charybdis_config.is_custom_enabled = true →
      ∃ w' n, 1 ≤ n
        ∧ pointing_device_task_charybdis defaultBuild fuel w r
          = some (w', { r with x := 0, y := 0 })
        ∧ w'.key_events
          = w.key_events
            ++ key_taps (direction_keycode CUSTOM_FN_RIGHT CUSTOM_FN_LEFT CUSTOM_FN_UP
                CUSTOM_FN_DOWN (buffered false true w r)) n := by
    intro hcar hcus
    have ht := task_custom defaultBuild fuel w r hmm hds hcar hcus
    obtain ⟨w', n, hn, hrun, hk⟩ := tap_tb_emits fuel hfuel CUSTOM_FN_RIGHT CUSTOM_FN_LEFT
      CUSTOM_FN_UP CUSTOM_FN_DOWN
      (buffered false true w r) (by rw [uT, um]; exact hcross) (by rw [uT, um]; omega)
      (by rw [ux]; omega) (by rw [ux]; omega) (by rw [uy]; omega) (by rw [uy]; omega)
    refine ⟨w', n, hn, ?_, ?_⟩
    · rw [ht, hrun]; rfl
    · rw [hk, (buffered_frame false true w r).2]
  constructor
  · intro hx
    rw [hx, abs_int_zero] at hcross
    have hy_ne : abs r.y ≥ 10 := by omega
    have hyd : (r.y > 0 ∧ abs r.y = r.y) ∨ (r.y < 0 ∧ abs r.y = -r.y) := by
      unfold abs at hy_ne ⊢
      split <;> omega
    constructor
    · intro hcar
      have e : direction_keycode KC_RIGHT KC_LEFT KC_UP KC_DOWN (buffered false false w r)
          = if r.y > 0 then KC_UP else KC_DOWN := by
        unfold direction_keycode
        rw [cx, cy, hx, abs_int_zero, if_neg (by omega)]
      rw [← e]
      exact caret hcar
    · intro hcar hcus
      have e : direction_keycode CUSTOM_FN_RIGHT CUSTOM_FN_LEFT CUSTOM_FN_UP CUSTOM_FN_DOWN
          (buffered false true w r) = if r.y > 0 then CUSTOM_FN_DOWN else CUSTOM_FN_UP := by
        unfold direction_keycode
        rw [ux, uy, hx, abs_int_zero, abs_neg_eq, if_neg (by omega)]
        rcases hyd with ⟨hp, _⟩ | ⟨hn, _⟩
        · rw [if_neg (by omega), if_pos hp]
        · rw [if_pos (by omega), if_neg (by omega)]
      rw [← e]
      exact custom hcar hcus
  · intro hy
    rw [hy, abs_int_zero] at hcross
    have hx_ne : abs r.x ≥ 10 := by omega
    constructor
    · intro hcar
      have e : direction_keycode KC_RIGHT KC_LEFT KC_UP KC_DOWN (buffered false false w r)
          = if r.x > 0 then KC_RIGHT else KC_LEFT := by
        unfold direction_keycode
        rw [cx, cy, hy, abs_int_zero, if_pos (by omega)]
      rw [← e]
      exact caret hcar
    · intro hcar hcus
      have e : direction_keycode CUSTOM_FN_RIGHT CUSTOM_FN_LEFT CUSTOM_FN_UP CUSTOM_FN_DOWN
          (buffered false true w r) = if r.x > 0 then CUSTOM_FN_RIGHT else CUSTOM_FN_LEFT := by
        unfold direction_keycode
        rw [ux, uy, hy, Int.neg_zero, abs_int_zero, if_pos (by omega)]
      rw [← e]
      exact custom hcar hcus

/-- Witness of C35: from the initial state with Sniping and Integration off
(threshold 10), the sample (0, 20) taps `KC_UP` in Caret mode and
`CUSTOM_FN_DOWN` in Custom mode. -/
theorem C35_opposite_vertical_sign_witness :
    (∃ w' n, 1 ≤ n
      ∧ pointing_device_task_charybdis defaultBuild 128 carret_world (sample 0 20)
        = some (w', { sample 0 20 with x := 0, y := 0 })
      ∧ w'.key_events = key_taps KC_UP n)
    ∧ (∃ w' n, 1 ≤ n
      ∧ pointing_device_task_charybdis defaultBuild 128 custom_world (sample 0 20)
        = some (w', { sample 0 20 with x := 0, y := 0 })
      ∧ w'.key_events = key_taps CUSTOM_FN_DOWN n) := by
  constructor
  · obtain ⟨w', n, hn, hrun, hk⟩ :=
      ((C35_opposite_vertical_sign 128 carret_world (sample 0 20) (by decide) rfl rfl rfl rfl
        (Or.inl rfl) (by decide) (by decide) (by decide) (by decide) (by decide)).1 rfl).1 rfl
    exact ⟨w', n, hn, hrun, hk.trans (by simp [carret_world, World.init, sample])⟩
  · obtain ⟨w', n, hn, hrun, hk⟩ :=
      ((C35_opposite_vertical_sign 128 custom_world (sample 0 20) (by decide) rfl rfl rfl rfl
        (Or.inl rfl) (by decide) (by decide) (by decide) (by decide) (by decide)).1 rfl).2
        rfl rfl
    exact ⟨w', n, hn, hrun, hk.trans (by simp [custom_world, World.init, sample])⟩

/-! ### The threshold of `tap_modes` -/

/-- A loop whose body moves a positive `move_buffer_x` down by `t` and keeps
`move_buffer_y` returns with `move_buffer_x` strictly smaller and not
negative. -/
theorem loop_x_max_moves (bound : World → Int) (body : World → World) (t : Int) (ht : 0 < t)
    (hb : ∀ s : World, (body s).move_buffer_x = wrap16 (max (s.move_buffer_x - t) 0)
      ∧ (body s).move_buffer_y = s.move_buffer_y)
    (fuel : Nat) (w w' : World) (hpos : 0 ≤ bound w)
    (h0 : 0 < w.move_buffer_x) (h1 : w.move_buffer_x ≤ 32767)
    (h : for_int8 bound body fuel 0 w = some w') :
    w'.move_buffer_y = w.move_buffer_y ∧ 0 ≤ w'.move_buffer_x
      ∧ w'.move_buffer_x < w.move_buffer_x := by
  refine for_int8_first bound body
    (fun s => s.move_buffer_y = w.move_buffer_y ∧ 0 ≤ s.move_buffer_x
      ∧ s.move_buffer_x < w.move_buffer_x) ?_ fuel w w' hpos ?_ h
  · intro s hq
    have h3 := step_max_range s.move_buffer_x t (by omega) (by omega) ht
    refine ⟨(hb s).2.trans hq.1, ?_, ?_⟩
    · rw [(hb s).1]; omega
    · rw [(hb s).1]; omega
  · have h3 := step_max_range w.move_buffer_x t (by omega) (by omega) ht
    refine ⟨(hb w).2, ?_, ?_⟩
    · rw [(hb w).1]; omega
    · rw [(hb w).1]; omega

/-- A loop whose body moves a negative `move_buffer_x` up by `t` and keeps
`move_buffer_y` returns with `move_buffer_x` strictly larger and not
positive. -/
theorem loop_x_min_moves (bound : World → Int) (body : World → World) (t : Int) (ht : 0 < t)
    (hb : ∀ s : World, (body s).move_buffer_x = wrap16 (min (s.move_buffer_x + t) 0)
      ∧ (body s).move_buffer_y = s.move_buffer_y)
    (fuel : Nat) (w w' : World) (hpos : 0 ≤ bound w)
    (h0 : w.move_buffer_x < 0) (h1 : -32768 ≤ w.move_buffer_x)
    (h : for_int8 bound body fuel 0 w = some w') :
    w'.move_buffer_y = w.move_buffer_y ∧ w'.move_buffer_x ≤ 0
      ∧ w.move_buffer_x < w'.move_buffer_x := by
  refine for_int8_first bound body
    (fun s => s.move_buffer_y = w.move_buffer_y ∧ s.move_buffer_x ≤ 0
      ∧ w.move_buffer_x < s.move_buffer_x) ?_ fuel w w' hpos ?_ h
  · intro s hq
    have h3 := step_min_range s.move_buffer_x t (by omega) (by omega) ht
    refine ⟨(hb s).2.trans hq.1, ?_, ?_⟩
    · rw [(hb s).1]; omega
    · rw [(hb s).1]; omega
  · have h3 := step_min_range w.move_buffer_x t (by omega) (by omega) ht
    refine ⟨(hb w).2, ?_, ?_⟩
    · rw [(hb w).1]; omega
    · rw [(hb w).1]; omega

/-- A loop whose body moves a positive `move_buffer_y` down by `t` and keeps
`move_buffer_x` returns with `move_buffer_y` strictly smaller and not
negative. -/
theorem loop_y_max_moves (bound : World → Int) (body : World → World) (t : Int) (ht : 0 < t)
    (hb : ∀ s : World, (body s).move_buffer_y = wrap16 (max (s.move_buffer_y - t) 0)
      ∧ (body s).move_buffer_x = s.move_buffer_x)
    (fuel : Nat) (w w' : World) (hpos : 0 ≤ bound w)
    (h0 : 0 < w.move_buffer_y) (h1 : w.move_buffer_y ≤ 32767)
    (h : for_int8 bound body fuel 0 w = some w') :
    w'.move_buffer_x = w.move_buffer_x ∧ 0 ≤ w'.move_buffer_y
      ∧ w'.move_buffer_y < w.move_buffer_y := by
  refine for_int8_first bound body
    (fun s => s.move_buffer_x = w.move_buffer_x ∧ 0 ≤ s.move_buffer_y
      ∧ s.move_buffer_y < w.move_buffer_y) ?_ fuel w w' hpos ?_ h
  · intro s hq
    have h3 := step_max_range s.move_buffer_y t (by omega) (by omega) ht
    refine ⟨(hb s).2.trans hq.1, ?_, ?_⟩
    · rw [(hb s).1]; omega
    · rw [(hb s).1]; omega
  · have h3 := step_max_range w.move_buffer_y t (by omega) (by omega) ht
    refine ⟨(hb w).2, ?_, ?_⟩
    · rw [(hb w).1]; omega
    · rw [(hb w).1]; omega

/-- A loop whose body moves a negative `move_buffer_y` up by `t` and keeps
`move_buffer_x` returns with `move_buffer_y` strictly larger and not
positive. -/
theorem loop_y_min_moves (bound : World → Int) (body : World → World) (t : Int) (ht : 0 < t)
    (hb : ∀ s : World, (body s).move_buffer_y = wrap16 (min (s.move_buffer_y + t) 0)
      ∧ (body s).move_buffer_x = s.move_buffer_x)
    (fuel : Nat) (w w' : World) (hpos : 0 ≤ bound w)
    (h0 : w.move_buffer_y < 0) (h1 : -32768 ≤ w.move_buffer_y)
    (h : for_int8 bound body fuel 0 w = some w') :
    w'.move_buffer_x = w.move_buffer_x ∧ w'.move_buffer_y ≤ 0
      ∧ w.move_buffer_y < w'.move_buffer_y := by
  refine for_int8_first bound body
    (fun s => s.move_buffer_x = w.move_buffer_x ∧ s.move_buffer_y ≤ 0
      ∧ w.move_buffer_y < s.move_buffer_y) ?_ fuel w w' hpos ?_ h
  · intro s hq
    have h3 := step_min_range s.move_buffer_y t (by omega) (by omega) ht
    refine ⟨(hb s).2.trans hq.1, ?_, ?_⟩
    · rw [(hb s).1]; omega
    · rw [(hb s).1]; omega
  · have h3 := step_min_range w.move_buffer_y t (by omega) (by omega) ht
    refine ⟨(hb w).2, ?_, ?_⟩
    · rw [(hb w).1]; omega
    · rw [(hb w).1]; omega

/-- From the threshold on, with 16-bit buffers, a returning call of
`tap_modes` has run its loop body: the buffered magnitude is strictly
smaller afterwards. -/
theorem tap_modes_moves (fuel : Nat) (w w' : World) (h : tap_modes fuel w = some w')
    (hge : CHARYBDIS_CARRET_BUFFER ≤ magnitude w)
    (hx0 : -32768 ≤ w.move_buffer_x) (hx1 : w.move_buffer_x ≤ 32767)
    (hy0 : -32768 ≤ w.move_buffer_y) (hy1 : w.move_buffer_y ≤ 32767) :
    magnitude w' < magnitude w := by
  have ht : (0 : Int) < CHARYBDIS_CARRET_BUFFER := by decide
  have h40 : CHARYBDIS_CARRET_BUFFER = 40 := rfl
  have hpos : 0 ≤ (abs w.move_buffer_x + abs w.move_buffer_y) / CHARYBDIS_CARRET_BUFFER :=
    Int.ediv_nonneg (magnitude_nonneg w) (by decide)
  have hax := abs_int_nonneg w.move_buffer_x
  have hay := abs_int_nonneg w.move_buffer_y
  have haxd : abs w.move_buffer_x = w.move_buffer_x ∨ abs w.move_buffer_x = -w.move_buffer_x := by
    unfold abs; split <;> simp
  have hayd : abs w.move_buffer_y = w.move_buffer_y ∨ abs w.move_buffer_y = -w.move_buffer_y := by
    unfold abs; split <;> simp
  have habs : ∀ v : Int, (0 ≤ v → abs v = v) ∧ (v ≤ 0 → abs v = -v) := by
    intro v
    unfold abs
    constructor <;> intro _ <;> split <;> omega
  unfold magnitude at hge ⊢
  unfold tap_modes at h
  dsimp only at h
  rw [if_neg (by omega)] at h
  split at h
  · rename_i c
    obtain ⟨s, hs, rfl⟩ := Option.map_eq_some'.mp h
    have key : s.move_buffer_y = w.move_buffer_y ∧ 0 ≤ s.move_buffer_x
        ∧ s.move_buffer_x < w.move_buffer_x := by
      refine loop_x_max_moves _ _ CHARYBDIS_CARRET_BUFFER ht ?_ fuel w s hpos c.2 hx1 hs
      intro u
      refine ⟨?_, (mode_setters_frame u true).1.2.2⟩
      show wrap16 (max ((charybdis_set_pointer_dragscroll_enabled u true).move_buffer_x
        - CHARYBDIS_CARRET_BUFFER) 0) = _
      rw [(mode_setters_frame u true).1.2.1]
    show abs s.move_buffer_x + abs 0 < _
    rw [(habs _).1 key.2.1, abs_int_zero]
    omega
  · split at h
    · rename_i c
      obtain ⟨s, hs, rfl⟩ := Option.map_eq_some'.mp h
      have key : s.move_buffer_y = w.move_buffer_y ∧ s.move_buffer_x ≤ 0
          ∧ w.move_buffer_x < s.move_buffer_x := by
        refine loop_x_min_moves _ _ CHARYBDIS_CARRET_BUFFER ht ?_ fuel w s hpos (by omega) hx0 hs
        intro u
        refine ⟨?_, (mode_setters_frame u true).2.1.2.2⟩
        show wrap16 (min ((charybdis_set_pointer_carret_enabled u true).move_buffer_x
          + CHARYBDIS_CARRET_BUFFER) 0) = _
        rw [(mode_setters_frame u true).2.1.2.1]
      show abs s.move_buffer_x + abs 0 < _
      rw [(habs _).2 key.2.1, abs_int_zero]
      omega
    · split at h
      · rename_i c
        obtain ⟨s, hs, rfl⟩ := Option.map_eq_some'.mp h
        have key : s.move_buffer_x = w.move_buffer_x ∧ 0 ≤ s.move_buffer_y
            ∧ s.move_buffer_y < w.move_buffer_y := by
          refine loop_y_max_moves _ _ CHARYBDIS_CARRET_BUFFER ht ?_ fuel w s hpos c.2 hy1 hs
          intro u
          refine ⟨?_, ?_⟩
          · show wrap16 (max ((charybdis_set_pointer_integ_enabled
              (charybdis_set_pointer_disable_nonstacking u) false).move_buffer_y
              - CHARYBDIS_CARRET_BUFFER) 0) = _
            rw [(mode_setters_frame (charybdis_set_pointer_disable_nonstacking u)
              false).2.2.1.2.2, (mode_setters_frame u false).2.2.2.2.2]
          · exact ((mode_setters_frame (charybdis_set_pointer_disable_nonstacking u)
              false).2.2.1.2.1).trans (mode_setters_frame u false).2.2.2.2.1
        show abs 0 + abs s.move_buffer_y < _
        rw [(habs _).1 key.2.1, abs_int_zero]
        omega
      · split at h
        · rename_i c
          obtain ⟨s, hs, rfl⟩ := Option.map_eq_some'.mp h
          have key : s.move_buffer_x = w.move_buffer_x ∧ s.move_buffer_y ≤ 0
              ∧ w.move_buffer_y < s.move_buffer_y := by
            refine loop_y_min_moves _ _ CHARYBDIS_CARRET_BUFFER ht ?_ fuel w s hpos (by omega)
              hy0 hs
            intro u
            refine ⟨?_, (mode_setters_frame u true).2.2.1.2.1⟩
            show wrap16 (min ((charybdis_set_pointer_integ_enabled u true).move_buffer_y
              + CHARYBDIS_CARRET_BUFFER) 0) = _
            rw [(mode_setters_frame u true).2.2.1.2.2]
          show abs 0 + abs s.move_buffer_y < _
          rw [(habs _).2 key.2.1, abs_int_zero]
          omega
        · exfalso
          omega

/-- C36: the threshold of `tap_modes` is the constant 40, whatever the Sniping
and Integration flags: below 40 it returns the state unchanged for any fuel
and performs no transition; from 40 on every returning call has performed
the transition of the direction (the config is `mode_transition` and, with
16-bit buffers, the buffered magnitude has decreased), and it returns for
fuel from 128 on when the magnitude is below 127 * 40. With Sniping and
Integration off the threshold of `tap_tb` is 10, so a magnitude in [10, 39]
makes `tap_tb` emit at least one key tap while `tap_modes` does nothing. -/
theorem C36_modeselect_threshold_fixed (fuel : Nat) (w : World)
    (hx0 : -32768 ≤ w.move_buffer_x) (hx1 : w.move_buffer_x ≤ 32767)
    (hy0 : -32768 ≤ w.move_buffer_y) (hy1 : w.move_buffer_y ≤ 32767) :
    (magnitude w < 40 → tap_modes fuel w = some w)
    ∧ (40 ≤ magnitude w →
        (∀ w', tap_modes fuel w = some w' →
          w'.g_charybdis_config = mode_transition w ∧ magnitude w' < magnitude w ∧ w' ≠ w)
        ∧ (magnitude w < 127 * 40 → 128 ≤ fuel → ∃ w', tap_modes fuel w = some w'))
    ∧ (w.g_charybdis_config.is_sniping_enabled = false →
        w.g_charybdis_config.is_integ_enabled = false →
        10 ≤ magnitude w → magnitude w < 40 → 128 ≤ fuel →
        tap_modes fuel w = some w
        ∧ ∃ w' k n, 1 ≤ n ∧ tap_tb fuel KC_RIGHT KC_LEFT KC_UP KC_DOWN w = some w'
            ∧ w'.key_events = w.key_events ++ key_taps k n) := by
  have h40 : CHARYBDIS_CARRET_BUFFER = 40 := rfl
  have hbelow : magnitude w < 40 → tap_modes fuel w = some w := by
    intro hlt
    unfold tap_modes
    dsimp only
    rw [if_pos (by unfold magnitude at hlt; rw [h40]; exact hlt)]
  refine ⟨hbelow, ?_, ?_⟩
  · intro hge
    constructor
    · intro w' h
      have hm := tap_modes_moves fuel w w' h (by rw [h40]; exact hge) hx0 hx1 hy0 hy1
      refine ⟨(tap_modes_spec fuel w w' h).2 (by rw [h40]; exact hge), hm, ?_⟩
      intro e
      rw [e] at hm
      omega
    · intro hsafe hfuel
      exact tap_modes_terminates fuel hfuel w (by rw [h40]; exact hsafe)
  · intro hsn hint h10 hlt hfuel
    have hT : local_carret_dpi w = 10 := by
      rw [local_carret_dpi_eq, hsn, hint]
      rfl
    refine ⟨hbelow hlt, ?_⟩
    obtain ⟨w', n, hn, hrun, hk⟩ := tap_tb_emits fuel hfuel KC_RIGHT KC_LEFT KC_UP KC_DOWN w
      (by rw [hT]; exact h10) (by rw [hT]; omega) hx0 hx1 hy0 hy1
    exact ⟨w', _, n, hn, hrun, hk⟩

/-- Witness of C36: ModeSelect with 39 on the x axis: `tap_modes` does
nothing, while `tap_tb` emits (threshold 10); with 40 on the x axis
`tap_modes` returns and has enabled DragScroll. -/
theorem C36_modeselect_threshold_fixed_witness :
    tap_modes 128 modemode_buffer_39 = some modemode_buffer_39
    ∧ (∃ w' k n, 1 ≤ n ∧ tap_tb 128 KC_RIGHT KC_LEFT KC_UP KC_DOWN modemode_buffer_39 = some w'
        ∧ w'.key_events = modemode_buffer_39.key_events ++ key_taps k n)
    ∧ ∃ w', tap_modes 128 modemode_buffer_40 = some w'
        ∧ w'.g_charybdis_config.is_dragscroll_enabled = true := by
  have H39 := C36_modeselect_threshold_fixed 128 modemode_buffer_39 (by decide) (by decide)
    (by decide) (by decide)
  have H40 := C36_modeselect_threshold_fixed 128 modemode_buffer_40 (by decide) (by decide)
    (by decide) (by decide)
  refine ⟨H39.1 (by decide), (H39.2.2 rfl rfl (by decide) (by decide) (by decide)).2, ?_⟩
  obtain ⟨w', h⟩ := (H40.2.1 (by decide)).2 (by decide) (by decide)
  exact ⟨w', h, by rw [((H40.2.1 (by decide)).1 w' h).1]; decide⟩

end Tractyl
